import Mathlib

/-!
# Verification of `bb_multimesh_showcase`

A shallow embedding of `src/python/bb_multimesh_showcase/main.py`.

The script talks to a host 3D application through its `cmds` API.  We model:

* Python floats (only ever finite values, `float('inf')` and `float('-inf')`
  appear) by the type `XF` of rationals extended with infinities and a NaN,
  with Python's `min`/`max`/`-` semantics on them;
* the function `calculate_bounding_box` directly over that type;
* `duplicate_and_deform` as a generator of the trace of host-API calls it
  performs, parameterised by a `Host` record supplying everything the host
  returns (current selection, shape listing, bounding boxes, dialog replies,
  existence queries, names chosen for duplicated nodes);
* the host's scene graph as a list of named nodes with a parent pointer and,
  for blend-shape nodes, a pointer to the deformed geometry; an interpreter
  `runEvents` gives each traced call its effect on the scene (creation,
  renaming, reparenting, pattern-based deletion with child cascading and
  deletion of a blend shape when its deformed geometry dies, selection).
-/

/-- Python float values occurring in the script: finite numbers (modelled as
rationals), the two infinities used as fold seeds, and NaN. -/
inductive XF where
  | ninf : XF
  | fin : ℚ → XF
  | inf : XF
  | nan : XF
deriving DecidableEq, Repr

/-- Python `<` on these float values; any comparison with NaN is false. -/
def xlt : XF → XF → Bool
  | XF.fin a, XF.fin b => a < b
  | XF.ninf, XF.fin _ => true
  | XF.ninf, XF.inf => true
  | XF.fin _, XF.inf => true
  | _, _ => false

/-- Python `min(a, b)`: returns `b` exactly when `b < a`. -/
def pymin (a b : XF) : XF := if xlt b a then b else a

/-- Python `max(a, b)`: returns `b` exactly when `a < b`. -/
def pymax (a b : XF) : XF := if xlt a b then b else a

/-- Python subtraction on these float values. -/
def xsub : XF → XF → XF
  | XF.fin a, XF.fin b => XF.fin (a - b)
  | XF.inf, XF.fin _ => XF.inf
  | XF.inf, XF.ninf => XF.inf
  | XF.fin _, XF.ninf => XF.inf
  | XF.ninf, XF.fin _ => XF.ninf
  | XF.ninf, XF.inf => XF.ninf
  | XF.fin _, XF.inf => XF.ninf
  | _, _ => XF.nan

/-- The value of a finite `XF`; junk on non-finite values. -/
def XF.toQ : XF → ℚ
  | XF.fin q => q
  | _ => 0

/-- Result of `cmds.exactWorldBoundingBox(mesh)`: the six floats
`[x_min, y_min, z_min, x_max, y_max, z_max]` (always finite). -/
structure BBoxR where
  xmin : ℚ
  ymin : ℚ
  zmin : ℚ
  xmax : ℚ
  ymax : ℚ
  zmax : ℚ
deriving DecidableEq, Repr

/-- The six accumulator variables of `calculate_bounding_box`. -/
structure BState where
  x_min : XF
  y_min : XF
  z_min : XF
  x_max : XF
  y_max : XF
  z_max : XF
deriving DecidableEq, Repr

/-- One iteration of the `for mesh in meshes` loop of
`calculate_bounding_box` (main.py lines 34-41). -/
def bbStep (bbox : String → BBoxR) (acc : BState) (mesh : String) : BState :=
  let b := bbox mesh
  { x_min := pymin acc.x_min (XF.fin b.xmin)
    y_min := pymin acc.y_min (XF.fin b.ymin)
    z_min := pymin acc.z_min (XF.fin b.zmin)
    x_max := pymax acc.x_max (XF.fin b.xmax)
    y_max := pymax acc.y_max (XF.fin b.ymax)
    z_max := pymax acc.z_max (XF.fin b.zmax) }

/-- `calculate_bounding_box(meshes)` (main.py lines 30-48): accumulators start
at `float('inf')` / `float('-inf')` and are folded over the meshes; the
function returns `(width, height, depth)`. -/
def calculate_bounding_box (bbox : String → BBoxR) (meshes : List String) :
    XF × XF × XF :=
  let st := meshes.foldl (bbStep bbox)
    ⟨XF.inf, XF.inf, XF.inf, XF.ninf, XF.ninf, XF.ninf⟩
  (xsub st.x_max st.x_min, xsub st.y_max st.y_min, xsub st.z_max st.z_min)

lemma pymin_fin_fin (a b : ℚ) : pymin (XF.fin a) (XF.fin b) = XF.fin (min a b) := by
  unfold pymin xlt
  by_cases h : b < a
  · simp [h, min_eq_right (le_of_lt h)]
  · simp [h, min_eq_left (le_of_not_lt h)]

lemma pymax_fin_fin (a b : ℚ) : pymax (XF.fin a) (XF.fin b) = XF.fin (max a b) := by
  unfold pymax xlt
  by_cases h : a < b
  · simp [h, max_eq_right (le_of_lt h)]
  · simp [h, max_eq_left (le_of_not_lt h)]

lemma bb_fold_fin (bbox : String → BBoxR) (ms : List String) :
    ∀ a b c d e f : ℚ,
      ms.foldl (bbStep bbox) ⟨XF.fin a, XF.fin b, XF.fin c, XF.fin d, XF.fin e, XF.fin f⟩ =
        ⟨XF.fin (ms.foldl (fun x m => min x (bbox m).xmin) a),
         XF.fin (ms.foldl (fun x m => min x (bbox m).ymin) b),
         XF.fin (ms.foldl (fun x m => min x (bbox m).zmin) c),
         XF.fin (ms.foldl (fun x m => max x (bbox m).xmax) d),
         XF.fin (ms.foldl (fun x m => max x (bbox m).ymax) e),
         XF.fin (ms.foldl (fun x m => max x (bbox m).zmax) f)⟩ := by
  induction ms with
  | nil => intro a b c d e f; rfl
  | cons m rest ih =>
      intro a b c d e f
      simp only [List.foldl_cons]
      rw [show bbStep bbox ⟨XF.fin a, XF.fin b, XF.fin c, XF.fin d, XF.fin e, XF.fin f⟩ m =
            ⟨XF.fin (min a (bbox m).xmin), XF.fin (min b (bbox m).ymin),
             XF.fin (min c (bbox m).zmin), XF.fin (max d (bbox m).xmax),
             XF.fin (max e (bbox m).ymax), XF.fin (max f (bbox m).zmax)⟩ from by
        simp [bbStep, pymin_fin_fin, pymax_fin_fin]]
      exact ih _ _ _ _ _ _

/-- Claim C2: on a non-empty mesh list, `calculate_bounding_box` is the
single-pass fold returning the triple `(width, height, depth)` with
`width = (max over meshes of x_max) - (min over meshes of x_min)` and
analogously for `height` over `y` and `depth` over `z`: the extents of the
axis-aligned box enclosing all the meshes' world-space bounding boxes. -/
theorem claim_C2 (bbox : String → BBoxR) (m0 : String) (ms : List String) :
    calculate_bounding_box bbox (m0 :: ms) =
      (XF.fin ((ms.foldl (fun x m => max x (bbox m).xmax) (bbox m0).xmax)
                - ms.foldl (fun x m => min x (bbox m).xmin) (bbox m0).xmin),
       XF.fin ((ms.foldl (fun x m => max x (bbox m).ymax) (bbox m0).ymax)
                - ms.foldl (fun x m => min x (bbox m).ymin) (bbox m0).ymin),
       XF.fin ((ms.foldl (fun x m => max x (bbox m).zmax) (bbox m0).zmax)
                - ms.foldl (fun x m => min x (bbox m).zmin) (bbox m0).zmin)) := by
  unfold calculate_bounding_box
  simp only [List.foldl_cons]
  rw [show bbStep bbox ⟨XF.inf, XF.inf, XF.inf, XF.ninf, XF.ninf, XF.ninf⟩ m0 =
        ⟨XF.fin (bbox m0).xmin, XF.fin (bbox m0).ymin, XF.fin (bbox m0).zmin,
         XF.fin (bbox m0).xmax, XF.fin (bbox m0).ymax, XF.fin (bbox m0).zmax⟩ from rfl]
  rw [bb_fold_fin]
  rfl

/-- `"{:02d}".format(k)`: decimal digits zero-padded to width two. -/
def pad2 (k : ℕ) : String := if k < 10 then "0" ++ toString k else toString k

/-- Name of the i-th duplicate group (0-based `i`):
`"BB_Duplicate_Mesh_{:02d}".format(i+1)` (main.py line 116). -/
def gname (i : ℕ) : String := "BB_Duplicate_Mesh_" ++ pad2 (i + 1)

/-- Name of the i-th control circle, `group_node + "_ctrl"` (line 126). -/
def cname (i : ℕ) : String := gname i ++ "_ctrl"

/-- Split a character list on `:` (Python `str.split(":")`): always returns at
least one (possibly empty) segment. -/
def splitCols : List Char → List (List Char)
  | [] => [[]]
  | c :: cs =>
      match splitCols cs with
      | [] => [[]]
      | g :: gs => if c = ':' then [] :: g :: gs else (c :: g) :: gs

/-- `mesh.split(":")[-1]` (main.py line 120): the segment after the last
namespace separator. -/
def shortName (s : String) : String := ⟨(splitCols s.data).getLastD []⟩

/-- `offset_positions` table (main.py line 136). -/
def offset_positions : List (ℚ × ℚ) := [(1, 7/10), (-1, 7/10), (1, 0), (-1, 0)]

/-- `rotation_values` table (main.py line 137). -/
def rotation_values : List (ℚ × ℚ × ℚ) := [(0, 90, 0), (0, -90, 0), (0, 0, 0), (0, 180, 0)]

/-- Everything the host application supplies to one invocation of
`duplicate_and_deform`: query results and the names the host picks for nodes
whose final name is not dictated by the script. -/
structure Host where
  /-- `cmds.ls(sl=True)` (line 54). -/
  initialSelection : List String
  /-- The shapes returned by `cmds.ls(sl=True, dag=True, leaf=True, ...)`
  (line 55) together with their `cmds.nodeType` (line 56). -/
  shapes : List (String × String)
  /-- `cmds.exactWorldBoundingBox(mesh)` (line 35). -/
  bbox : String → BBoxR
  /-- The user's reply to the large-copy-count confirmation dialog (line 67):
  `true` for Yes. -/
  confirmYes : Bool
  /-- `cmds.objExists("BB_Duplicates_Grp")` (line 71). -/
  grpExists : Bool
  /-- `cmds.window("newWindow", exists=True)` (line 87). -/
  newWindowExists : Bool
  /-- The name `cmds.duplicate(mesh)[0]` returns in loop iteration `i`
  (line 119). -/
  dupName : String → ℕ → String
  /-- The name `cmds.blendShape(...)[0]` returns for `mesh` in iteration `i`
  (line 122). -/
  bsName : String → ℕ → String

/-- `selected_meshes` after the `nodeType` filter (main.py lines 55-56). -/
def selectedMeshesOf (h : Host) : List String :=
  (h.shapes.filter (fun p => p.2 == "mesh" || p.2 == "nurbsSurface")).map Prod.fst

/-- One host-API call made by the script, with the arguments that reach the
host and, for queries and name-choosing calls, the host's answer. -/
inductive Ev where
  | lsSel (res : List String)
  | lsShapes (res : List String)
  | nodeTypeQ (node : String) (res : String)
  | warning (msg : String)
  | bboxQuery (mesh : String)
  | question (yes : Bool)
  | objExistsQ (name : String) (res : Bool)
  | deleteLs (queries : List (String × Option String))
  | group (name : String)
  | camera (name : String)
  | move (x y z : ℚ) (target : String) (localSpace : Bool)
  | parent (child par : String)
  | windowCheck (name : String) (res : Bool)
  | deleteUI (name : String)
  | window (name title : String)
  | paneLayout
  | modelPanel (label : String)
  | modelPanelCam (cam : String)
  | modelEditorEdit (flags : String)
  | showWindow (name : String)
  | lookThru (cam : String)
  | select (targets : List String)
  | viewFit (f : ℚ)
  | duplicate (src res : String)
  | rename (old new : String)
  | blendShape (src tgt reqName resName : String)
  | setAttr (attr : String) (v : ℚ)
  | setAttr3 (attr : String) (a b c : ℚ)
  | circle (name : String) (nx ny nz : ℚ) (radius : ℚ)
  | scaleEv (x y z : ℚ) (target : String)
  | rotate (x y z : ℚ) (target : String)
  | parentConstraint (driver driven : String)
  | scaleConstraint (driver driven : String)
deriving DecidableEq, Repr

/-- The calls made by `remove_duplicates()` (main.py lines 21-27): one delete
of the `cmds.ls` pattern queries for duplicated meshes, control circles and
blend-shape nodes, then one delete of the two group nodes by exact name. -/
def removeDuplicatesEvents : List Ev :=
  [Ev.deleteLs [("*BB_Duplicate_Mesh*dup*", some "transform"),
                ("*BB_Duplicate_Mesh*ctrl*", some "transform"),
                ("*BB_Duplicate_Mesh*bs*", some "blendShape")],
   Ev.deleteLs [("BB_Duplicates_Grp", none), ("BB_Duplicate_Showcase_Grp", none)]]

/-- The camera/showcase construction (main.py lines 78-111), performed when
`showcase_setup` is set. -/
def showcaseEvents (initSel : List String) (height depth : ℚ)
    (newWindowExists : Bool) : List Ev :=
  [Ev.deleteLs [("renderCam", none)],
   Ev.camera "renderCam",
   Ev.move 0 (1/2 * height) (6 * depth) "renderCam" false,
   Ev.group "BB_Duplicate_Showcase_Grp",
   Ev.parent "renderCam" "BB_Duplicate_Showcase_Grp",
   Ev.parent "BB_Duplicates_Grp" "renderCam",
   Ev.windowCheck "newWindow" newWindowExists]
  ++ (if newWindowExists then [Ev.deleteUI "newWindow"] else [])
  ++ [Ev.window "Showcase" "Showcase",
      Ev.paneLayout,
      Ev.modelPanel "Camera View",
      Ev.modelPanelCam "renderCam",
      Ev.modelEditorEdit "allObjects=False",
      Ev.modelEditorEdit "polymeshes=True",
      Ev.modelEditorEdit "motionTrails=True",
      Ev.modelEditorEdit "grid=False",
      Ev.modelEditorEdit "displayAppearance=smoothShaded displayTextures=True",
      Ev.modelEditorEdit "nurbsCurves=False",
      Ev.showWindow "Showcase",
      Ev.lookThru "renderCam",
      Ev.select initSel,
      Ev.viewFit (1/2)]

/-- The inner `for mesh in selected_meshes` body (main.py lines 118-124):
duplicate, rename to `dup_<shortname>_<NN>`, blend shape from the source mesh
to the duplicate, set the blend-shape weight of the source to 1, parent the
duplicate under the group node. -/
def meshEvents (h : Host) (i : ℕ) (g : String) (mesh : String) : List Ev :=
  [Ev.duplicate mesh (h.dupName mesh i),
   Ev.rename (h.dupName mesh i) ("dup_" ++ shortName mesh ++ "_" ++ pad2 (i + 1)),
   Ev.blendShape mesh ("dup_" ++ shortName mesh ++ "_" ++ pad2 (i + 1))
     (g ++ "_BS") (h.bsName mesh i),
   Ev.setAttr (h.bsName mesh i ++ "." ++ shortName mesh) 1,
   Ev.parent ("dup_" ++ shortName mesh ++ "_" ++ pad2 (i + 1)) g]

/-- One iteration of the duplication loop (main.py lines 115-150). -/
def iterEvents (h : Host) (num_copies : ℤ) (scale_factor : ℚ)
    (showcase_setup : Bool) (width height depth : ℚ)
    (meshes : List String) (i : ℕ) : List Ev :=
  [Ev.group (gname i)]
  ++ (meshes.map (meshEvents h i (gname i))).flatten
  ++ [Ev.circle (cname i) 0 1 0 (width / 2),
      Ev.scaleEv scale_factor scale_factor scale_factor (cname i),
      Ev.setAttr (cname i ++ ".overrideEnabled") 1,
      Ev.setAttr (cname i ++ ".overrideRGBColors") 1,
      Ev.setAttr3 (cname i ++ ".overrideColorRGB") 1 1 0]
  ++ (if showcase_setup = true ∧ num_copies = 4 then
        [Ev.rotate (rotation_values.getD i (0, 0, 0)).1
           (rotation_values.getD i (0, 0, 0)).2.1
           (rotation_values.getD i (0, 0, 0)).2.2 (cname i),
         Ev.move ((offset_positions.getD i (0, 0)).1 * width)
           ((offset_positions.getD i (0, 0)).2 * height) (-2 * depth)
           (cname i) true]
      else
        [Ev.move (11/10 * width * ((i : ℚ) + 1)) 0 0 (cname i) true])
  ++ [Ev.parentConstraint (cname i) (gname i),
      Ev.scaleConstraint (cname i) (gname i),
      Ev.parent (cname i) "BB_Duplicates_Grp",
      Ev.parent (gname i) "BB_Duplicates_Grp"]

/-- Everything after the guards (main.py lines 70-153): the `objExists` check
with the conditional `remove_duplicates()`, parent-group creation, the
optional showcase construction, the duplication loop and the final reselect. -/
def mainEvents (h : Host) (num_copies : ℤ) (scale_factor : ℚ)
    (showcase_setup : Bool) (width height depth : ℚ) : List Ev :=
  [Ev.objExistsQ "BB_Duplicates_Grp" h.grpExists]
  ++ (if h.grpExists then removeDuplicatesEvents else [])
  ++ [Ev.group "BB_Duplicates_Grp"]
  ++ (if showcase_setup then
        showcaseEvents h.initialSelection height depth h.newWindowExists
      else [])
  ++ ((List.range num_copies.toNat).map
        (iterEvents h num_copies scale_factor showcase_setup width height depth
          (selectedMeshesOf h))).flatten
  ++ [Ev.select h.initialSelection]

/-- The trace of host-API calls of `duplicate_and_deform(num_copies,
scale_factor, showcase_setup)` (main.py lines 51-153). -/
def duplicate_and_deform (h : Host) (num_copies : ℤ) (scale_factor : ℚ)
    (showcase_setup : Bool) : List Ev :=
  [Ev.lsSel h.initialSelection, Ev.lsShapes (h.shapes.map Prod.fst)]
  ++ (h.shapes.map fun p => Ev.nodeTypeQ p.1 p.2)
  ++ (if (selectedMeshesOf h).isEmpty then
        [Ev.warning "Please select a mesh."]
      else
        (selectedMeshesOf h).map Ev.bboxQuery
        ++ (if num_copies > 10 then
              [Ev.question h.confirmYes]
              ++ (if h.confirmYes then
                    mainEvents h num_copies scale_factor showcase_setup
                      (calculate_bounding_box h.bbox (selectedMeshesOf h)).1.toQ
                      (calculate_bounding_box h.bbox (selectedMeshesOf h)).2.1.toQ
                      (calculate_bounding_box h.bbox (selectedMeshesOf h)).2.2.toQ
                  else [])
            else
              mainEvents h num_copies scale_factor showcase_setup
                (calculate_bounding_box h.bbox (selectedMeshesOf h)).1.toQ
                (calculate_bounding_box h.bbox (selectedMeshesOf h)).2.1.toQ
                (calculate_bounding_box h.bbox (selectedMeshesOf h)).2.2.toQ))

/-- Maya name-pattern matching, fuelled so that it reduces structurally: `*`
matches any (possibly empty) character sequence, every other character matches
itself, and matching is case sensitive.  Every recursive call shrinks
`p.length + s.length`, so the fuel used by `globMatch` is never exhausted. -/
def globMatchF : ℕ → List Char → List Char → Bool
  | 0, _, _ => false
  | fuel + 1, p, s =>
      match p, s with
      | [], [] => true
      | [], _ :: _ => false
      | '*' :: ps, [] => globMatchF fuel ps []
      | _ :: _, [] => false
      | '*' :: ps, c :: cs =>
          globMatchF fuel ps (c :: cs) || globMatchF fuel ('*' :: ps) cs
      | p1 :: ps, c :: cs => p1 == c && globMatchF fuel ps cs

/-- Maya name-pattern matching as used by `cmds.ls`. -/
def globMatch (p s : List Char) : Bool :=
  globMatchF (p.length + s.length + 1) p s

/-- A scene node: its (unqualified) name, its node type, the name of its DAG
parent, and - for blend-shape nodes - the name of the geometry it deforms.
The host deletes a blend-shape deformer when its deformed geometry is
deleted. -/
structure SNode where
  name : String
  typ : String
  parent : Option String
  deformed : Option String
deriving DecidableEq, Repr

/-- The parts of host state the script can observe or mutate: the scene nodes
and the active selection. -/
structure Scene where
  nodes : List SNode
  sel : List String
deriving DecidableEq, Repr

/-- Does one `cmds.ls` query (pattern, optional node-type filter) match a
node? -/
def matchQuery (q : String × Option String) (nd : SNode) : Bool :=
  globMatch q.1.toList nd.name.toList &&
    (match q.2 with
     | none => true
     | some t => nd.typ == t)

/-- Names of the nodes directly matched by a list of `cmds.ls` queries. -/
def directMatches (qs : List (String × Option String)) (nodes : List SNode) :
    List String :=
  (nodes.filter (fun nd => qs.any (fun q => matchQuery q nd))).map SNode.name

/-- One step of the deletion cascade: a node dies if its parent is dead
(children are deleted with their parent) or, for a blend-shape node, if the
geometry it deforms is dead. -/
def growDeleted (nodes : List SNode) (ds : List String) : List String :=
  ds ++ (nodes.filter (fun nd =>
    !ds.contains nd.name &&
      ((match nd.parent with
        | some p => ds.contains p
        | none => false) ||
       (match nd.deformed with
        | some q => ds.contains q
        | none => false)))).map SNode.name

/-- The deletion cascade iterated `fuel` times. -/
def deleteClosure (nodes : List SNode) (ds : List String) : ℕ → List String
  | 0 => ds
  | fuel + 1 => deleteClosure nodes (growDeleted nodes ds) fuel

/-- Effect of `cmds.delete(cmds.ls(...))`: every node matched by one of the
queries dies, together with the cascade of descendants and dependent
blend-shape nodes. -/
def applyDeleteLs (qs : List (String × Option String)) (s : Scene) : Scene :=
  let ds := deleteClosure s.nodes (directMatches qs s.nodes) s.nodes.length
  ⟨s.nodes.filter (fun nd => !ds.contains nd.name), s.sel⟩

/-- Effect of `cmds.rename(old, new)` on one node: the node itself is renamed
and references to it (parent pointers, deformed-geometry pointers) follow. -/
def renameNode (old new : String) (nd : SNode) : SNode :=
  { name := if nd.name = old then new else nd.name
    typ := nd.typ
    parent := nd.parent.map (fun p => if p = old then new else p)
    deformed := nd.deformed.map (fun p => if p = old then new else p) }

/-- Effect of `cmds.parent(child, par)` on one node. -/
def updParent (child par : String) (nd : SNode) : SNode :=
  if nd.name = child then { nd with parent := some par } else nd

/-- Effect of one traced host call on the scene.  Creation calls append a node
and select it; pure queries, UI calls and transform edits (move, rotate,
scale, setAttr, constraints) leave the node list unchanged. -/
def applyEv (s : Scene) (e : Ev) : Scene :=
  match e with
  | Ev.group n => ⟨s.nodes ++ [⟨n, "transform", none, none⟩], [n]⟩
  | Ev.camera n => ⟨s.nodes ++ [⟨n, "transform", none, none⟩], [n]⟩
  | Ev.circle n _ _ _ _ => ⟨s.nodes ++ [⟨n, "transform", none, none⟩], [n]⟩
  | Ev.duplicate _ res => ⟨s.nodes ++ [⟨res, "transform", none, none⟩], [res]⟩
  | Ev.blendShape _ tgt _ res =>
      ⟨s.nodes ++ [⟨res, "blendShape", none, some tgt⟩], s.sel⟩
  | Ev.rename old new =>
      ⟨s.nodes.map (renameNode old new),
       s.sel.map (fun x => if x = old then new else x)⟩
  | Ev.parent child par => ⟨s.nodes.map (updParent child par), [child]⟩
  | Ev.deleteLs qs => applyDeleteLs qs s
  | Ev.select ts => ⟨s.nodes, ts⟩
  | _ => s

/-- Run a trace against a scene. -/
def runEvents (s : Scene) (tr : List Ev) : Scene := tr.foldl applyEv s

lemma runEvents_append (s : Scene) (a b : List Ev) :
    runEvents s (a ++ b) = runEvents (runEvents s a) b :=
  List.foldl_append _ _ _ _

/-- Calls that never change the node list or the selection: queries, dialogs,
UI construction, and transform/attribute edits (which we do not track). -/
def pureEv : Ev → Bool
  | Ev.group _ => false
  | Ev.camera _ => false
  | Ev.circle _ _ _ _ _ => false
  | Ev.duplicate _ _ => false
  | Ev.blendShape _ _ _ _ => false
  | Ev.rename _ _ => false
  | Ev.parent _ _ => false
  | Ev.deleteLs _ => false
  | Ev.select _ => false
  | _ => true

lemma applyEv_pure (s : Scene) (e : Ev) (he : pureEv e = true) : applyEv s e = s := by
  cases e <;> first | rfl | simp [pureEv] at he

lemma runEvents_pure (tr : List Ev) (h : ∀ e ∈ tr, pureEv e = true) (s : Scene) :
    runEvents s tr = s := by
  induction tr generalizing s with
  | nil => rfl
  | cons e rest ih =>
      have he : pureEv e = true := h e (List.mem_cons_self _ _)
      show runEvents (applyEv s e) rest = s
      rw [applyEv_pure s e he]
      exact ih (fun x hx => h x (List.mem_cons_of_mem _ hx)) s

lemma filterMap_flatten {α β : Type} (L : List (List α)) (f : α → Option β) :
    L.flatten.filterMap f = (L.map (fun l => l.filterMap f)).flatten := by
  induction L with
  | nil => rfl
  | cons l rest ih => simp [List.filterMap_append, ih]

lemma flatten_map_nil {α β : Type} (l : List α) (g : α → List β)
    (h : ∀ a ∈ l, g a = []) : (l.map g).flatten = [] := by
  induction l with
  | nil => rfl
  | cons a rest ih =>
      simp only [List.map_cons, List.flatten_cons, h a (List.mem_cons_self _ _),
        List.nil_append]
      exact ih (fun x hx => h x (List.mem_cons_of_mem _ hx))

lemma flatten_map_singleton {α β : Type} (l : List α) (x : α → β) :
    (l.map (fun a => [x a])).flatten = l.map x := by
  induction l with
  | nil => rfl
  | cons a rest ih => simp [ih]

/-- `p` is a literal prefix of `s`. -/
def strStarts (p s : String) : Bool := p.toList.isPrefixOf s.toList

lemma strStarts_append (p t : String) : strStarts p (p ++ t) = true := by
  unfold strStarts
  rw [show (p ++ t).toList = p.toList ++ t.toList from by simp [String.toList],
    List.isPrefixOf_iff_prefix]
  exact ⟨_, rfl⟩

/-- Claim C3: with no mesh or nurbsSurface shape in the selection, the
function emits only the selection queries and a warning dialog, and the scene
is completely unchanged. -/
theorem claim_C3 (h : Host) (num_copies : ℤ) (scale_factor : ℚ)
    (showcase_setup : Bool) (hsel : selectedMeshesOf h = []) :
    duplicate_and_deform h num_copies scale_factor showcase_setup =
        [Ev.lsSel h.initialSelection, Ev.lsShapes (h.shapes.map Prod.fst)]
        ++ (h.shapes.map fun p => Ev.nodeTypeQ p.1 p.2)
        ++ [Ev.warning "Please select a mesh."]
      ∧ ∀ s : Scene,
          runEvents s (duplicate_and_deform h num_copies scale_factor showcase_setup) = s := by
  have htr : duplicate_and_deform h num_copies scale_factor showcase_setup =
      [Ev.lsSel h.initialSelection, Ev.lsShapes (h.shapes.map Prod.fst)]
      ++ (h.shapes.map fun p => Ev.nodeTypeQ p.1 p.2)
      ++ [Ev.warning "Please select a mesh."] := by
    unfold duplicate_and_deform
    rw [hsel]
    rfl
  refine ⟨htr, fun s => ?_⟩
  rw [htr]
  apply runEvents_pure
  intro e he
  simp only [List.mem_append, List.mem_cons, List.mem_singleton, List.mem_map,
    List.not_mem_nil, or_false] at he
  rcases he with ((rfl | rfl) | ⟨p, _, rfl⟩) | rfl <;> rfl

/-- Host used to witness the claims about runs with a valid selection. -/
def hW : Host :=
  { initialSelection := ["meshA", "meshB"]
    shapes := [("meshA", "mesh"), ("meshB", "nurbsSurface"), ("crvC", "nurbsCurve")]
    bbox := fun _ => ⟨0, 0, 0, 2, 2, 2⟩
    confirmYes := true
    grpExists := false
    newWindowExists := false
    dupName := fun m i => "tmp_" ++ m ++ "_" ++ toString i
    bsName := fun m i => "bs_" ++ m ++ "_" ++ toString i }

/-- Host with nothing usable selected, witnessing the empty-selection guard. -/
def hEmpty : Host :=
  { initialSelection := ["crvC"]
    shapes := [("crvC", "nurbsCurve")]
    bbox := fun _ => ⟨0, 0, 0, 2, 2, 2⟩
    confirmYes := true
    grpExists := false
    newWindowExists := false
    dupName := fun m i => "tmp_" ++ m ++ "_" ++ toString i
    bsName := fun m i => "bs_" ++ m ++ "_" ++ toString i }

theorem claim_C3_witness :
    selectedMeshesOf hEmpty = []
      ∧ duplicate_and_deform hEmpty 1 1 false =
          [Ev.lsSel hEmpty.initialSelection,
           Ev.lsShapes (hEmpty.shapes.map Prod.fst)]
          ++ (hEmpty.shapes.map fun p => Ev.nodeTypeQ p.1 p.2)
          ++ [Ev.warning "Please select a mesh."]
      ∧ runEvents ⟨[⟨"userNode", "transform", none, none⟩], ["userNode"]⟩
          (duplicate_and_deform hEmpty 1 1 false) =
          ⟨[⟨"userNode", "transform", none, none⟩], ["userNode"]⟩ :=
  ⟨by decide,
   (claim_C3 hEmpty 1 1 false (by decide)).1,
   (claim_C3 hEmpty 1 1 false (by decide)).2 _⟩

lemma mainEvents_sel (h : Host) (n : ℤ) (sf : ℚ) (sc : Bool) (w hh dd : ℚ)
    (s : Scene) :
    (runEvents s (mainEvents h n sf sc w hh dd)).sel = h.initialSelection := by
  unfold mainEvents
  rw [runEvents_append, runEvents_append, runEvents_append, runEvents_append,
    runEvents_append]
  rfl

/-- Claim C10: the active selection is saved on entry and re-selected at the
end, so after any run that passes the guards the selection equals the
selection at the moment of the call. -/
theorem claim_C10 (h : Host) (num_copies : ℤ) (scale_factor : ℚ)
    (showcase_setup : Bool) (s : Scene)
    (hsel : selectedMeshesOf h ≠ [])
    (hguard : num_copies ≤ 10 ∨ h.confirmYes = true)
    (hs : s.sel = h.initialSelection) :
    (runEvents s (duplicate_and_deform h num_copies scale_factor showcase_setup)).sel
      = s.sel := by
  have hne : (selectedMeshesOf h).isEmpty = false := by
    cases hempty : selectedMeshesOf h with
    | nil => exact absurd hempty hsel
    | cons a l => rfl
  rw [hs]
  unfold duplicate_and_deform
  rw [hne]
  simp only [Bool.false_eq_true, if_false]
  by_cases h10 : num_copies > 10
  · have hc : h.confirmYes = true := by
      rcases hguard with hle | hc
      · omega
      · exact hc
    rw [if_pos h10, hc]
    simp only [if_true]
    rw [runEvents_append, runEvents_append, runEvents_append, runEvents_append]
    exact mainEvents_sel _ _ _ _ _ _ _ _
  · rw [if_neg h10]
    rw [runEvents_append, runEvents_append, runEvents_append]
    exact mainEvents_sel _ _ _ _ _ _ _ _

/-- Scene used in witnesses of state-level claims. -/
def sW : Scene := ⟨[⟨"userNode", "transform", none, none⟩], ["meshA", "meshB"]⟩

theorem claim_C10_witness :
    selectedMeshesOf hW ≠ []
      ∧ ((2 : ℤ) ≤ 10 ∨ hW.confirmYes = true)
      ∧ sW.sel = hW.initialSelection
      ∧ (runEvents sW (duplicate_and_deform hW 2 1 false)).sel = sW.sel :=
  ⟨by decide, Or.inl (by decide), rfl, claim_C10 hW 2 1 false sW (by decide)
    (Or.inl (by decide)) rfl⟩

lemma mem_meshEvents {h : Host} {i : ℕ} {g m : String} {e : Ev}
    (he : e ∈ meshEvents h i g m) :
    e = Ev.duplicate m (h.dupName m i)
    ∨ e = Ev.rename (h.dupName m i) ("dup_" ++ shortName m ++ "_" ++ pad2 (i + 1))
    ∨ e = Ev.blendShape m ("dup_" ++ shortName m ++ "_" ++ pad2 (i + 1))
        (g ++ "_BS") (h.bsName m i)
    ∨ e = Ev.setAttr (h.bsName m i ++ "." ++ shortName m) 1
    ∨ e = Ev.parent ("dup_" ++ shortName m ++ "_" ++ pad2 (i + 1)) g := by
  simp only [meshEvents, List.mem_cons, List.not_mem_nil, or_false] at he
  exact he

lemma mem_iterEvents {h : Host} {n : ℤ} {sf : ℚ} {sc : Bool} {w hh dd : ℚ}
    {meshes : List String} {i : ℕ} {e : Ev}
    (he : e ∈ iterEvents h n sf sc w hh dd meshes i) :
    e = Ev.group (gname i)
    ∨ (∃ m ∈ meshes, e ∈ meshEvents h i (gname i) m)
    ∨ e = Ev.circle (cname i) 0 1 0 (w / 2)
    ∨ e = Ev.scaleEv sf sf sf (cname i)
    ∨ e = Ev.setAttr (cname i ++ ".overrideEnabled") 1
    ∨ e = Ev.setAttr (cname i ++ ".overrideRGBColors") 1
    ∨ e = Ev.setAttr3 (cname i ++ ".overrideColorRGB") 1 1 0
    ∨ (∃ x y z : ℚ, e = Ev.rotate x y z (cname i))
    ∨ (∃ x y z : ℚ, ∃ ls : Bool, e = Ev.move x y z (cname i) ls)
    ∨ e = Ev.parentConstraint (cname i) (gname i)
    ∨ e = Ev.scaleConstraint (cname i) (gname i)
    ∨ e = Ev.parent (cname i) "BB_Duplicates_Grp"
    ∨ e = Ev.parent (gname i) "BB_Duplicates_Grp" := by
  unfold iterEvents at he
  rcases List.mem_append.mp he with he4 | h5
  rotate_left
  · simp only [List.mem_cons, List.not_mem_nil, or_false] at h5
    rcases h5 with rfl | rfl | rfl | rfl <;> tauto
  rcases List.mem_append.mp he4 with he3 | h4
  rotate_left
  · split at h4
    · simp only [List.mem_cons, List.not_mem_nil, or_false] at h4
      rcases h4 with rfl | rfl
      · refine Or.inr (Or.inr (Or.inr (Or.inr (Or.inr (Or.inr (Or.inr (Or.inl
          ⟨_, _, _, rfl⟩)))))))
      · refine Or.inr (Or.inr (Or.inr (Or.inr (Or.inr (Or.inr (Or.inr (Or.inr (Or.inl
          ⟨_, _, _, _, rfl⟩))))))))
    · simp only [List.mem_cons, List.not_mem_nil, or_false] at h4
      subst h4
      refine Or.inr (Or.inr (Or.inr (Or.inr (Or.inr (Or.inr (Or.inr (Or.inr (Or.inl
        ⟨_, _, _, _, rfl⟩))))))))
  rcases List.mem_append.mp he3 with he2 | h3
  rotate_left
  · simp only [List.mem_cons, List.not_mem_nil, or_false] at h3
    rcases h3 with rfl | rfl | rfl | rfl | rfl <;> tauto
  rcases List.mem_append.mp he2 with h1 | h2
  · simp only [List.mem_cons, List.not_mem_nil, or_false] at h1
    exact Or.inl h1
  · rcases List.mem_flatten.mp h2 with ⟨l, hl, hel⟩
    rcases List.mem_map.mp hl with ⟨m, hm, rfl⟩
    exact Or.inr (Or.inl ⟨m, hm, hel⟩)

lemma mem_showcaseEvents {initSel : List String} {hh dd : ℚ} {nw : Bool} {e : Ev}
    (he : e ∈ showcaseEvents initSel hh dd nw) :
    e = Ev.deleteLs [("renderCam", none)]
    ∨ e = Ev.camera "renderCam"
    ∨ e = Ev.move 0 (1/2 * hh) (6 * dd) "renderCam" false
    ∨ e = Ev.group "BB_Duplicate_Showcase_Grp"
    ∨ e = Ev.parent "renderCam" "BB_Duplicate_Showcase_Grp"
    ∨ e = Ev.parent "BB_Duplicates_Grp" "renderCam"
    ∨ e = Ev.windowCheck "newWindow" nw
    ∨ e = Ev.deleteUI "newWindow"
    ∨ e = Ev.window "Showcase" "Showcase"
    ∨ e = Ev.paneLayout
    ∨ e = Ev.modelPanel "Camera View"
    ∨ e = Ev.modelPanelCam "renderCam"
    ∨ (∃ fl, e = Ev.modelEditorEdit fl)
    ∨ e = Ev.showWindow "Showcase"
    ∨ e = Ev.lookThru "renderCam"
    ∨ e = Ev.select initSel
    ∨ e = Ev.viewFit (1/2) := by
  unfold showcaseEvents at he
  rcases List.mem_append.mp he with he2 | h3
  rotate_left
  · simp only [List.mem_cons, List.not_mem_nil, or_false] at h3
    rcases h3 with rfl | rfl | rfl | rfl | rfl | rfl | rfl | rfl | rfl | rfl | rfl |
      rfl | rfl | rfl <;>
      first
      | tauto
      | exact Or.inr (Or.inr (Or.inr (Or.inr (Or.inr (Or.inr (Or.inr (Or.inr (Or.inr
          (Or.inr (Or.inr (Or.inr (Or.inl ⟨_, rfl⟩))))))))))))
  rcases List.mem_append.mp he2 with h1 | h2
  · simp only [List.mem_cons, List.not_mem_nil, or_false] at h1
    rcases h1 with rfl | rfl | rfl | rfl | rfl | rfl | rfl <;> tauto
  · split at h2
    · simp only [List.mem_cons, List.not_mem_nil, or_false] at h2
      subst h2
      tauto
    · simp at h2

lemma mem_mainEvents {h : Host} {n : ℤ} {sf : ℚ} {sc : Bool} {w hh dd : ℚ} {e : Ev}
    (he : e ∈ mainEvents h n sf sc w hh dd) :
    e = Ev.objExistsQ "BB_Duplicates_Grp" h.grpExists
    ∨ e ∈ removeDuplicatesEvents
    ∨ e = Ev.group "BB_Duplicates_Grp"
    ∨ e ∈ showcaseEvents h.initialSelection hh dd h.newWindowExists
    ∨ (∃ i, i ∈ List.range n.toNat
        ∧ e ∈ iterEvents h n sf sc w hh dd (selectedMeshesOf h) i)
    ∨ e = Ev.select h.initialSelection := by
  unfold mainEvents at he
  rcases List.mem_append.mp he with he5 | h6
  rotate_left
  · simp only [List.mem_cons, List.not_mem_nil, or_false] at h6
    tauto
  rcases List.mem_append.mp he5 with he4 | h5
  rotate_left
  · rcases List.mem_flatten.mp h5 with ⟨l, hl, hel⟩
    rcases List.mem_map.mp hl with ⟨i, hi, rfl⟩
    exact Or.inr (Or.inr (Or.inr (Or.inr (Or.inl ⟨i, hi, hel⟩))))
  rcases List.mem_append.mp he4 with he3 | h4
  rotate_left
  · split at h4
    · exact Or.inr (Or.inr (Or.inr (Or.inl h4)))
    · simp at h4
  rcases List.mem_append.mp he3 with he2 | h3
  rotate_left
  · simp only [List.mem_cons, List.not_mem_nil, or_false] at h3
    tauto
  rcases List.mem_append.mp he2 with h1 | h2
  · simp only [List.mem_cons, List.not_mem_nil, or_false] at h1
    exact Or.inl h1
  · split at h2
    · exact Or.inr (Or.inl h2)
    · simp at h2

lemma isEmpty_false_of_ne_nil {l : List String} (h : l ≠ []) : l.isEmpty = false := by
  cases hl : l with
  | nil => exact absurd hl h
  | cons a t => rfl

/-- Observer for confirmation-dialog calls in a trace. -/
def evQuestion : Ev → Option Bool
  | Ev.question b => some b
  | _ => none

lemma evQuestion_none_mainEvents {h : Host} {n : ℤ} {sf : ℚ} {sc : Bool}
    {w hh dd : ℚ} {e : Ev} (he : e ∈ mainEvents h n sf sc w hh dd) :
    evQuestion e = none := by
  rcases mem_mainEvents he with rfl | hrem | rfl | hsc | ⟨i, _, hit⟩ | rfl
  · rfl
  · simp only [removeDuplicatesEvents, List.mem_cons, List.not_mem_nil, or_false] at hrem
    rcases hrem with rfl | rfl <;> rfl
  · rfl
  · rcases mem_showcaseEvents hsc with rfl | rfl | rfl | rfl | rfl | rfl | rfl | rfl |
      rfl | rfl | rfl | rfl | ⟨fl, rfl⟩ | rfl | rfl | rfl | rfl <;> rfl
  · rcases mem_iterEvents hit with rfl | ⟨m, _, hme⟩ | rfl | rfl | rfl | rfl | rfl |
      ⟨x, y, z, rfl⟩ | ⟨x, y, z, ls, rfl⟩ | rfl | rfl | rfl | rfl
    · rfl
    · rcases mem_meshEvents hme with rfl | rfl | rfl | rfl | rfl <;> rfl
    all_goals rfl
  · rfl

lemma group_mem_mainEvents (h : Host) (n : ℤ) (sf : ℚ) (sc : Bool) (w hh dd : ℚ) :
    Ev.group "BB_Duplicates_Grp" ∈ mainEvents h n sf sc w hh dd := by
  unfold mainEvents
  simp [List.mem_append]

/-- Claim C4: with more than 10 copies requested a confirmation question is
asked; answering No aborts with the scene untouched, answering Yes proceeds;
with at most 10 copies no question is asked and the run proceeds directly. -/
theorem claim_C4 (h : Host) (num_copies : ℤ) (scale_factor : ℚ)
    (showcase_setup : Bool) (hsel : selectedMeshesOf h ≠ []) :
    (num_copies > 10 →
      Ev.question h.confirmYes
        ∈ duplicate_and_deform h num_copies scale_factor showcase_setup)
    ∧ (num_copies > 10 → h.confirmYes = false →
        duplicate_and_deform h num_copies scale_factor showcase_setup =
          [Ev.lsSel h.initialSelection, Ev.lsShapes (h.shapes.map Prod.fst)]
          ++ (h.shapes.map fun p => Ev.nodeTypeQ p.1 p.2)
          ++ ((selectedMeshesOf h).map Ev.bboxQuery ++ [Ev.question false])
        ∧ ∀ s : Scene,
            runEvents s (duplicate_and_deform h num_copies scale_factor showcase_setup) = s)
    ∧ (num_copies > 10 → h.confirmYes = true →
        Ev.group "BB_Duplicates_Grp"
          ∈ duplicate_and_deform h num_copies scale_factor showcase_setup)
    ∧ (num_copies ≤ 10 →
        (duplicate_and_deform h num_copies scale_factor showcase_setup).filterMap
            evQuestion = []
        ∧ Ev.group "BB_Duplicates_Grp"
            ∈ duplicate_and_deform h num_copies scale_factor showcase_setup) := by
  have hne : (selectedMeshesOf h).isEmpty = false := isEmpty_false_of_ne_nil hsel
  refine ⟨?_, ?_, ?_, ?_⟩
  · intro h10
    unfold duplicate_and_deform
    rw [hne]
    simp only [Bool.false_eq_true, if_false, if_pos h10]
    simp [List.mem_append]
  · intro h10 hcNo
    have htr : duplicate_and_deform h num_copies scale_factor showcase_setup =
        [Ev.lsSel h.initialSelection, Ev.lsShapes (h.shapes.map Prod.fst)]
        ++ (h.shapes.map fun p => Ev.nodeTypeQ p.1 p.2)
        ++ ((selectedMeshesOf h).map Ev.bboxQuery ++ [Ev.question false]) := by
      unfold duplicate_and_deform
      rw [hne]
      simp only [Bool.false_eq_true, if_false, if_pos h10, hcNo]
      simp
    refine ⟨htr, fun s => ?_⟩
    rw [htr]
    apply runEvents_pure
    intro e he
    simp only [List.mem_append, List.mem_cons, List.not_mem_nil, or_false,
      List.mem_map] at he
    rcases he with ((rfl | rfl) | ⟨p, _, rfl⟩) | ⟨m, _, rfl⟩ | rfl <;> rfl
  · intro h10 hcYes
    unfold duplicate_and_deform
    rw [hne]
    simp only [Bool.false_eq_true, if_false, if_pos h10, hcYes, if_true]
    have := group_mem_mainEvents h num_copies scale_factor showcase_setup
      (calculate_bounding_box h.bbox (selectedMeshesOf h)).1.toQ
      (calculate_bounding_box h.bbox (selectedMeshesOf h)).2.1.toQ
      (calculate_bounding_box h.bbox (selectedMeshesOf h)).2.2.toQ
    simp only [List.mem_append, List.mem_cons]
    tauto
  · intro h10
    have hn10 : ¬ num_copies > 10 := by omega
    constructor
    · unfold duplicate_and_deform
      rw [hne]
      simp only [Bool.false_eq_true, if_false, if_neg hn10]
      rw [List.filterMap_eq_nil_iff]
      intro e he
      simp only [List.mem_append, List.mem_cons, List.not_mem_nil, or_false,
        List.mem_map] at he
      rcases he with ((rfl | rfl) | ⟨p, _, rfl⟩) | ⟨m, _, rfl⟩ | hmain
      · rfl
      · rfl
      · rfl
      · rfl
      · exact evQuestion_none_mainEvents hmain
    · unfold duplicate_and_deform
      rw [hne]
      simp only [Bool.false_eq_true, if_false, if_neg hn10]
      have := group_mem_mainEvents h num_copies scale_factor showcase_setup
        (calculate_bounding_box h.bbox (selectedMeshesOf h)).1.toQ
        (calculate_bounding_box h.bbox (selectedMeshesOf h)).2.1.toQ
        (calculate_bounding_box h.bbox (selectedMeshesOf h)).2.2.toQ
      simp only [List.mem_append, List.mem_cons]
      tauto

/-- Host answering No to the confirmation dialog. -/
def hNo : Host := { hW with confirmYes := false }

theorem claim_C4_witness :
    selectedMeshesOf hNo ≠ []
      ∧ (((12 : ℤ) > 10 →
          Ev.question hNo.confirmYes ∈ duplicate_and_deform hNo 12 1 false)
        ∧ ((12 : ℤ) > 10 → hNo.confirmYes = false →
            duplicate_and_deform hNo 12 1 false =
              [Ev.lsSel hNo.initialSelection, Ev.lsShapes (hNo.shapes.map Prod.fst)]
              ++ (hNo.shapes.map fun p => Ev.nodeTypeQ p.1 p.2)
              ++ ((selectedMeshesOf hNo).map Ev.bboxQuery ++ [Ev.question false])
            ∧ ∀ s : Scene, runEvents s (duplicate_and_deform hNo 12 1 false) = s)
        ∧ ((12 : ℤ) > 10 → hNo.confirmYes = true →
            Ev.group "BB_Duplicates_Grp" ∈ duplicate_and_deform hNo 12 1 false)
        ∧ ((12 : ℤ) ≤ 10 →
            (duplicate_and_deform hNo 12 1 false).filterMap evQuestion = []
            ∧ Ev.group "BB_Duplicates_Grp" ∈ duplicate_and_deform hNo 12 1 false)) :=
  ⟨by decide, claim_C4 hNo 12 1 false (by decide)⟩

/-- Observer: creations of duplicate-group nodes (names with the
`BB_Duplicate_Mesh_` prefix given by the loop). -/
def evGroupBB : Ev → Option String
  | Ev.group g => if strStarts "BB_Duplicate_Mesh_" g then some g else none
  | _ => none

/-- Observer: blend-shape creations as (source mesh, target, requested name). -/
def evBS : Ev → Option (String × String × String)
  | Ev.blendShape src tgt req _ => some (src, tgt, req)
  | _ => none

/-- Observer: duplicate calls as (source mesh, host-chosen name). -/
def evDup : Ev → Option (String × String)
  | Ev.duplicate src res => some (src, res)
  | _ => none

/-- Observer: rename calls as (old name, new name). -/
def evRen : Ev → Option (String × String)
  | Ev.rename a b => some (a, b)
  | _ => none

lemma evGroupBB_group (i : ℕ) : evGroupBB (Ev.group (gname i)) = some (gname i) := by
  show (if strStarts "BB_Duplicate_Mesh_" (gname i) then some (gname i) else none)
    = some (gname i)
  rw [show gname i = "BB_Duplicate_Mesh_" ++ pad2 (i + 1) from rfl, strStarts_append]
  rfl

lemma filterMap_meshFlatten {α : Type} (f : Ev → Option α) (h : Host) (i : ℕ)
    (g : String) (meshes : List String)
    (hf : ∀ m, (meshEvents h i g m).filterMap f = []) :
    ((meshes.map (meshEvents h i g)).flatten).filterMap f = [] := by
  rw [filterMap_flatten, List.map_map]
  exact flatten_map_nil _ _ (fun m _ => hf m)

lemma filterMap_meshFlatten_map {α : Type} (f : Ev → Option α) (h : Host) (i : ℕ)
    (g : String) (meshes : List String) (x : String → α)
    (hf : ∀ m, (meshEvents h i g m).filterMap f = [x m]) :
    ((meshes.map (meshEvents h i g)).flatten).filterMap f = meshes.map x := by
  rw [filterMap_flatten, List.map_map]
  simp only [Function.comp_def]
  rw [show (List.map (fun m => (meshEvents h i g m).filterMap f) meshes)
      = meshes.map (fun m => [x m]) from List.map_congr_left (fun m _ => hf m)]
  exact flatten_map_singleton _ _

lemma evGroupBB_iterEvents (h : Host) (n : ℤ) (sf : ℚ) (sc : Bool) (w hh dd : ℚ)
    (meshes : List String) (i : ℕ) :
    (iterEvents h n sf sc w hh dd meshes i).filterMap evGroupBB = [gname i] := by
  unfold iterEvents
  simp only [List.filterMap_append]
  rw [filterMap_meshFlatten evGroupBB h i (gname i) meshes (fun m => rfl)]
  rw [show ([Ev.group (gname i)] : List Ev).filterMap evGroupBB = [gname i] from by
    simp [List.filterMap_cons, evGroupBB_group]]
  split <;> rfl

lemma evBS_iterEvents (h : Host) (n : ℤ) (sf : ℚ) (sc : Bool) (w hh dd : ℚ)
    (meshes : List String) (i : ℕ) :
    (iterEvents h n sf sc w hh dd meshes i).filterMap evBS =
      meshes.map (fun m =>
        (m, "dup_" ++ shortName m ++ "_" ++ pad2 (i + 1), gname i ++ "_BS")) := by
  unfold iterEvents
  simp only [List.filterMap_append]
  rw [filterMap_meshFlatten_map evBS h i (gname i) meshes _ (fun m => rfl)]
  split <;> simp [evBS]

lemma evDup_iterEvents (h : Host) (n : ℤ) (sf : ℚ) (sc : Bool) (w hh dd : ℚ)
    (meshes : List String) (i : ℕ) :
    (iterEvents h n sf sc w hh dd meshes i).filterMap evDup =
      meshes.map (fun m => (m, h.dupName m i)) := by
  unfold iterEvents
  simp only [List.filterMap_append]
  rw [filterMap_meshFlatten_map evDup h i (gname i) meshes _ (fun m => rfl)]
  split <;> simp [evDup]

lemma evRen_iterEvents (h : Host) (n : ℤ) (sf : ℚ) (sc : Bool) (w hh dd : ℚ)
    (meshes : List String) (i : ℕ) :
    (iterEvents h n sf sc w hh dd meshes i).filterMap evRen =
      meshes.map (fun m =>
        (h.dupName m i, "dup_" ++ shortName m ++ "_" ++ pad2 (i + 1))) := by
  unfold iterEvents
  simp only [List.filterMap_append]
  rw [filterMap_meshFlatten_map evRen h i (gname i) meshes _ (fun m => rfl)]
  split <;> simp [evRen]

lemma filterMap_loop {α : Type} (f : Ev → Option α) (h : Host) (n : ℤ) (sf : ℚ)
    (sc : Bool) (w hh dd : ℚ) (meshes : List String) (ns : List ℕ)
    (res : ℕ → List α)
    (hf : ∀ i, (iterEvents h n sf sc w hh dd meshes i).filterMap f = res i) :
    (((ns.map (iterEvents h n sf sc w hh dd meshes)).flatten).filterMap f)
      = (ns.map res).flatten := by
  rw [filterMap_flatten, List.map_map]
  simp only [Function.comp_def]
  rw [show List.map (fun i => (iterEvents h n sf sc w hh dd meshes i).filterMap f) ns
      = ns.map res from List.map_congr_left (fun i _ => hf i)]

lemma evGroupBB_showcase (initSel : List String) (hh dd : ℚ) (nw : Bool) :
    (showcaseEvents initSel hh dd nw).filterMap evGroupBB = [] := by
  apply List.filterMap_eq_nil_iff.mpr
  intro e he
  rcases mem_showcaseEvents he with rfl | rfl | rfl | rfl | rfl | rfl | rfl | rfl |
    rfl | rfl | rfl | rfl | ⟨fl, rfl⟩ | rfl | rfl | rfl | rfl
  all_goals rfl

lemma evBS_showcase (initSel : List String) (hh dd : ℚ) (nw : Bool) :
    (showcaseEvents initSel hh dd nw).filterMap evBS = [] := by
  apply List.filterMap_eq_nil_iff.mpr
  intro e he
  rcases mem_showcaseEvents he with rfl | rfl | rfl | rfl | rfl | rfl | rfl | rfl |
    rfl | rfl | rfl | rfl | ⟨fl, rfl⟩ | rfl | rfl | rfl | rfl
  all_goals rfl

lemma evDup_showcase (initSel : List String) (hh dd : ℚ) (nw : Bool) :
    (showcaseEvents initSel hh dd nw).filterMap evDup = [] := by
  apply List.filterMap_eq_nil_iff.mpr
  intro e he
  rcases mem_showcaseEvents he with rfl | rfl | rfl | rfl | rfl | rfl | rfl | rfl |
    rfl | rfl | rfl | rfl | ⟨fl, rfl⟩ | rfl | rfl | rfl | rfl
  all_goals rfl

lemma evRen_showcase (initSel : List String) (hh dd : ℚ) (nw : Bool) :
    (showcaseEvents initSel hh dd nw).filterMap evRen = [] := by
  apply List.filterMap_eq_nil_iff.mpr
  intro e he
  rcases mem_showcaseEvents he with rfl | rfl | rfl | rfl | rfl | rfl | rfl | rfl |
    rfl | rfl | rfl | rfl | ⟨fl, rfl⟩ | rfl | rfl | rfl | rfl
  all_goals rfl

lemma evGroupBB_mainEvents (h : Host) (n : ℤ) (sf : ℚ) (sc : Bool) (w hh dd : ℚ) :
    (mainEvents h n sf sc w hh dd).filterMap evGroupBB =
      (List.range n.toNat).map gname := by
  unfold mainEvents
  simp only [List.filterMap_append]
  rw [filterMap_loop evGroupBB h n sf sc w hh dd _ _ (fun i => [gname i])
    (fun i => evGroupBB_iterEvents h n sf sc w hh dd (selectedMeshesOf h) i)]
  rw [flatten_map_singleton]
  rw [show ([Ev.objExistsQ "BB_Duplicates_Grp" h.grpExists] : List Ev).filterMap
    evGroupBB = [] from rfl]
  rw [show ([Ev.group "BB_Duplicates_Grp"] : List Ev).filterMap evGroupBB = []
    from by decide]
  rw [show ([Ev.select h.initialSelection] : List Ev).filterMap evGroupBB = []
    from rfl]
  have h1 : (if h.grpExists = true then removeDuplicatesEvents else []).filterMap
      evGroupBB = [] := by
    split <;> rfl
  have h2 : (if sc = true then
      showcaseEvents h.initialSelection hh dd h.newWindowExists
      else []).filterMap evGroupBB = [] := by
    split
    · exact evGroupBB_showcase _ _ _ _
    · rfl
  rw [h1, h2]
  simp

lemma evBS_mainEvents (h : Host) (n : ℤ) (sf : ℚ) (sc : Bool) (w hh dd : ℚ) :
    (mainEvents h n sf sc w hh dd).filterMap evBS =
      ((List.range n.toNat).map (fun i => (selectedMeshesOf h).map (fun m =>
        (m, "dup_" ++ shortName m ++ "_" ++ pad2 (i + 1),
          gname i ++ "_BS")))).flatten := by
  unfold mainEvents
  simp only [List.filterMap_append]
  rw [filterMap_loop evBS h n sf sc w hh dd _ _ _
    (fun i => evBS_iterEvents h n sf sc w hh dd (selectedMeshesOf h) i)]
  have h1 : (if h.grpExists = true then removeDuplicatesEvents else []).filterMap
      evBS = [] := by
    split <;> rfl
  have h2 : (if sc = true then
      showcaseEvents h.initialSelection hh dd h.newWindowExists
      else []).filterMap evBS = [] := by
    split
    · exact evBS_showcase _ _ _ _
    · rfl
  rw [h1, h2]
  rw [show ([Ev.objExistsQ "BB_Duplicates_Grp" h.grpExists] : List Ev).filterMap
    evBS = [] from rfl]
  rw [show ([Ev.group "BB_Duplicates_Grp"] : List Ev).filterMap evBS = []
    from rfl]
  rw [show ([Ev.select h.initialSelection] : List Ev).filterMap evBS = []
    from rfl]
  simp

lemma evDup_mainEvents (h : Host) (n : ℤ) (sf : ℚ) (sc : Bool) (w hh dd : ℚ) :
    (mainEvents h n sf sc w hh dd).filterMap evDup =
      ((List.range n.toNat).map (fun i => (selectedMeshesOf h).map (fun m =>
        (m, h.dupName m i)))).flatten := by
  unfold mainEvents
  simp only [List.filterMap_append]
  rw [filterMap_loop evDup h n sf sc w hh dd _ _ _
    (fun i => evDup_iterEvents h n sf sc w hh dd (selectedMeshesOf h) i)]
  have h1 : (if h.grpExists = true then removeDuplicatesEvents else []).filterMap
      evDup = [] := by
    split <;> rfl
  have h2 : (if sc = true then
      showcaseEvents h.initialSelection hh dd h.newWindowExists
      else []).filterMap evDup = [] := by
    split
    · exact evDup_showcase _ _ _ _
    · rfl
  rw [h1, h2]
  rw [show ([Ev.objExistsQ "BB_Duplicates_Grp" h.grpExists] : List Ev).filterMap
    evDup = [] from rfl]
  rw [show ([Ev.group "BB_Duplicates_Grp"] : List Ev).filterMap evDup = []
    from rfl]
  rw [show ([Ev.select h.initialSelection] : List Ev).filterMap evDup = []
    from rfl]
  simp

lemma evRen_mainEvents (h : Host) (n : ℤ) (sf : ℚ) (sc : Bool) (w hh dd : ℚ) :
    (mainEvents h n sf sc w hh dd).filterMap evRen =
      ((List.range n.toNat).map (fun i => (selectedMeshesOf h).map (fun m =>
        (h.dupName m i, "dup_" ++ shortName m ++ "_" ++ pad2 (i + 1))))).flatten := by
  unfold mainEvents
  simp only [List.filterMap_append]
  rw [filterMap_loop evRen h n sf sc w hh dd _ _ _
    (fun i => evRen_iterEvents h n sf sc w hh dd (selectedMeshesOf h) i)]
  have h1 : (if h.grpExists = true then removeDuplicatesEvents else []).filterMap
      evRen = [] := by
    split <;> rfl
  have h2 : (if sc = true then
      showcaseEvents h.initialSelection hh dd h.newWindowExists
      else []).filterMap evRen = [] := by
    split
    · exact evRen_showcase _ _ _ _
    · rfl
  rw [h1, h2]
  rw [show ([Ev.objExistsQ "BB_Duplicates_Grp" h.grpExists] : List Ev).filterMap
    evRen = [] from rfl]
  rw [show ([Ev.group "BB_Duplicates_Grp"] : List Ev).filterMap evRen = []
    from rfl]
  rw [show ([Ev.select h.initialSelection] : List Ev).filterMap evRen = []
    from rfl]
  simp

lemma filterMap_trace {α : Type} (f : Ev → Option α) (h : Host) (n : ℤ) (sf : ℚ)
    (sc : Bool)
    (hsel : selectedMeshesOf h ≠ []) (hguard : n ≤ 10 ∨ h.confirmYes = true)
    (hf1 : f (Ev.lsSel h.initialSelection) = none)
    (hf2 : f (Ev.lsShapes (h.shapes.map Prod.fst)) = none)
    (hf3 : ∀ a b, f (Ev.nodeTypeQ a b) = none)
    (hf4 : ∀ m, f (Ev.bboxQuery m) = none)
    (hf5 : ∀ b, f (Ev.question b) = none) :
    (duplicate_and_deform h n sf sc).filterMap f =
      (mainEvents h n sf sc
        (calculate_bounding_box h.bbox (selectedMeshesOf h)).1.toQ
        (calculate_bounding_box h.bbox (selectedMeshesOf h)).2.1.toQ
        (calculate_bounding_box h.bbox (selectedMeshesOf h)).2.2.toQ).filterMap f := by
  have hne : (selectedMeshesOf h).isEmpty = false := isEmpty_false_of_ne_nil hsel
  unfold duplicate_and_deform
  rw [hne]
  simp only [Bool.false_eq_true, if_false]
  have hpre : ([Ev.lsSel h.initialSelection,
      Ev.lsShapes (h.shapes.map Prod.fst)] : List Ev).filterMap f = [] := by
    simp [List.filterMap_cons, hf1, hf2]
  have hnt : (h.shapes.map fun p => Ev.nodeTypeQ p.1 p.2).filterMap f = [] := by
    rw [List.filterMap_map]
    exact List.filterMap_eq_nil_iff.mpr (fun p _ => hf3 p.1 p.2)
  have hbb : ((selectedMeshesOf h).map Ev.bboxQuery).filterMap f = [] := by
    rw [List.filterMap_map]
    exact List.filterMap_eq_nil_iff.mpr (fun m _ => hf4 m)
  by_cases h10 : n > 10
  · have hc : h.confirmYes = true := by
      rcases hguard with hle | hc
      · omega
      · exact hc
    rw [if_pos h10, hc]
    simp only [if_true]
    simp only [List.filterMap_append, hpre, hnt, hbb, List.filterMap_cons, hf5]
    simp
  · rw [if_neg h10]
    simp only [List.filterMap_append, hpre, hnt, hbb]
    simp

lemma mem_trace_of_mem_mainEvents {h : Host} {n : ℤ} {sf : ℚ} {sc : Bool} {e : Ev}
    (hsel : selectedMeshesOf h ≠ []) (hguard : n ≤ 10 ∨ h.confirmYes = true)
    (he : e ∈ mainEvents h n sf sc
      (calculate_bounding_box h.bbox (selectedMeshesOf h)).1.toQ
      (calculate_bounding_box h.bbox (selectedMeshesOf h)).2.1.toQ
      (calculate_bounding_box h.bbox (selectedMeshesOf h)).2.2.toQ) :
    e ∈ duplicate_and_deform h n sf sc := by
  have hne : (selectedMeshesOf h).isEmpty = false := isEmpty_false_of_ne_nil hsel
  unfold duplicate_and_deform
  rw [hne]
  simp only [Bool.false_eq_true, if_false]
  by_cases h10 : n > 10
  · have hc : h.confirmYes = true := by
      rcases hguard with hle | hc
      · omega
      · exact hc
    rw [if_pos h10, hc]
    simp only [if_true, List.mem_append]
    tauto
  · rw [if_neg h10]
    simp only [List.mem_append]
    tauto

lemma mem_mainEvents_of_mem_iter {h : Host} {n : ℤ} {sf : ℚ} {sc : Bool}
    {w hh dd : ℚ} {e : Ev} {i : ℕ} (hi : i ∈ List.range n.toNat)
    (he : e ∈ iterEvents h n sf sc w hh dd (selectedMeshesOf h) i) :
    e ∈ mainEvents h n sf sc w hh dd := by
  unfold mainEvents
  simp only [List.mem_append, List.mem_flatten, List.mem_map]
  exact Or.inl (Or.inr ⟨_, ⟨i, hi, rfl⟩, he⟩)

lemma mem_iter_of_mem_meshEvents {h : Host} {n : ℤ} {sf : ℚ} {sc : Bool}
    {w hh dd : ℚ} {e : Ev} {i : ℕ} {m : String} {meshes : List String}
    (hm : m ∈ meshes) (he : e ∈ meshEvents h i (gname i) m) :
    e ∈ iterEvents h n sf sc w hh dd meshes i := by
  unfold iterEvents
  simp only [List.mem_append, List.mem_flatten, List.mem_map]
  exact Or.inl (Or.inl (Or.inl (Or.inr ⟨_, ⟨m, hm, rfl⟩, he⟩)))

/-- Claim C1: a run that passes the guards creates exactly `num_copies`
duplicate groups named `BB_Duplicate_Mesh_01 .. NN` (characterised as the
exact list of loop group creations), and for each group and each selected
mesh exactly one duplicate of that mesh (renamed `dup_<mesh>_NN`) and exactly
one blend shape from the source mesh to that duplicate (requested name
`<group>_BS`), with the blend-shape weight of the source mesh set to 1. -/
theorem claim_C1 (h : Host) (num_copies : ℤ) (scale_factor : ℚ)
    (showcase_setup : Bool)
    (hsel : selectedMeshesOf h ≠ []) (hn : 0 ≤ num_copies)
    (hguard : num_copies ≤ 10 ∨ h.confirmYes = true) :
    (duplicate_and_deform h num_copies scale_factor showcase_setup).filterMap
        evGroupBB = (List.range num_copies.toNat).map gname
    ∧ ((duplicate_and_deform h num_copies scale_factor showcase_setup).filterMap
        evGroupBB).length = num_copies.toNat
    ∧ (num_copies.toNat : ℤ) = num_copies
    ∧ (duplicate_and_deform h num_copies scale_factor showcase_setup).filterMap
        evBS =
        ((List.range num_copies.toNat).map (fun i => (selectedMeshesOf h).map
          (fun m => (m, "dup_" ++ shortName m ++ "_" ++ pad2 (i + 1),
            gname i ++ "_BS")))).flatten
    ∧ (duplicate_and_deform h num_copies scale_factor showcase_setup).filterMap
        evDup =
        ((List.range num_copies.toNat).map (fun i => (selectedMeshesOf h).map
          (fun m => (m, h.dupName m i)))).flatten
    ∧ (duplicate_and_deform h num_copies scale_factor showcase_setup).filterMap
        evRen =
        ((List.range num_copies.toNat).map (fun i => (selectedMeshesOf h).map
          (fun m => (h.dupName m i,
            "dup_" ++ shortName m ++ "_" ++ pad2 (i + 1))))).flatten
    ∧ ∀ i < num_copies.toNat, ∀ m ∈ selectedMeshesOf h,
        Ev.setAttr (h.bsName m i ++ "." ++ shortName m) 1
          ∈ duplicate_and_deform h num_copies scale_factor showcase_setup := by
  have hgr : (duplicate_and_deform h num_copies scale_factor
      showcase_setup).filterMap evGroupBB
      = (List.range num_copies.toNat).map gname := by
    rw [filterMap_trace evGroupBB h num_copies scale_factor showcase_setup hsel
      hguard rfl rfl (fun a b => rfl) (fun m => rfl) (fun b => rfl)]
    exact evGroupBB_mainEvents _ _ _ _ _ _ _
  refine ⟨hgr, ?_, Int.toNat_of_nonneg hn, ?_, ?_, ?_, ?_⟩
  · rw [hgr, List.length_map, List.length_range]
  · rw [filterMap_trace evBS h num_copies scale_factor showcase_setup hsel
      hguard rfl rfl (fun a b => rfl) (fun m => rfl) (fun b => rfl)]
    exact evBS_mainEvents _ _ _ _ _ _ _
  · rw [filterMap_trace evDup h num_copies scale_factor showcase_setup hsel
      hguard rfl rfl (fun a b => rfl) (fun m => rfl) (fun b => rfl)]
    exact evDup_mainEvents _ _ _ _ _ _ _
  · rw [filterMap_trace evRen h num_copies scale_factor showcase_setup hsel
      hguard rfl rfl (fun a b => rfl) (fun m => rfl) (fun b => rfl)]
    exact evRen_mainEvents _ _ _ _ _ _ _
  · intro i hi m hm
    apply mem_trace_of_mem_mainEvents hsel hguard
    apply mem_mainEvents_of_mem_iter (List.mem_range.mpr hi)
    apply mem_iter_of_mem_meshEvents hm
    unfold meshEvents
    simp

theorem claim_C1_witness :
    (selectedMeshesOf hW ≠ [] ∧ (0 : ℤ) ≤ 2 ∧ ((2 : ℤ) ≤ 10 ∨ hW.confirmYes = true))
    ∧ (duplicate_and_deform hW 2 1 false).filterMap evGroupBB =
        (List.range (2 : ℤ).toNat).map gname
    ∧ ((duplicate_and_deform hW 2 1 false).filterMap evGroupBB).length = (2 : ℤ).toNat
    ∧ (((2 : ℤ).toNat : ℤ) = 2)
    ∧ (duplicate_and_deform hW 2 1 false).filterMap evBS =
        ((List.range (2 : ℤ).toNat).map (fun i => (selectedMeshesOf hW).map
          (fun m => (m, "dup_" ++ shortName m ++ "_" ++ pad2 (i + 1),
            gname i ++ "_BS")))).flatten
    ∧ (duplicate_and_deform hW 2 1 false).filterMap evDup =
        ((List.range (2 : ℤ).toNat).map (fun i => (selectedMeshesOf hW).map
          (fun m => (m, hW.dupName m i)))).flatten
    ∧ (duplicate_and_deform hW 2 1 false).filterMap evRen =
        ((List.range (2 : ℤ).toNat).map (fun i => (selectedMeshesOf hW).map
          (fun m => (hW.dupName m i,
            "dup_" ++ shortName m ++ "_" ++ pad2 (i + 1))))).flatten
    ∧ ∀ i < (2 : ℤ).toNat, ∀ m ∈ selectedMeshesOf hW,
        Ev.setAttr (hW.bsName m i ++ "." ++ shortName m) 1
          ∈ duplicate_and_deform hW 2 1 false :=
  ⟨⟨by decide, by decide, Or.inl (by decide)⟩,
   claim_C1 hW 2 1 false (by decide) (by decide) (Or.inl (by decide))⟩

/-- Observer: rotate calls as (x, y, z, target). -/
def evRot : Ev → Option (ℚ × ℚ × ℚ × String)
  | Ev.rotate x y z t => some (x, y, z, t)
  | _ => none

/-- Observer: move calls as (x, y, z, target, localSpace). -/
def evMove : Ev → Option (ℚ × ℚ × ℚ × String × Bool)
  | Ev.move x y z t ls => some (x, y, z, t, ls)
  | _ => none

lemma evRot_showcase (initSel : List String) (hh dd : ℚ) (nw : Bool) :
    (showcaseEvents initSel hh dd nw).filterMap evRot = [] := by
  cases nw <;> rfl

lemma evMove_showcase (initSel : List String) (hh dd : ℚ) (nw : Bool) :
    (showcaseEvents initSel hh dd nw).filterMap evMove =
      [(0, 1/2 * hh, 6 * dd, "renderCam", false)] := by
  cases nw <;> rfl

lemma evRot_iterEvents (h : Host) (n : ℤ) (sf : ℚ) (sc : Bool) (w hh dd : ℚ)
    (meshes : List String) (i : ℕ) :
    (iterEvents h n sf sc w hh dd meshes i).filterMap evRot =
      (if sc = true ∧ n = 4 then
        [((rotation_values.getD i (0, 0, 0)).1,
          (rotation_values.getD i (0, 0, 0)).2.1,
          (rotation_values.getD i (0, 0, 0)).2.2, cname i)]
      else []) := by
  unfold iterEvents
  simp only [List.filterMap_append]
  rw [filterMap_meshFlatten evRot h i (gname i) meshes (fun m => rfl)]
  by_cases hc : sc = true ∧ n = 4
  · rw [if_pos hc, if_pos hc]
    rfl
  · rw [if_neg hc, if_neg hc]
    rfl

lemma evMove_iterEvents (h : Host) (n : ℤ) (sf : ℚ) (sc : Bool) (w hh dd : ℚ)
    (meshes : List String) (i : ℕ) :
    (iterEvents h n sf sc w hh dd meshes i).filterMap evMove =
      (if sc = true ∧ n = 4 then
        [((offset_positions.getD i (0, 0)).1 * w,
          (offset_positions.getD i (0, 0)).2 * hh, -2 * dd, cname i, true)]
      else [(11/10 * w * ((i : ℚ) + 1), 0, 0, cname i, true)]) := by
  unfold iterEvents
  simp only [List.filterMap_append]
  rw [filterMap_meshFlatten evMove h i (gname i) meshes (fun m => rfl)]
  by_cases hc : sc = true ∧ n = 4
  · rw [if_pos hc, if_pos hc]
    rfl
  · rw [if_neg hc, if_neg hc]
    rfl

lemma evRot_mainEvents (h : Host) (n : ℤ) (sf : ℚ) (sc : Bool) (w hh dd : ℚ) :
    (mainEvents h n sf sc w hh dd).filterMap evRot =
      ((List.range n.toNat).map (fun i =>
        if sc = true ∧ n = 4 then
          [((rotation_values.getD i (0, 0, 0)).1,
            (rotation_values.getD i (0, 0, 0)).2.1,
            (rotation_values.getD i (0, 0, 0)).2.2, cname i)]
        else [])).flatten := by
  unfold mainEvents
  simp only [List.filterMap_append]
  rw [filterMap_loop evRot h n sf sc w hh dd _ _ _
    (fun i => evRot_iterEvents h n sf sc w hh dd (selectedMeshesOf h) i)]
  have h1 : (if h.grpExists = true then removeDuplicatesEvents else []).filterMap
      evRot = [] := by
    split <;> rfl
  have h2 : (if sc = true then
      showcaseEvents h.initialSelection hh dd h.newWindowExists
      else []).filterMap evRot = [] := by
    split
    · exact evRot_showcase _ _ _ _
    · rfl
  rw [h1, h2]
  rw [show ([Ev.objExistsQ "BB_Duplicates_Grp" h.grpExists] : List Ev).filterMap
    evRot = [] from rfl]
  rw [show ([Ev.group "BB_Duplicates_Grp"] : List Ev).filterMap evRot = []
    from rfl]
  rw [show ([Ev.select h.initialSelection] : List Ev).filterMap evRot = []
    from rfl]
  simp

lemma evMove_mainEvents (h : Host) (n : ℤ) (sf : ℚ) (sc : Bool) (w hh dd : ℚ) :
    (mainEvents h n sf sc w hh dd).filterMap evMove =
      (if sc = true then [((0 : ℚ), 1/2 * hh, 6 * dd, "renderCam", false)] else [])
      ++ ((List.range n.toNat).map (fun i =>
        if sc = true ∧ n = 4 then
          [((offset_positions.getD i (0, 0)).1 * w,
            (offset_positions.getD i (0, 0)).2 * hh, -2 * dd, cname i, true)]
        else [(11/10 * w * ((i : ℚ) + 1), 0, 0, cname i, true)])).flatten := by
  unfold mainEvents
  simp only [List.filterMap_append]
  rw [filterMap_loop evMove h n sf sc w hh dd _ _ _
    (fun i => evMove_iterEvents h n sf sc w hh dd (selectedMeshesOf h) i)]
  have h1 : (if h.grpExists = true then removeDuplicatesEvents else []).filterMap
      evMove = [] := by
    split <;> rfl
  have h2 : (if sc = true then
      showcaseEvents h.initialSelection hh dd h.newWindowExists
      else []).filterMap evMove =
      (if sc = true then [((0 : ℚ), 1/2 * hh, 6 * dd, "renderCam", false)]
       else []) := by
    split
    · exact evMove_showcase _ _ _ _
    · rfl
  rw [h1, h2]
  rw [show ([Ev.objExistsQ "BB_Duplicates_Grp" h.grpExists] : List Ev).filterMap
    evMove = [] from rfl]
  rw [show ([Ev.group "BB_Duplicates_Grp"] : List Ev).filterMap evMove = []
    from rfl]
  rw [show ([Ev.select h.initialSelection] : List Ev).filterMap evMove = []
    from rfl]
  simp

/-- Claim C5: with `showcase_setup` and `num_copies = 4`, circle `i` is rotated
by `rotation_values[i]` and moved (in local space) to
`(offset_positions[i][0]*width, offset_positions[i][1]*height, -2*depth)`;
in every other case circle `i` is moved to `(1.1*width*(i+1), 0, 0)` and no
rotate call at all is issued.  (The move characterisation also shows the
camera move when the showcase rig is built.) -/
theorem claim_C5 (h : Host) (num_copies : ℤ) (scale_factor : ℚ)
    (showcase_setup : Bool)
    (hsel : selectedMeshesOf h ≠ [])
    (hguard : num_copies ≤ 10 ∨ h.confirmYes = true) :
    (showcase_setup = true ∧ num_copies = 4 →
      (duplicate_and_deform h num_copies scale_factor showcase_setup).filterMap
          evRot =
        (List.range 4).map (fun i =>
          ((rotation_values.getD i (0, 0, 0)).1,
           (rotation_values.getD i (0, 0, 0)).2.1,
           (rotation_values.getD i (0, 0, 0)).2.2, cname i))
      ∧ (duplicate_and_deform h num_copies scale_factor showcase_setup).filterMap
          evMove =
        ((0 : ℚ), 1/2 * (calculate_bounding_box h.bbox (selectedMeshesOf h)).2.1.toQ,
          6 * (calculate_bounding_box h.bbox (selectedMeshesOf h)).2.2.toQ,
          "renderCam", false)
        :: (List.range 4).map (fun i =>
          ((offset_positions.getD i (0, 0)).1 *
             (calculate_bounding_box h.bbox (selectedMeshesOf h)).1.toQ,
           (offset_positions.getD i (0, 0)).2 *
             (calculate_bounding_box h.bbox (selectedMeshesOf h)).2.1.toQ,
           -2 * (calculate_bounding_box h.bbox (selectedMeshesOf h)).2.2.toQ,
           cname i, true)))
    ∧ (¬(showcase_setup = true ∧ num_copies = 4) →
      (duplicate_and_deform h num_copies scale_factor showcase_setup).filterMap
          evRot = []
      ∧ (duplicate_and_deform h num_copies scale_factor showcase_setup).filterMap
          evMove =
        (if showcase_setup = true then
          [((0 : ℚ), 1/2 * (calculate_bounding_box h.bbox (selectedMeshesOf h)).2.1.toQ,
            6 * (calculate_bounding_box h.bbox (selectedMeshesOf h)).2.2.toQ,
            "renderCam", false)]
         else [])
        ++ (List.range num_copies.toNat).map (fun (i : ℕ) =>
          (11/10 * (calculate_bounding_box h.bbox (selectedMeshesOf h)).1.toQ *
            ((i : ℚ) + 1), 0, 0, cname i, true))) := by
  have hrot : (duplicate_and_deform h num_copies scale_factor
      showcase_setup).filterMap evRot =
      ((List.range num_copies.toNat).map (fun i =>
        if showcase_setup = true ∧ num_copies = 4 then
          [((rotation_values.getD i (0, 0, 0)).1,
            (rotation_values.getD i (0, 0, 0)).2.1,
            (rotation_values.getD i (0, 0, 0)).2.2, cname i)]
        else [])).flatten := by
    rw [filterMap_trace evRot h num_copies scale_factor showcase_setup hsel
      hguard rfl rfl (fun a b => rfl) (fun m => rfl) (fun b => rfl)]
    exact evRot_mainEvents _ _ _ _ _ _ _
  have hmove : (duplicate_and_deform h num_copies scale_factor
      showcase_setup).filterMap evMove =
      (if showcase_setup = true then
        [((0 : ℚ), 1/2 * (calculate_bounding_box h.bbox (selectedMeshesOf h)).2.1.toQ,
          6 * (calculate_bounding_box h.bbox (selectedMeshesOf h)).2.2.toQ,
          "renderCam", false)]
       else [])
      ++ ((List.range num_copies.toNat).map (fun i =>
        if showcase_setup = true ∧ num_copies = 4 then
          [((offset_positions.getD i (0, 0)).1 *
              (calculate_bounding_box h.bbox (selectedMeshesOf h)).1.toQ,
            (offset_positions.getD i (0, 0)).2 *
              (calculate_bounding_box h.bbox (selectedMeshesOf h)).2.1.toQ,
            -2 * (calculate_bounding_box h.bbox (selectedMeshesOf h)).2.2.toQ,
            cname i, true)]
        else [(11/10 * (calculate_bounding_box h.bbox (selectedMeshesOf h)).1.toQ *
          ((i : ℚ) + 1), 0, 0, cname i, true)])).flatten := by
    rw [filterMap_trace evMove h num_copies scale_factor showcase_setup hsel
      hguard rfl rfl (fun a b => rfl) (fun m => rfl) (fun b => rfl)]
    exact evMove_mainEvents _ _ _ _ _ _ _
  constructor
  · intro hc
    have hn4 : num_copies.toNat = 4 := by
      rw [hc.2]
      rfl
    constructor
    · rw [hrot, hn4]
      rw [show (List.map (fun i =>
          if showcase_setup = true ∧ num_copies = 4 then
            [((rotation_values.getD i (0, 0, 0)).1,
              (rotation_values.getD i (0, 0, 0)).2.1,
              (rotation_values.getD i (0, 0, 0)).2.2, cname i)]
          else []) (List.range 4))
        = (List.range 4).map (fun i =>
            [((rotation_values.getD i (0, 0, 0)).1,
              (rotation_values.getD i (0, 0, 0)).2.1,
              (rotation_values.getD i (0, 0, 0)).2.2, cname i)]) from
        List.map_congr_left (fun i _ => if_pos hc)]
      exact flatten_map_singleton _ _
    · rw [hmove, hn4, if_pos hc.1]
      rw [show (List.map (fun i =>
          if showcase_setup = true ∧ num_copies = 4 then
            [((offset_positions.getD i (0, 0)).1 *
                (calculate_bounding_box h.bbox (selectedMeshesOf h)).1.toQ,
              (offset_positions.getD i (0, 0)).2 *
                (calculate_bounding_box h.bbox (selectedMeshesOf h)).2.1.toQ,
              -2 * (calculate_bounding_box h.bbox (selectedMeshesOf h)).2.2.toQ,
              cname i, true)]
          else [(11/10 * (calculate_bounding_box h.bbox (selectedMeshesOf h)).1.toQ *
            ((i : ℚ) + 1), 0, 0, cname i, true)]) (List.range 4))
        = (List.range 4).map (fun i =>
            [((offset_positions.getD i (0, 0)).1 *
                (calculate_bounding_box h.bbox (selectedMeshesOf h)).1.toQ,
              (offset_positions.getD i (0, 0)).2 *
                (calculate_bounding_box h.bbox (selectedMeshesOf h)).2.1.toQ,
              -2 * (calculate_bounding_box h.bbox (selectedMeshesOf h)).2.2.toQ,
              cname i, true)]) from
        List.map_congr_left (fun i _ => if_pos hc)]
      rw [flatten_map_singleton]
      rfl
  · intro hnc
    constructor
    · rw [hrot]
      apply flatten_map_nil
      intro i _
      exact if_neg hnc
    · rw [hmove]
      congr 1
      rw [show (List.map (fun i =>
          if showcase_setup = true ∧ num_copies = 4 then
            [((offset_positions.getD i (0, 0)).1 *
                (calculate_bounding_box h.bbox (selectedMeshesOf h)).1.toQ,
              (offset_positions.getD i (0, 0)).2 *
                (calculate_bounding_box h.bbox (selectedMeshesOf h)).2.1.toQ,
              -2 * (calculate_bounding_box h.bbox (selectedMeshesOf h)).2.2.toQ,
              cname i, true)]
          else [(11/10 * (calculate_bounding_box h.bbox (selectedMeshesOf h)).1.toQ *
            ((i : ℚ) + 1), 0, 0, cname i, true)]) (List.range num_copies.toNat))
        = (List.range num_copies.toNat).map (fun (i : ℕ) =>
            [(11/10 * (calculate_bounding_box h.bbox (selectedMeshesOf h)).1.toQ *
              ((i : ℚ) + 1), 0, 0, cname i, true)]) from
        List.map_congr_left (fun i _ => if_neg hnc)]
      exact flatten_map_singleton _ _

theorem claim_C5_witness :
    (selectedMeshesOf hW ≠ [] ∧ ((4 : ℤ) ≤ 10 ∨ hW.confirmYes = true))
    ∧ ((true = true ∧ (4 : ℤ) = 4 →
        (duplicate_and_deform hW 4 1 true).filterMap evRot =
          (List.range 4).map (fun i =>
            ((rotation_values.getD i (0, 0, 0)).1,
             (rotation_values.getD i (0, 0, 0)).2.1,
             (rotation_values.getD i (0, 0, 0)).2.2, cname i))
        ∧ (duplicate_and_deform hW 4 1 true).filterMap evMove =
          ((0 : ℚ), 1/2 * (calculate_bounding_box hW.bbox (selectedMeshesOf hW)).2.1.toQ,
            6 * (calculate_bounding_box hW.bbox (selectedMeshesOf hW)).2.2.toQ,
            "renderCam", false)
          :: (List.range 4).map (fun i =>
            ((offset_positions.getD i (0, 0)).1 *
               (calculate_bounding_box hW.bbox (selectedMeshesOf hW)).1.toQ,
             (offset_positions.getD i (0, 0)).2 *
               (calculate_bounding_box hW.bbox (selectedMeshesOf hW)).2.1.toQ,
             -2 * (calculate_bounding_box hW.bbox (selectedMeshesOf hW)).2.2.toQ,
             cname i, true)))
      ∧ (¬(true = true ∧ (4 : ℤ) = 4) →
        (duplicate_and_deform hW 4 1 true).filterMap evRot = []
        ∧ (duplicate_and_deform hW 4 1 true).filterMap evMove =
          (if true = true then
            [((0 : ℚ), 1/2 * (calculate_bounding_box hW.bbox (selectedMeshesOf hW)).2.1.toQ,
              6 * (calculate_bounding_box hW.bbox (selectedMeshesOf hW)).2.2.toQ,
              "renderCam", false)]
           else [])
          ++ (List.range (4 : ℤ).toNat).map (fun (i : ℕ) =>
            (11/10 * (calculate_bounding_box hW.bbox (selectedMeshesOf hW)).1.toQ *
              ((i : ℚ) + 1), 0, 0, cname i, true)))) :=
  ⟨⟨by decide, Or.inl (by decide)⟩,
   claim_C5 hW 4 1 true (by decide) (Or.inl (by decide))⟩

/-- Observer: camera creations. -/
def evCam : Ev → Option String
  | Ev.camera n => some n
  | _ => none

/-- Observer: window creations as (name, title). -/
def evWin : Ev → Option (String × String)
  | Ev.window n t => some (n, t)
  | _ => none

/-- Observer: all group creations. -/
def evGroupAll : Ev → Option String
  | Ev.group g => some g
  | _ => none

lemma evCam_inv {e : Ev} {x : String} (he : evCam e = some x) : e = Ev.camera x := by
  cases e <;> simp [evCam] at he
  rw [he]

lemma evWin_inv {e : Ev} {x : String × String} (he : evWin e = some x) :
    e = Ev.window x.1 x.2 := by
  cases e <;> simp [evWin] at he
  rw [← he]

lemma evGroupAll_inv {e : Ev} {x : String} (he : evGroupAll e = some x) :
    e = Ev.group x := by
  cases e <;> simp [evGroupAll] at he
  rw [he]

lemma gname_ne_showcaseGrp (i : ℕ) : gname i ≠ "BB_Duplicate_Showcase_Grp" := by
  intro hEq
  have h14 := congrArg (fun s : String => s.toList.take 14) hEq
  simp only at h14
  rw [show (gname i).toList = "BB_Duplicate_Mesh_".toList ++ (pad2 (i + 1)).toList
    from by simp [gname, String.toList]] at h14
  rw [List.take_append_of_le_length (by decide)] at h14
  exact absurd h14 (by decide)

lemma gname_ne_dupsGrp (i : ℕ) : gname i ≠ "BB_Duplicates_Grp" := by
  intro hEq
  have h13 := congrArg (fun s : String => s.toList.take 13) hEq
  simp only at h13
  rw [show (gname i).toList = "BB_Duplicate_Mesh_".toList ++ (pad2 (i + 1)).toList
    from by simp [gname, String.toList]] at h13
  rw [List.take_append_of_le_length (by decide)] at h13
  exact absurd h13 (by decide)

lemma evCam_showcase (initSel : List String) (hh dd : ℚ) (nw : Bool) :
    (showcaseEvents initSel hh dd nw).filterMap evCam = ["renderCam"] := by
  cases nw <;> rfl

lemma evWin_showcase (initSel : List String) (hh dd : ℚ) (nw : Bool) :
    (showcaseEvents initSel hh dd nw).filterMap evWin = [("Showcase", "Showcase")] := by
  cases nw <;> rfl

lemma evGroupAll_showcase (initSel : List String) (hh dd : ℚ) (nw : Bool) :
    (showcaseEvents initSel hh dd nw).filterMap evGroupAll =
      ["BB_Duplicate_Showcase_Grp"] := by
  cases nw <;> rfl

lemma evCam_iterEvents (h : Host) (n : ℤ) (sf : ℚ) (sc : Bool) (w hh dd : ℚ)
    (meshes : List String) (i : ℕ) :
    (iterEvents h n sf sc w hh dd meshes i).filterMap evCam = [] := by
  unfold iterEvents
  simp only [List.filterMap_append]
  rw [filterMap_meshFlatten evCam h i (gname i) meshes (fun m => rfl)]
  split <;> rfl

lemma evWin_iterEvents (h : Host) (n : ℤ) (sf : ℚ) (sc : Bool) (w hh dd : ℚ)
    (meshes : List String) (i : ℕ) :
    (iterEvents h n sf sc w hh dd meshes i).filterMap evWin = [] := by
  unfold iterEvents
  simp only [List.filterMap_append]
  rw [filterMap_meshFlatten evWin h i (gname i) meshes (fun m => rfl)]
  split <;> rfl

lemma evGroupAll_iterEvents (h : Host) (n : ℤ) (sf : ℚ) (sc : Bool) (w hh dd : ℚ)
    (meshes : List String) (i : ℕ) :
    (iterEvents h n sf sc w hh dd meshes i).filterMap evGroupAll = [gname i] := by
  unfold iterEvents
  simp only [List.filterMap_append]
  rw [filterMap_meshFlatten evGroupAll h i (gname i) meshes (fun m => rfl)]
  split <;> rfl

lemma evCam_mainEvents (h : Host) (n : ℤ) (sf : ℚ) (sc : Bool) (w hh dd : ℚ) :
    (mainEvents h n sf sc w hh dd).filterMap evCam =
      (if sc = true then ["renderCam"] else []) := by
  unfold mainEvents
  simp only [List.filterMap_append]
  rw [filterMap_loop evCam h n sf sc w hh dd _ _ (fun _ => [])
    (fun i => evCam_iterEvents h n sf sc w hh dd (selectedMeshesOf h) i)]
  have h1 : (if h.grpExists = true then removeDuplicatesEvents else []).filterMap
      evCam = [] := by
    split <;> rfl
  have h2 : (if sc = true then
      showcaseEvents h.initialSelection hh dd h.newWindowExists
      else []).filterMap evCam = (if sc = true then ["renderCam"] else []) := by
    split
    · exact evCam_showcase _ _ _ _
    · rfl
  rw [h1, h2, flatten_map_nil _ _ (fun _ _ => rfl)]
  rw [show ([Ev.objExistsQ "BB_Duplicates_Grp" h.grpExists] : List Ev).filterMap
    evCam = [] from rfl]
  rw [show ([Ev.group "BB_Duplicates_Grp"] : List Ev).filterMap evCam = []
    from rfl]
  rw [show ([Ev.select h.initialSelection] : List Ev).filterMap evCam = []
    from rfl]
  simp

lemma evWin_mainEvents (h : Host) (n : ℤ) (sf : ℚ) (sc : Bool) (w hh dd : ℚ) :
    (mainEvents h n sf sc w hh dd).filterMap evWin =
      (if sc = true then [("Showcase", "Showcase")] else []) := by
  unfold mainEvents
  simp only [List.filterMap_append]
  rw [filterMap_loop evWin h n sf sc w hh dd _ _ (fun _ => [])
    (fun i => evWin_iterEvents h n sf sc w hh dd (selectedMeshesOf h) i)]
  have h1 : (if h.grpExists = true then removeDuplicatesEvents else []).filterMap
      evWin = [] := by
    split <;> rfl
  have h2 : (if sc = true then
      showcaseEvents h.initialSelection hh dd h.newWindowExists
      else []).filterMap evWin =
      (if sc = true then [("Showcase", "Showcase")] else []) := by
    split
    · exact evWin_showcase _ _ _ _
    · rfl
  rw [h1, h2, flatten_map_nil _ _ (fun _ _ => rfl)]
  rw [show ([Ev.objExistsQ "BB_Duplicates_Grp" h.grpExists] : List Ev).filterMap
    evWin = [] from rfl]
  rw [show ([Ev.group "BB_Duplicates_Grp"] : List Ev).filterMap evWin = []
    from rfl]
  rw [show ([Ev.select h.initialSelection] : List Ev).filterMap evWin = []
    from rfl]
  simp

lemma evGroupAll_mainEvents (h : Host) (n : ℤ) (sf : ℚ) (sc : Bool) (w hh dd : ℚ) :
    (mainEvents h n sf sc w hh dd).filterMap evGroupAll =
      "BB_Duplicates_Grp"
      :: ((if sc = true then ["BB_Duplicate_Showcase_Grp"] else [])
          ++ (List.range n.toNat).map gname) := by
  unfold mainEvents
  simp only [List.filterMap_append]
  rw [filterMap_loop evGroupAll h n sf sc w hh dd _ _ (fun i => [gname i])
    (fun i => evGroupAll_iterEvents h n sf sc w hh dd (selectedMeshesOf h) i)]
  have h1 : (if h.grpExists = true then removeDuplicatesEvents else []).filterMap
      evGroupAll = [] := by
    split <;> rfl
  have h2 : (if sc = true then
      showcaseEvents h.initialSelection hh dd h.newWindowExists
      else []).filterMap evGroupAll =
      (if sc = true then ["BB_Duplicate_Showcase_Grp"] else []) := by
    split
    · exact evGroupAll_showcase _ _ _ _
    · rfl
  rw [h1, h2, flatten_map_singleton]
  rw [show ([Ev.objExistsQ "BB_Duplicates_Grp" h.grpExists] : List Ev).filterMap
    evGroupAll = [] from rfl]
  rw [show ([Ev.group "BB_Duplicates_Grp"] : List Ev).filterMap evGroupAll =
    ["BB_Duplicates_Grp"] from rfl]
  rw [show ([Ev.select h.initialSelection] : List Ev).filterMap evGroupAll = []
    from rfl]
  simp

/-- Claim C7: the `renderCam` camera, the `BB_Duplicate_Showcase_Grp` group
and the showcase window are created if and only if `showcase_setup` is true;
when it is false no camera, showcase group or window call occurs at all. -/
theorem claim_C7 (h : Host) (num_copies : ℤ) (scale_factor : ℚ)
    (showcase_setup : Bool)
    (hsel : selectedMeshesOf h ≠ [])
    (hguard : num_copies ≤ 10 ∨ h.confirmYes = true) :
    (Ev.camera "renderCam"
        ∈ duplicate_and_deform h num_copies scale_factor showcase_setup
      ↔ showcase_setup = true)
    ∧ (Ev.window "Showcase" "Showcase"
        ∈ duplicate_and_deform h num_copies scale_factor showcase_setup
      ↔ showcase_setup = true)
    ∧ (Ev.group "BB_Duplicate_Showcase_Grp"
        ∈ duplicate_and_deform h num_copies scale_factor showcase_setup
      ↔ showcase_setup = true)
    ∧ (duplicate_and_deform h num_copies scale_factor showcase_setup).filterMap
        evCam = (if showcase_setup = true then ["renderCam"] else [])
    ∧ (duplicate_and_deform h num_copies scale_factor showcase_setup).filterMap
        evWin = (if showcase_setup = true then [("Showcase", "Showcase")] else []) := by
  have hcam : (duplicate_and_deform h num_copies scale_factor
      showcase_setup).filterMap evCam =
      (if showcase_setup = true then ["renderCam"] else []) := by
    rw [filterMap_trace evCam h num_copies scale_factor showcase_setup hsel
      hguard rfl rfl (fun a b => rfl) (fun m => rfl) (fun b => rfl)]
    exact evCam_mainEvents _ _ _ _ _ _ _
  have hwin : (duplicate_and_deform h num_copies scale_factor
      showcase_setup).filterMap evWin =
      (if showcase_setup = true then [("Showcase", "Showcase")] else []) := by
    rw [filterMap_trace evWin h num_copies scale_factor showcase_setup hsel
      hguard rfl rfl (fun a b => rfl) (fun m => rfl) (fun b => rfl)]
    exact evWin_mainEvents _ _ _ _ _ _ _
  have hgrp : (duplicate_and_deform h num_copies scale_factor
      showcase_setup).filterMap evGroupAll =
      "BB_Duplicates_Grp"
      :: ((if showcase_setup = true then ["BB_Duplicate_Showcase_Grp"] else [])
          ++ (List.range num_copies.toNat).map gname) := by
    rw [filterMap_trace evGroupAll h num_copies scale_factor showcase_setup hsel
      hguard rfl rfl (fun a b => rfl) (fun m => rfl) (fun b => rfl)]
    exact evGroupAll_mainEvents _ _ _ _ _ _ _
  refine ⟨⟨?_, ?_⟩, ⟨?_, ?_⟩, ⟨?_, ?_⟩, hcam, hwin⟩
  · intro hmem
    have hin : "renderCam" ∈ (duplicate_and_deform h num_copies scale_factor
        showcase_setup).filterMap evCam := List.mem_filterMap.mpr ⟨_, hmem, rfl⟩
    rw [hcam] at hin
    by_contra hsc
    rw [if_neg hsc] at hin
    exact List.not_mem_nil _ hin
  · intro hsc
    have hin : "renderCam" ∈ (duplicate_and_deform h num_copies scale_factor
        showcase_setup).filterMap evCam := by
      rw [hcam, if_pos hsc]
      exact List.mem_singleton.mpr rfl
    rcases List.mem_filterMap.mp hin with ⟨e, he, hee⟩
    rw [← evCam_inv hee]
    exact he
  · intro hmem
    have hin : ("Showcase", "Showcase") ∈ (duplicate_and_deform h num_copies
        scale_factor showcase_setup).filterMap evWin :=
      List.mem_filterMap.mpr ⟨_, hmem, rfl⟩
    rw [hwin] at hin
    by_contra hsc
    rw [if_neg hsc] at hin
    exact List.not_mem_nil _ hin
  · intro hsc
    have hin : ("Showcase", "Showcase") ∈ (duplicate_and_deform h num_copies
        scale_factor showcase_setup).filterMap evWin := by
      rw [hwin, if_pos hsc]
      exact List.mem_singleton.mpr rfl
    rcases List.mem_filterMap.mp hin with ⟨e, he, hee⟩
    rw [show e = Ev.window "Showcase" "Showcase" from evWin_inv hee]
      at he
    exact he
  · intro hmem
    have hin : "BB_Duplicate_Showcase_Grp" ∈ (duplicate_and_deform h num_copies
        scale_factor showcase_setup).filterMap evGroupAll :=
      List.mem_filterMap.mpr ⟨_, hmem, rfl⟩
    rw [hgrp] at hin
    by_contra hsc
    rw [if_neg hsc] at hin
    simp only [List.nil_append, List.mem_cons, List.mem_map] at hin
    rcases hin with hbad | ⟨i, _, hbad⟩
    · exact absurd hbad (by decide)
    · exact absurd hbad (gname_ne_showcaseGrp i)
  · intro hsc
    have hin : "BB_Duplicate_Showcase_Grp" ∈ (duplicate_and_deform h num_copies
        scale_factor showcase_setup).filterMap evGroupAll := by
      rw [hgrp, if_pos hsc]
      simp
    rcases List.mem_filterMap.mp hin with ⟨e, he, hee⟩
    rw [← evGroupAll_inv hee]
    exact he

theorem claim_C7_witness :
    (selectedMeshesOf hW ≠ [] ∧ ((3 : ℤ) ≤ 10 ∨ hW.confirmYes = true))
    ∧ ((Ev.camera "renderCam" ∈ duplicate_and_deform hW 3 1 true ↔ true = true)
      ∧ (Ev.window "Showcase" "Showcase" ∈ duplicate_and_deform hW 3 1 true
          ↔ true = true)
      ∧ (Ev.group "BB_Duplicate_Showcase_Grp" ∈ duplicate_and_deform hW 3 1 true
          ↔ true = true)
      ∧ (duplicate_and_deform hW 3 1 true).filterMap evCam =
          (if true = true then ["renderCam"] else [])
      ∧ (duplicate_and_deform hW 3 1 true).filterMap evWin =
          (if true = true then [("Showcase", "Showcase")] else [])) :=
  ⟨⟨by decide, Or.inl (by decide)⟩,
   claim_C7 hW 3 1 true (by decide) (Or.inl (by decide))⟩

/-- Claim C8: for every duplicate group a control circle is created with
radius `width/2`, scaled uniformly by `scale_factor`, the group is driven by
the circle through a parent constraint and a scale constraint, and both the
circle and the group are parented under `BB_Duplicates_Grp`. -/
theorem claim_C8 (h : Host) (num_copies : ℤ) (scale_factor : ℚ)
    (showcase_setup : Bool)
    (hsel : selectedMeshesOf h ≠ [])
    (hguard : num_copies ≤ 10 ∨ h.confirmYes = true) :
    ∀ i < num_copies.toNat,
      Ev.circle (cname i) 0 1 0
          ((calculate_bounding_box h.bbox (selectedMeshesOf h)).1.toQ / 2)
        ∈ duplicate_and_deform h num_copies scale_factor showcase_setup
      ∧ Ev.scaleEv scale_factor scale_factor scale_factor (cname i)
        ∈ duplicate_and_deform h num_copies scale_factor showcase_setup
      ∧ Ev.parentConstraint (cname i) (gname i)
        ∈ duplicate_and_deform h num_copies scale_factor showcase_setup
      ∧ Ev.scaleConstraint (cname i) (gname i)
        ∈ duplicate_and_deform h num_copies scale_factor showcase_setup
      ∧ Ev.parent (cname i) "BB_Duplicates_Grp"
        ∈ duplicate_and_deform h num_copies scale_factor showcase_setup
      ∧ Ev.parent (gname i) "BB_Duplicates_Grp"
        ∈ duplicate_and_deform h num_copies scale_factor showcase_setup := by
  intro i hi
  refine ⟨?_, ?_, ?_, ?_, ?_, ?_⟩ <;>
    (apply mem_trace_of_mem_mainEvents hsel hguard
     apply mem_mainEvents_of_mem_iter (List.mem_range.mpr hi)
     unfold iterEvents
     simp [List.mem_append])

theorem claim_C8_witness :
    (selectedMeshesOf hW ≠ [] ∧ ((2 : ℤ) ≤ 10 ∨ hW.confirmYes = true)
      ∧ 0 < (2 : ℤ).toNat)
    ∧ (Ev.circle (cname 0) 0 1 0
          ((calculate_bounding_box hW.bbox (selectedMeshesOf hW)).1.toQ / 2)
        ∈ duplicate_and_deform hW 2 1 false
      ∧ Ev.scaleEv 1 1 1 (cname 0) ∈ duplicate_and_deform hW 2 1 false
      ∧ Ev.parentConstraint (cname 0) (gname 0) ∈ duplicate_and_deform hW 2 1 false
      ∧ Ev.scaleConstraint (cname 0) (gname 0) ∈ duplicate_and_deform hW 2 1 false
      ∧ Ev.parent (cname 0) "BB_Duplicates_Grp" ∈ duplicate_and_deform hW 2 1 false
      ∧ Ev.parent (gname 0) "BB_Duplicates_Grp"
        ∈ duplicate_and_deform hW 2 1 false) :=
  ⟨⟨by decide, Or.inl (by decide), by decide⟩,
   claim_C8 hW 2 1 false (by decide) (Or.inl (by decide)) 0 (by decide)⟩

/-- Camera/showcase-window construction calls. -/
def camWinB : Ev → Bool
  | Ev.camera _ => true
  | Ev.window _ _ => true
  | Ev.showWindow _ => true
  | _ => false

/-- Node-creation calls that occur only in the duplication loop: duplicates,
blend shapes, control circles, constraints, renames, and the per-copy
duplicate groups (`BB_Duplicate_Mesh_NN`, main.py line 116), recognised by
their name prefix. -/
def loopCreateB : Ev → Bool
  | Ev.duplicate _ _ => true
  | Ev.blendShape _ _ _ _ => true
  | Ev.circle _ _ _ _ _ => true
  | Ev.parentConstraint _ _ => true
  | Ev.scaleConstraint _ _ => true
  | Ev.rename _ _ => true
  | Ev.group n => strStarts "BB_Duplicate_Mesh_" n
  | _ => false

/-- `beforeAllB p q tr` holds when no `p`-event occurs after a `q`-event in
`tr`: every `p`-event precedes every `q`-event. -/
def beforeAllB (p q : Ev → Bool) : List Ev → Bool
  | [] => true
  | e :: rest =>
      (if q e then rest.all (fun x => !(p x)) else true) && beforeAllB p q rest

lemma beforeAllB_append (p q : Ev → Bool) (a b : List Ev)
    (ha : ∀ e ∈ a, q e = false) (hb : ∀ e ∈ b, p e = false) :
    beforeAllB p q (a ++ b) = true := by
  induction a with
  | nil =>
      simp only [List.nil_append]
      induction b with
      | nil => rfl
      | cons e rest ih =>
          have hall : rest.all (fun x => !(p x)) = true :=
            List.all_eq_true.mpr (fun x hx => by
              rw [hb x (List.mem_cons_of_mem _ hx)]
              rfl)
          have hrest : beforeAllB p q rest = true :=
            ih (fun x hx => hb x (List.mem_cons_of_mem _ hx))
          show ((if q e = true then rest.all (fun x => !(p x)) else true)
              && beforeAllB p q rest) = true
          rw [hrest]
          by_cases hq : q e = true
          · rw [if_pos hq, hall]
            rfl
          · rw [if_neg hq]
            rfl
  | cons e rest ih =>
      have hrest : beforeAllB p q (rest ++ b) = true :=
        ih (fun x hx => ha x (List.mem_cons_of_mem _ hx))
      show ((if q e = true then (rest ++ b).all (fun x => !(p x)) else true)
          && beforeAllB p q (rest ++ b)) = true
      rw [hrest, ha e (List.mem_cons_self _ _)]
      rfl

lemma loopCreateB_false_of_preLoop {hh dd : ℚ} {nw : Bool}
    {initSel : List String} {e : Ev}
    (he : e ∈ showcaseEvents initSel hh dd nw) : loopCreateB e = false := by
  rcases mem_showcaseEvents he with rfl | rfl | rfl | rfl | rfl | rfl | rfl | rfl |
    rfl | rfl | rfl | rfl | ⟨fl, rfl⟩ | rfl | rfl | rfl | rfl
  all_goals rfl

lemma camWinB_false_of_iter {h : Host} {n : ℤ} {sf : ℚ} {sc : Bool} {w hh dd : ℚ}
    {meshes : List String} {i : ℕ} {e : Ev}
    (he : e ∈ iterEvents h n sf sc w hh dd meshes i) : camWinB e = false := by
  rcases mem_iterEvents he with rfl | ⟨m, _, hme⟩ | rfl | rfl | rfl | rfl | rfl |
    ⟨x, y, z, rfl⟩ | ⟨x, y, z, ls, rfl⟩ | rfl | rfl | rfl | rfl
  · rfl
  · rcases mem_meshEvents hme with rfl | rfl | rfl | rfl | rfl <;> rfl
  all_goals rfl

/-- Claim C6 counterexample: with the showcase flag set, the camera/window
construction does NOT come after the duplicate loop's node creations - on a
concrete passing run both kinds of call occur and some loop creation follows
a camera/window call. -/
theorem claim_C6_counterexample :
    beforeAllB loopCreateB camWinB (duplicate_and_deform hW 1 1 true) = false
    ∧ (duplicate_and_deform hW 1 1 true).any camWinB = true
    ∧ (duplicate_and_deform hW 1 1 true).any loopCreateB = true := by
  refine ⟨by decide, by decide, by decide⟩

/-- Claim C6 (amended): in every run the camera/showcase window construction
precedes every node created by the duplicate loop (the code builds the
showcase rig between parent-group creation and the loop, not after the
loop); with the showcase flag, a valid selection and a positive copy count
both kinds of call do occur. -/
theorem claim_C6 (h : Host) (num_copies : ℤ) (scale_factor : ℚ)
    (hsel : selectedMeshesOf h ≠ [])
    (hguard : num_copies ≤ 10 ∨ h.confirmYes = true)
    (hn : 0 < num_copies) :
    beforeAllB camWinB loopCreateB (duplicate_and_deform h num_copies
        scale_factor true) = true
    ∧ (duplicate_and_deform h num_copies scale_factor true).any camWinB = true
    ∧ (duplicate_and_deform h num_copies scale_factor true).any loopCreateB
        = true := by
  have hne : (selectedMeshesOf h).isEmpty = false := isEmpty_false_of_ne_nil hsel
  have hmain : ∀ w hh dd : ℚ,
      beforeAllB camWinB loopCreateB
        ([Ev.lsSel h.initialSelection, Ev.lsShapes (h.shapes.map Prod.fst)]
          ++ (h.shapes.map fun p => Ev.nodeTypeQ p.1 p.2)
          ++ ((selectedMeshesOf h).map Ev.bboxQuery
          ++ ((if num_copies > 10 then [Ev.question h.confirmYes] else [])
          ++ mainEvents h num_copies scale_factor true w hh dd))) = true := by
    intro w hh dd
    rw [show [Ev.lsSel h.initialSelection, Ev.lsShapes (h.shapes.map Prod.fst)]
          ++ (h.shapes.map fun p => Ev.nodeTypeQ p.1 p.2)
          ++ ((selectedMeshesOf h).map Ev.bboxQuery
          ++ ((if num_copies > 10 then [Ev.question h.confirmYes] else [])
          ++ mainEvents h num_copies scale_factor true w hh dd)) =
        ([Ev.lsSel h.initialSelection, Ev.lsShapes (h.shapes.map Prod.fst)]
          ++ (h.shapes.map fun p => Ev.nodeTypeQ p.1 p.2)
          ++ (selectedMeshesOf h).map Ev.bboxQuery
          ++ (if num_copies > 10 then [Ev.question h.confirmYes] else [])
          ++ [Ev.objExistsQ "BB_Duplicates_Grp" h.grpExists]
          ++ (if h.grpExists = true then removeDuplicatesEvents else [])
          ++ [Ev.group "BB_Duplicates_Grp"]
          ++ showcaseEvents h.initialSelection hh dd h.newWindowExists)
        ++ (((List.range num_copies.toNat).map
              (iterEvents h num_copies scale_factor true w hh dd
                (selectedMeshesOf h))).flatten
          ++ [Ev.select h.initialSelection]) from by
      unfold mainEvents
      simp [List.append_assoc]]
    apply beforeAllB_append
    · intro e he
      simp only [List.mem_append, List.mem_cons, List.not_mem_nil, or_false,
        List.mem_map] at he
      rcases he with (((((((rfl | rfl) | ⟨p, _, rfl⟩) | ⟨m, _, rfl⟩) | hq) |
        rfl) | hrem) | rfl) | hsc
      · rfl
      · rfl
      · rfl
      · rfl
      · split at hq
        · simp only [List.mem_cons, List.not_mem_nil, or_false] at hq
          subst hq
          rfl
        · simp at hq
      · rfl
      · split at hrem
        · simp only [removeDuplicatesEvents, List.mem_cons, List.not_mem_nil,
            or_false] at hrem
          rcases hrem with rfl | rfl <;> rfl
        · simp at hrem
      · rfl
      · exact loopCreateB_false_of_preLoop hsc
    · intro e he
      simp only [List.mem_append, List.mem_cons, List.not_mem_nil, or_false,
        List.mem_flatten, List.mem_map] at he
      rcases he with ⟨l, ⟨i, _, rfl⟩, hel⟩ | rfl
      · exact camWinB_false_of_iter hel
      · rfl
  refine ⟨?_, ?_, ?_⟩
  · unfold duplicate_and_deform
    rw [hne]
    simp only [Bool.false_eq_true, if_false]
    by_cases h10 : num_copies > 10
    · have hc : h.confirmYes = true := by
        rcases hguard with hle | hc
        · omega
        · exact hc
      rw [if_pos h10, hc]
      simp only [if_true]
      have hh := hmain (calculate_bounding_box h.bbox (selectedMeshesOf h)).1.toQ
        (calculate_bounding_box h.bbox (selectedMeshesOf h)).2.1.toQ
        (calculate_bounding_box h.bbox (selectedMeshesOf h)).2.2.toQ
      rw [if_pos h10, hc] at hh
      exact hh
    · rw [if_neg h10]
      have hh := hmain (calculate_bounding_box h.bbox (selectedMeshesOf h)).1.toQ
        (calculate_bounding_box h.bbox (selectedMeshesOf h)).2.1.toQ
        (calculate_bounding_box h.bbox (selectedMeshesOf h)).2.2.toQ
      rw [if_neg h10] at hh
      simpa using hh
  · apply List.any_eq_true.mpr
    refine ⟨Ev.camera "renderCam", ?_, rfl⟩
    apply mem_trace_of_mem_mainEvents hsel hguard
    unfold mainEvents
    simp only [List.mem_append]
    refine Or.inl (Or.inl (Or.inr ?_))
    simp only [if_true]
    unfold showcaseEvents
    simp
  · apply List.any_eq_true.mpr
    refine ⟨Ev.circle (cname 0) 0 1 0
      ((calculate_bounding_box h.bbox (selectedMeshesOf h)).1.toQ / 2), ?_, rfl⟩
    apply mem_trace_of_mem_mainEvents hsel hguard
    apply mem_mainEvents_of_mem_iter (i := 0)
      (List.mem_range.mpr (by omega))
    unfold iterEvents
    simp [List.mem_append]

theorem claim_C6_witness :
    (selectedMeshesOf hW ≠ [] ∧ ((2 : ℤ) ≤ 10 ∨ hW.confirmYes = true)
      ∧ (0 : ℤ) < 2)
    ∧ beforeAllB camWinB loopCreateB (duplicate_and_deform hW 2 1 true) = true
    ∧ (duplicate_and_deform hW 2 1 true).any camWinB = true
    ∧ (duplicate_and_deform hW 2 1 true).any loopCreateB = true :=
  ⟨⟨by decide, Or.inl (by decide), by decide⟩,
   claim_C6 hW 2 1 (by decide) (Or.inl (by decide)) (by decide)⟩

lemma contains_true_iff {α : Type} [BEq α] [LawfulBEq α] (l : List α) (x : α) :
    l.contains x = true ↔ x ∈ l := by
  simp

lemma contains_false_iff {α : Type} [BEq α] [LawfulBEq α] (l : List α) (x : α) :
    l.contains x = false ↔ x ∉ l := by
  rw [← Bool.not_eq_true, not_iff_not]
  exact contains_true_iff l x

lemma grow_subset (nodes : List SNode) (ds : List String) (x : String)
    (hx : x ∈ growDeleted nodes ds) : x ∈ ds ∨ x ∈ nodes.map SNode.name := by
  unfold growDeleted at hx
  rcases List.mem_append.mp hx with hd | hm
  · exact Or.inl hd
  · rcases List.mem_map.mp hm with ⟨nd, hnd, rfl⟩
    exact Or.inr (List.mem_map.mpr ⟨nd, List.mem_of_mem_filter hnd, rfl⟩)

lemma mem_grow_of_mem (nodes : List SNode) (ds : List String) (x : String)
    (hx : x ∈ ds) : x ∈ growDeleted nodes ds :=
  List.mem_append.mpr (Or.inl hx)

lemma deleteClosure_subset (nodes : List SNode) :
    ∀ (f : ℕ) (ds : List String) (x : String),
      x ∈ deleteClosure nodes ds f → x ∈ ds ∨ x ∈ nodes.map SNode.name := by
  intro f
  induction f with
  | zero => intro ds x hx; exact Or.inl hx
  | succ f ih =>
      intro ds x hx
      rcases ih (growDeleted nodes ds) x hx with hg | hm
      · exact grow_subset nodes ds x hg
      · exact Or.inr hm

lemma mem_deleteClosure_of_mem (nodes : List SNode) :
    ∀ (f : ℕ) (ds : List String) (x : String),
      x ∈ ds → x ∈ deleteClosure nodes ds f := by
  intro f
  induction f with
  | zero => intro ds x hx; exact hx
  | succ f ih => intro ds x hx; exact ih _ x (mem_grow_of_mem nodes ds x hx)

lemma deleteClosure_of_fix (nodes : List SNode) :
    ∀ (f : ℕ) (ds : List String), growDeleted nodes ds = ds →
      deleteClosure nodes ds f = ds := by
  intro f
  induction f with
  | zero => intro ds _; rfl
  | succ f ih =>
      intro ds hfix
      show deleteClosure nodes (growDeleted nodes ds) f = ds
      rw [hfix]
      exact ih ds hfix

/-- The number of node names not yet in the dead set: the measure that shrinks
at every productive cascade step. -/
def remCount (nodes : List SNode) (ds : List String) : ℕ :=
  (nodes.filter (fun nd => !ds.contains nd.name)).length

lemma length_filter_mono {α : Type} (l : List α) (p q : α → Bool)
    (him : ∀ x ∈ l, q x = true → p x = true) :
    (l.filter q).length ≤ (l.filter p).length := by
  induction l with
  | nil => exact Nat.le_refl _
  | cons a t ih =>
      have iht := ih (fun x hx => him x (List.mem_cons_of_mem _ hx))
      by_cases hq : q a = true
      · rw [List.filter_cons_of_pos hq,
          List.filter_cons_of_pos (him a (List.mem_cons_self _ _) hq)]
        exact Nat.succ_le_succ iht
      · rw [List.filter_cons_of_neg (by simpa using hq)]
        by_cases hp : p a = true
        · rw [List.filter_cons_of_pos hp]
          exact Nat.le_trans iht (Nat.le_succ _)
        · rw [List.filter_cons_of_neg (by simpa using hp)]
          exact iht

lemma length_filter_strict {α : Type} (l : List α) (p q : α → Bool)
    (him : ∀ x ∈ l, q x = true → p x = true) (x0 : α) (hx0 : x0 ∈ l)
    (hp : p x0 = true) (hq : q x0 = false) :
    (l.filter q).length < (l.filter p).length := by
  induction l with
  | nil => cases hx0
  | cons a t ih =>
      have hmono : ∀ x ∈ t, q x = true → p x = true :=
        fun x hx => him x (List.mem_cons_of_mem _ hx)
      rcases List.mem_cons.mp hx0 with rfl | hx0t
      · rw [List.filter_cons_of_neg (by simp [hq]), List.filter_cons_of_pos hp]
        exact Nat.lt_succ_of_le (length_filter_mono t p q hmono)
      · have iht := ih hmono hx0t
        by_cases hqa : q a = true
        · rw [List.filter_cons_of_pos hqa,
            List.filter_cons_of_pos (him a (List.mem_cons_self _ _) hqa)]
          exact Nat.succ_lt_succ iht
        · rw [List.filter_cons_of_neg (by simpa using hqa)]
          by_cases hpa : p a = true
          · rw [List.filter_cons_of_pos hpa]
            exact Nat.lt_succ_of_lt iht
          · rw [List.filter_cons_of_neg (by simpa using hpa)]
            exact iht

lemma grow_strict (nodes : List SNode) (ds : List String)
    (hne : growDeleted nodes ds ≠ ds) :
    remCount nodes (growDeleted nodes ds) < remCount nodes ds := by
  have hadd : (nodes.filter (fun nd =>
      !ds.contains nd.name &&
        ((match nd.parent with
          | some p => ds.contains p
          | none => false) ||
         (match nd.deformed with
          | some q => ds.contains q
          | none => false)))) ≠ [] := by
    intro hnil
    apply hne
    unfold growDeleted
    rw [hnil]
    simp
  rcases List.exists_mem_of_ne_nil _ hadd with ⟨nd0, hnd0⟩
  have hnd0l := List.mem_of_mem_filter hnd0
  have hnd0p := List.of_mem_filter hnd0
  have hname : ds.contains nd0.name = false := by
    have hp' := hnd0p
    simp only [Bool.and_eq_true, Bool.not_eq_true'] at hp'
    exact hp'.1
  have hnameGrow : (growDeleted nodes ds).contains nd0.name = true := by
    rw [contains_true_iff]
    unfold growDeleted
    refine List.mem_append.mpr (Or.inr (List.mem_map.mpr ⟨nd0, hnd0, rfl⟩))
  apply length_filter_strict nodes _ _ ?mono nd0 hnd0l ?hp ?hq
  case mono =>
    intro nd _ hq
    rw [Bool.not_eq_true'] at hq ⊢
    rw [contains_false_iff] at hq ⊢
    intro hmem
    exact hq (mem_grow_of_mem nodes ds nd.name hmem)
  case hp => simpa using hname
  case hq => simpa using hnameGrow

lemma grow_fix_of_remCount_zero (nodes : List SNode) (ds : List String)
    (h0 : remCount nodes ds = 0) : growDeleted nodes ds = ds := by
  have hnil : nodes.filter (fun nd => !ds.contains nd.name) = [] :=
    List.length_eq_zero.mp h0
  rw [List.filter_eq_nil_iff] at hnil
  unfold growDeleted
  rw [show nodes.filter (fun nd =>
      !ds.contains nd.name &&
        ((match nd.parent with
          | some p => ds.contains p
          | none => false) ||
         (match nd.deformed with
          | some q => ds.contains q
          | none => false))) = [] from List.filter_eq_nil_iff.mpr ?_]
  · simp
  · intro nd hnd
    have hx := hnil nd hnd
    have hmemds : nd.name ∈ ds := by simpa using hx
    simp [hmemds]

lemma deleteClosure_eq_remCount (nodes : List SNode) :
    ∀ (f : ℕ) (ds : List String), remCount nodes ds ≤ f →
      deleteClosure nodes ds f = deleteClosure nodes ds (remCount nodes ds) := by
  intro f
  induction f using Nat.strong_induction_on with
  | _ f ih =>
      intro ds hle
      cases f with
      | zero =>
          have h0 : remCount nodes ds = 0 := Nat.le_zero.mp hle
          rw [h0]
      | succ f =>
          by_cases hfix : growDeleted nodes ds = ds
          · rw [deleteClosure_of_fix nodes _ ds hfix,
              deleteClosure_of_fix nodes _ ds hfix]
          · have hlt : remCount nodes (growDeleted nodes ds) < remCount nodes ds :=
              grow_strict nodes ds hfix
            have hpos : 0 < remCount nodes ds := by
              rcases Nat.eq_zero_or_pos (remCount nodes ds) with h0 | hp
              · exact absurd (grow_fix_of_remCount_zero nodes ds h0) hfix
              · exact hp
            obtain ⟨k, hk⟩ : ∃ k, remCount nodes ds = k + 1 :=
              ⟨remCount nodes ds - 1, by omega⟩
            have hL : deleteClosure nodes ds (f + 1) =
                deleteClosure nodes (growDeleted nodes ds)
                  (remCount nodes (growDeleted nodes ds)) := by
              show deleteClosure nodes (growDeleted nodes ds) f = _
              exact ih f (Nat.lt_succ_self f) _ (by omega)
            have hR : deleteClosure nodes ds (remCount nodes ds) =
                deleteClosure nodes (growDeleted nodes ds)
                  (remCount nodes (growDeleted nodes ds)) := by
              rw [hk]
              show deleteClosure nodes (growDeleted nodes ds) k = _
              exact ih k (by omega) _ (by omega)
            rw [hL, hR]

lemma remCount_le_length (nodes : List SNode) (ds : List String) :
    remCount nodes ds ≤ nodes.length :=
  List.length_filter_le _ _

lemma deleteClosure_fuel_eq (nodes : List SNode) (f g : ℕ) (ds : List String)
    (hf : remCount nodes ds ≤ f) (hg : remCount nodes ds ≤ g) :
    deleteClosure nodes ds f = deleteClosure nodes ds g := by
  rw [deleteClosure_eq_remCount nodes f ds hf,
    deleteClosure_eq_remCount nodes g ds hg]

/-- A scene node that the tool's run cannot touch: its name and link fields
avoid the name set `N`. -/
def linksClean (N : List String) (nd : SNode) : Prop :=
  N.contains nd.name = false
  ∧ (match nd.parent with
     | some p => N.contains p = false
     | none => True)
  ∧ (match nd.deformed with
     | some q => N.contains q = false
     | none => True)

lemma growDeleted_frame (s c : List SNode) (ds : List String) (N : List String)
    (hs : ∀ nd ∈ s, linksClean N nd)
    (hds : ∀ x ∈ ds, x ∈ N) :
    growDeleted (s ++ c) ds = growDeleted c ds := by
  unfold growDeleted
  rw [List.filter_append, List.map_append]
  rw [show s.filter (fun nd =>
      !ds.contains nd.name &&
        ((match nd.parent with
          | some p => ds.contains p
          | none => false) ||
         (match nd.deformed with
          | some q => ds.contains q
          | none => false))) = [] from List.filter_eq_nil_iff.mpr ?_]
  · simp
  · intro nd hnd
    rcases hs nd hnd with ⟨_, hp, hd⟩
    have hpar : (match nd.parent with
        | some p => ds.contains p
        | none => false) = false := by
      cases hpp : nd.parent with
      | none => rfl
      | some p =>
          simp only
          rw [contains_false_iff]
          intro hmem
          simp only [hpp] at hp
          rw [contains_false_iff] at hp
          exact hp (hds p hmem)
    have hdef : (match nd.deformed with
        | some q => ds.contains q
        | none => false) = false := by
      cases hdd : nd.deformed with
      | none => rfl
      | some q =>
          simp only
          rw [contains_false_iff]
          intro hmem
          simp only [hdd] at hd
          rw [contains_false_iff] at hd
          exact hd (hds q hmem)
    intro hcond
    rw [Bool.and_eq_true] at hcond
    rcases hcond with ⟨_, hlink⟩
    rw [Bool.or_eq_true, hpar, hdef] at hlink
    simp at hlink

lemma deleteClosure_frame (s c : List SNode) (N : List String)
    (hs : ∀ nd ∈ s, linksClean N nd)
    (hc : ∀ nd ∈ c, nd.name ∈ N) :
    ∀ (f : ℕ) (ds : List String), (∀ x ∈ ds, x ∈ N) →
      deleteClosure (s ++ c) ds f = deleteClosure c ds f := by
  intro f
  induction f with
  | zero => intro ds _; rfl
  | succ f ih =>
      intro ds hds
      show deleteClosure (s ++ c) (growDeleted (s ++ c) ds) f =
        deleteClosure c (growDeleted c ds) f
      rw [growDeleted_frame s c ds N hs hds]
      apply ih
      intro x hx
      rcases grow_subset c ds x hx with hdx | hnx
      · exact hds x hdx
      · rcases List.mem_map.mp hnx with ⟨nd, hnd, rfl⟩
        exact hc nd hnd

lemma directMatches_append (qs : List (String × Option String))
    (s c : List SNode) :
    directMatches qs (s ++ c) = directMatches qs s ++ directMatches qs c := by
  unfold directMatches
  rw [List.filter_append, List.map_append]

lemma directMatches_nil (qs : List (String × Option String)) (s : List SNode)
    (hs : ∀ nd ∈ s, ∀ q ∈ qs, matchQuery q nd = false) :
    directMatches qs s = [] := by
  unfold directMatches
  rw [show s.filter (fun nd => qs.any (fun q => matchQuery q nd)) = [] from
    List.filter_eq_nil_iff.mpr ?_]
  · rfl
  · intro nd hnd hany
    rcases List.any_eq_true.mp hany with ⟨q, hq, hm⟩
    rw [hs nd hnd q hq] at hm
    cases hm

lemma directMatches_subset (qs : List (String × Option String)) (c : List SNode)
    (x : String) (hx : x ∈ directMatches qs c) : x ∈ c.map SNode.name := by
  unfold directMatches at hx
  rcases List.mem_map.mp hx with ⟨nd, hnd, rfl⟩
  exact List.mem_map.mpr ⟨nd, List.mem_of_mem_filter hnd, rfl⟩

lemma applyDeleteLs_frame (s c : List SNode) (sel : List String)
    (qs : List (String × Option String)) (N : List String)
    (hsm : ∀ nd ∈ s, ∀ q ∈ qs, matchQuery q nd = false)
    (hs : ∀ nd ∈ s, linksClean N nd)
    (hc : ∀ nd ∈ c, nd.name ∈ N) :
    applyDeleteLs qs ⟨s ++ c, sel⟩ =
      ⟨s ++ (applyDeleteLs qs ⟨c, sel⟩).nodes, (applyDeleteLs qs ⟨c, sel⟩).sel⟩ := by
  unfold applyDeleteLs
  simp only
  have hdm : directMatches qs (s ++ c) = directMatches qs c := by
    rw [directMatches_append, directMatches_nil qs s hsm, List.nil_append]
  rw [hdm]
  have hds0 : ∀ x ∈ directMatches qs c, x ∈ N := by
    intro x hx
    rcases List.mem_map.mp (directMatches_subset qs c x hx) with ⟨nd, hnd, rfl⟩
    exact hc nd hnd
  rw [deleteClosure_frame s c N hs hc _ _ hds0]
  rw [deleteClosure_fuel_eq c (s ++ c).length c.length (directMatches qs c)
    (Nat.le_trans (remCount_le_length c _) (by
      rw [List.length_append]
      omega))
    (remCount_le_length c _)]
  have hDN : ∀ x ∈ deleteClosure c (directMatches qs c) c.length, x ∈ N := by
    intro x hx
    rcases deleteClosure_subset c _ _ x hx with h0 | hn
    · exact hds0 x h0
    · rcases List.mem_map.mp hn with ⟨nd, hnd, rfl⟩
      exact hc nd hnd
  rw [List.filter_append]
  rw [show s.filter (fun nd =>
      !(deleteClosure c (directMatches qs c) c.length).contains nd.name) = s from
    List.filter_eq_self.mpr ?_]
  intro nd hnd
  rw [Bool.not_eq_true']
  rw [contains_false_iff]
  intro hmem
  have hnN := (hs nd hnd).1
  rw [contains_false_iff] at hnN
  exact hnN (hDN nd.name hmem)

/-- A scene node the tool cannot touch: link-clean for the name set `N` and
matched by none of the delete queries in `QS`. -/
def sceneNodeClean (N : List String)
    (QS : List (List (String × Option String))) (nd : SNode) : Prop :=
  linksClean N nd ∧ ∀ qs ∈ QS, ∀ q ∈ qs, matchQuery q nd = false

/-- Events all of whose created, renamed or reparented node names lie in `N`
and whose deletions use only queries from `QS`. -/
def goodEv (N : List String) (QS : List (List (String × Option String))) :
    Ev → Bool
  | Ev.group n => N.contains n
  | Ev.camera n => N.contains n
  | Ev.circle n _ _ _ _ => N.contains n
  | Ev.duplicate _ res => N.contains res
  | Ev.blendShape _ tgt _ res => N.contains res && N.contains tgt
  | Ev.rename old new => N.contains old && N.contains new
  | Ev.parent child par => N.contains child && N.contains par
  | Ev.deleteLs qs => QS.contains qs
  | _ => true

lemma applyEv_frame (N : List String) (QS : List (List (String × Option String)))
    (s : List SNode) (hs : ∀ nd ∈ s, sceneNodeClean N QS nd)
    (e : Ev) (he : goodEv N QS e = true)
    (c : List SNode) (sel : List String)
    (hc : ∀ nd ∈ c, nd.name ∈ N) :
    applyEv ⟨s ++ c, sel⟩ e =
      ⟨s ++ (applyEv ⟨c, sel⟩ e).nodes, (applyEv ⟨c, sel⟩ e).sel⟩
    ∧ ∀ nd ∈ (applyEv ⟨c, sel⟩ e).nodes, nd.name ∈ N := by
  cases e
  case group n =>
    refine ⟨by simp [applyEv, List.append_assoc], ?_⟩
    intro nd hnd
    simp only [applyEv] at hnd
    rcases List.mem_append.mp hnd with hcm | hnew
    · exact hc nd hcm
    · rw [List.mem_singleton.mp hnew]
      exact (contains_true_iff _ _).mp he
  case camera n =>
    refine ⟨by simp [applyEv, List.append_assoc], ?_⟩
    intro nd hnd
    simp only [applyEv] at hnd
    rcases List.mem_append.mp hnd with hcm | hnew
    · exact hc nd hcm
    · rw [List.mem_singleton.mp hnew]
      exact (contains_true_iff _ _).mp he
  case circle n nx ny nz r =>
    refine ⟨by simp [applyEv, List.append_assoc], ?_⟩
    intro nd hnd
    simp only [applyEv] at hnd
    rcases List.mem_append.mp hnd with hcm | hnew
    · exact hc nd hcm
    · rw [List.mem_singleton.mp hnew]
      exact (contains_true_iff _ _).mp he
  case duplicate src res =>
    refine ⟨by simp [applyEv, List.append_assoc], ?_⟩
    intro nd hnd
    simp only [applyEv] at hnd
    rcases List.mem_append.mp hnd with hcm | hnew
    · exact hc nd hcm
    · rw [List.mem_singleton.mp hnew]
      exact (contains_true_iff _ _).mp he
  case blendShape src tgt req res =>
    rw [goodEv, Bool.and_eq_true] at he
    refine ⟨by simp [applyEv, List.append_assoc], ?_⟩
    intro nd hnd
    simp only [applyEv] at hnd
    rcases List.mem_append.mp hnd with hcm | hnew
    · exact hc nd hcm
    · rw [List.mem_singleton.mp hnew]
      exact (contains_true_iff _ _).mp he.1
  case rename old new =>
    rw [goodEv, Bool.and_eq_true] at he
    have hmapS : s.map (renameNode old new) = s := by
      rw [show s.map (renameNode old new) = s.map id from
        List.map_congr_left ?_, List.map_id]
      intro nd hnd
      rcases (hs nd hnd).1 with ⟨hn, hp, hd⟩
      have holdN : old ∈ N := (contains_true_iff _ _).mp he.1
      have hnold : nd.name ≠ old := by
        rw [contains_false_iff] at hn
        intro hEq
        rw [hEq] at hn
        exact hn holdN
      show renameNode old new nd = nd
      unfold renameNode
      rw [if_neg hnold]
      have hpar : nd.parent.map (fun p => if p = old then new else p)
          = nd.parent := by
        cases hpp : nd.parent with
        | none => rfl
        | some p =>
            simp only [hpp] at hp
            rw [contains_false_iff] at hp
            have hpne : p ≠ old := by
              intro hEq
              rw [hEq] at hp
              exact hp holdN
            simp [hpne]
      have hdef : nd.deformed.map (fun p => if p = old then new else p)
          = nd.deformed := by
        cases hdd : nd.deformed with
        | none => rfl
        | some q =>
            simp only [hdd] at hd
            rw [contains_false_iff] at hd
            have hqne : q ≠ old := by
              intro hEq
              rw [hEq] at hd
              exact hd holdN
            simp [hqne]
      rw [hpar, hdef]
    refine ⟨by simp only [applyEv, List.map_append, hmapS], ?_⟩
    intro nd hnd
    simp only [applyEv] at hnd
    rcases List.mem_map.mp hnd with ⟨x, hx, rfl⟩
    show (renameNode old new x).name ∈ N
    unfold renameNode
    by_cases hxo : x.name = old
    · rw [if_pos hxo]
      exact (contains_true_iff _ _).mp he.2
    · rw [if_neg hxo]
      exact hc x hx
  case parent child par =>
    rw [goodEv, Bool.and_eq_true] at he
    have hmapS : s.map (updParent child par) = s := by
      rw [show s.map (updParent child par) = s.map id from
        List.map_congr_left ?_, List.map_id]
      intro nd hnd
      rcases (hs nd hnd).1 with ⟨hn, _, _⟩
      have hchildN : child ∈ N := (contains_true_iff _ _).mp he.1
      have hnchild : nd.name ≠ child := by
        rw [contains_false_iff] at hn
        intro hEq
        rw [hEq] at hn
        exact hn hchildN
      show updParent child par nd = nd
      unfold updParent
      rw [if_neg hnchild]
    refine ⟨by simp only [applyEv, List.map_append, hmapS], ?_⟩
    intro nd hnd
    simp only [applyEv] at hnd
    rcases List.mem_map.mp hnd with ⟨x, hx, rfl⟩
    show (updParent child par x).name ∈ N
    unfold updParent
    by_cases hxc : x.name = child
    · rw [if_pos hxc]
      simpa using hc x hx
    · rw [if_neg hxc]
      exact hc x hx
  case deleteLs qs =>
    have hqs : qs ∈ QS := by
      rw [goodEv] at he
      exact (contains_true_iff _ _).mp he
    constructor
    · exact applyDeleteLs_frame s c sel qs N
        (fun nd hnd => (hs nd hnd).2 qs hqs)
        (fun nd hnd => (hs nd hnd).1) hc
    · intro nd hnd
      simp only [applyEv, applyDeleteLs] at hnd
      exact hc nd (List.mem_of_mem_filter hnd)
  case select ts => exact ⟨rfl, hc⟩
  all_goals exact ⟨rfl, hc⟩

lemma runEvents_frame (N : List String) (QS : List (List (String × Option String)))
    (s : List SNode) (hs : ∀ nd ∈ s, sceneNodeClean N QS nd) :
    ∀ (tr : List Ev) (c : List SNode) (sel : List String),
      (∀ e ∈ tr, goodEv N QS e = true) → (∀ nd ∈ c, nd.name ∈ N) →
      runEvents ⟨s ++ c, sel⟩ tr =
        ⟨s ++ (runEvents ⟨c, sel⟩ tr).nodes, (runEvents ⟨c, sel⟩ tr).sel⟩ := by
  intro tr
  induction tr with
  | nil => intro c sel _ _; rfl
  | cons e rest ih =>
      intro c sel htr hc
      obtain ⟨hstep, hinv⟩ := applyEv_frame N QS s hs e
        (htr e (List.mem_cons_self _ _)) c sel hc
      show runEvents (applyEv ⟨s ++ c, sel⟩ e) rest = _
      rw [hstep]
      exact ih (applyEv ⟨c, sel⟩ e).nodes (applyEv ⟨c, sel⟩ e).sel
        (fun x hx => htr x (List.mem_cons_of_mem _ hx)) hinv

/-- The three `cmds.ls` delete queries issued by the tool. -/
def c9Queries : List (List (String × Option String)) :=
  [[("renderCam", none)],
   [("*BB_Duplicate_Mesh*dup*", some "transform"),
    ("*BB_Duplicate_Mesh*ctrl*", some "transform"),
    ("*BB_Duplicate_Mesh*bs*", some "blendShape")],
   [("BB_Duplicates_Grp", none), ("BB_Duplicate_Showcase_Grp", none)]]

/-- The host for the second run of claim C9: same session, but now
`BB_Duplicates_Grp` exists. -/
def hC9b : Host := { hW with grpExists := true }

/-- How one host call transforms the active selection (the `sel` component
of `applyEv`, as a function of the previous selection alone). -/
def applySel (sel : List String) : Ev → List String
  | Ev.group n => [n]
  | Ev.camera n => [n]
  | Ev.circle n _ _ _ _ => [n]
  | Ev.duplicate _ res => [res]
  | Ev.rename old new => sel.map (fun x => if x = old then new else x)
  | Ev.parent child _ => [child]
  | Ev.select ts => ts
  | _ => sel

lemma applyEv_split (c : List SNode) (sel : List String) (e : Ev) :
    applyEv ⟨c, sel⟩ e = ⟨(applyEv ⟨c, []⟩ e).nodes, applySel sel e⟩ := by
  cases e <;> rfl

lemma runEvents_split : ∀ (tr : List Ev) (c : List SNode) (sel : List String),
    runEvents ⟨c, sel⟩ tr =
      ⟨(runEvents ⟨c, []⟩ tr).nodes, tr.foldl applySel sel⟩ := by
  intro tr
  induction tr with
  | nil => intro c sel; rfl
  | cons e rest ih =>
      intro c sel
      show runEvents (applyEv ⟨c, sel⟩ e) rest = _
      rw [applyEv_split, ih]
      rw [show (runEvents ⟨c, []⟩ (e :: rest)).nodes
          = (runEvents ⟨(applyEv ⟨c, []⟩ e).nodes, applySel [] e⟩ rest).nodes from by
        rw [show runEvents ⟨c, []⟩ (e :: rest)
            = runEvents (applyEv ⟨c, []⟩ e) rest from rfl, applyEv_split]]
      rw [ih ((applyEv ⟨c, []⟩ e).nodes) (applySel [] e)]
      rfl

/-- Observer for `cmds.objExists` checks: the queried name and the host's
answer. -/
def evObjE : Ev → Option (String × Bool)
  | Ev.objExistsQ n res => some (n, res)
  | _ => none

/-- The existence check (main.py line 71) and the two deletions performed by
`remove_duplicates` (main.py lines 26-27). -/
def checkRemoveB : Ev → Bool
  | Ev.objExistsQ _ _ => true
  | Ev.deleteLs qs =>
      qs == [("*BB_Duplicate_Mesh*dup*", some "transform"),
             ("*BB_Duplicate_Mesh*ctrl*", some "transform"),
             ("*BB_Duplicate_Mesh*bs*", some "blendShape")]
      || qs == [("BB_Duplicates_Grp", none), ("BB_Duplicate_Showcase_Grp", none)]
  | _ => false

/-- All node-creating host calls of the tool. -/
def createNodeB : Ev → Bool
  | Ev.group _ => true
  | Ev.camera _ => true
  | Ev.duplicate _ _ => true
  | Ev.blendShape _ _ _ _ => true
  | Ev.circle _ _ _ _ _ => true
  | _ => false

/-- The final name of a duplicate: `"dup_" + mesh_name + "_{:02d}".format(i+1)`
(main.py line 121). -/
def dupFinal (m : String) (i : ℕ) : String :=
  "dup_" ++ shortName m ++ "_" ++ pad2 (i + 1)

/-- The two scene nodes the inner loop body leaves behind for one source mesh:
the renamed duplicate, parented under the group, and the blend-shape node
deforming it. -/
def meshBlock (h : Host) (i : ℕ) (m : String) : List SNode :=
  [⟨dupFinal m i, "transform", some (gname i), none⟩,
   ⟨h.bsName m i, "blendShape", none, some (dupFinal m i)⟩]

/-- The scene nodes one loop iteration leaves behind: the duplicate group
(parented under `BB_Duplicates_Grp`), the per-mesh duplicates and blend
shapes, and the control circle. -/
def iterBlock (h : Host) (ms : List String) (i : ℕ) : List SNode :=
  [⟨gname i, "transform", some "BB_Duplicates_Grp", none⟩]
  ++ (ms.map (meshBlock h i)).flatten
  ++ [⟨cname i, "transform", some "BB_Duplicates_Grp", none⟩]

/-- All scene nodes one run of `duplicate_and_deform` leaves behind, in
creation order: the parent group (reparented under the camera when the
showcase rig is built), the camera and showcase group, and the loop's
blocks. -/
def created (h : Host) (n : ℤ) (sc : Bool) : List SNode :=
  [⟨"BB_Duplicates_Grp", "transform",
    if sc then some "renderCam" else none, none⟩]
  ++ (if sc then
        [⟨"renderCam", "transform", some "BB_Duplicate_Showcase_Grp", none⟩,
         ⟨"BB_Duplicate_Showcase_Grp", "transform", none, none⟩]
      else [])
  ++ ((List.range n.toNat).map (iterBlock h (selectedMeshesOf h))).flatten

/-- The names one loop iteration creates or transiently uses: the group, the
host-chosen temporary duplicate name, the final duplicate name and the
host-chosen blend-shape name per mesh, and the control circle. -/
def iterNames (h : Host) (i : ℕ) : List String :=
  [gname i]
  ++ ((selectedMeshesOf h).map
        (fun m => [h.dupName m i, dupFinal m i, h.bsName m i])).flatten
  ++ [cname i]

/-- All names one run of `duplicate_and_deform` creates or transiently
uses. -/
def runNames (h : Host) (n : ℤ) : List String :=
  ["BB_Duplicates_Grp", "renderCam", "BB_Duplicate_Showcase_Grp"]
  ++ ((List.range n.toNat).map (iterNames h)).flatten

/-- The node list a trace produces, independent of the starting selection. -/
def runNodes (c : List SNode) (tr : List Ev) : List SNode :=
  (runEvents ⟨c, []⟩ tr).nodes

lemma runNodes_append (c : List SNode) (a b : List Ev) :
    runNodes c (a ++ b) = runNodes (runNodes c a) b := by
  unfold runNodes
  rw [runEvents_append]
  rw [show runEvents ⟨c, []⟩ a
      = ⟨(runEvents ⟨c, []⟩ a).nodes, (runEvents ⟨c, []⟩ a).sel⟩ from rfl]
  rw [runEvents_split b]

lemma runNodes_pure (c : List SNode) (tr : List Ev)
    (h : ∀ e ∈ tr, pureEv e = true) : runNodes c tr = c := by
  unfold runNodes
  rw [runEvents_pure tr h]

lemma linksClean_mono {M N : List String} (hsub : ∀ x ∈ M, x ∈ N) {nd : SNode}
    (h : linksClean N nd) : linksClean M nd := by
  obtain ⟨h1, h2, h3⟩ := h
  refine ⟨?_, ?_, ?_⟩
  · rw [contains_false_iff] at h1 ⊢
    intro hm
    exact h1 (hsub _ hm)
  · cases hpp : nd.parent with
    | none => trivial
    | some p =>
        simp only [hpp] at h2
        simp only
        rw [contains_false_iff] at h2 ⊢
        intro hm
        exact h2 (hsub _ hm)
  · cases hdd : nd.deformed with
    | none => trivial
    | some q =>
        simp only [hdd] at h3
        simp only
        rw [contains_false_iff] at h3 ⊢
        intro hm
        exact h3 (hsub _ hm)

lemma linksClean_name {N : List String} {nd : SNode} (h : linksClean N nd)
    {x : String} (hx : x ∈ N) : nd.name ≠ x := by
  intro hEq
  have h1 := h.1
  rw [contains_false_iff] at h1
  apply h1
  rw [hEq]
  exact hx

lemma linksClean_parent {N : List String} {nd : SNode} (h : linksClean N nd)
    {p : String} (hp : nd.parent = some p) {x : String} (hx : x ∈ N) :
    p ≠ x := by
  have h2 := h.2.1
  simp only [hp] at h2
  rw [contains_false_iff] at h2
  intro hEq
  apply h2
  rw [hEq]
  exact hx

lemma linksClean_deformed {N : List String} {nd : SNode} (h : linksClean N nd)
    {q : String} (hq : nd.deformed = some q) {x : String} (hx : x ∈ N) :
    q ≠ x := by
  have h3 := h.2.2
  simp only [hq] at h3
  rw [contains_false_iff] at h3
  intro hEq
  apply h3
  rw [hEq]
  exact hx

lemma map_renameNode_clean (l : List SNode) (old new : String)
    (h : ∀ nd ∈ l, linksClean [old] nd) :
    l.map (renameNode old new) = l := by
  rw [show l.map (renameNode old new) = l.map id from List.map_congr_left ?_,
    List.map_id]
  intro nd hnd
  have hcl := h nd hnd
  show renameNode old new nd = nd
  unfold renameNode
  rw [if_neg (linksClean_name hcl (List.mem_singleton_self old))]
  have hpar : nd.parent.map (fun p => if p = old then new else p)
      = nd.parent := by
    cases hpp : nd.parent with
    | none => rfl
    | some p =>
        have := linksClean_parent hcl hpp (List.mem_singleton_self old)
        simp [this]
  have hdef : nd.deformed.map (fun p => if p = old then new else p)
      = nd.deformed := by
    cases hdd : nd.deformed with
    | none => rfl
    | some q =>
        have := linksClean_deformed hcl hdd (List.mem_singleton_self old)
        simp [this]
  rw [hpar, hdef]

lemma map_updParent_absent (l : List SNode) (child par : String)
    (h : ∀ nd ∈ l, nd.name ≠ child) :
    l.map (updParent child par) = l := by
  rw [show l.map (updParent child par) = l.map id from List.map_congr_left ?_,
    List.map_id]
  intro nd hnd
  show updParent child par nd = nd
  unfold updParent
  rw [if_neg (h nd hnd)]

lemma growDeleted_nil (nodes : List SNode) : growDeleted nodes [] = [] := by
  unfold growDeleted
  rw [show nodes.filter (fun nd =>
      !([] : List String).contains nd.name &&
        ((match nd.parent with
          | some p => ([] : List String).contains p
          | none => false) ||
         (match nd.deformed with
          | some q => ([] : List String).contains q
          | none => false))) = [] from List.filter_eq_nil_iff.mpr ?_]
  · rfl
  · intro nd _
    cases hpp : nd.parent <;> cases hdd : nd.deformed <;> simp [hpp, hdd]

lemma applyDeleteLs_no_match (qs : List (String × Option String))
    (l : List SNode) (sel : List String)
    (h : ∀ nd ∈ l, ∀ q ∈ qs, matchQuery q nd = false) :
    applyDeleteLs qs ⟨l, sel⟩ = ⟨l, sel⟩ := by
  unfold applyDeleteLs
  simp only
  rw [directMatches_nil qs l h]
  rw [show deleteClosure l [] l.length = [] from
    deleteClosure_of_fix l _ [] (growDeleted_nil l)]
  rw [show l.filter (fun nd => !([] : List String).contains nd.name) = l from
    List.filter_eq_self.mpr ?_]
  intro nd _
  rfl

lemma closure_saturated (nodes : List SNode) :
    ∀ (k : ℕ) (ds : List String), remCount nodes ds ≤ k →
      growDeleted nodes (deleteClosure nodes ds nodes.length) =
        deleteClosure nodes ds nodes.length := by
  intro k
  induction k using Nat.strong_induction_on with
  | _ k ih =>
      intro ds hk
      by_cases hfix : growDeleted nodes ds = ds
      · rw [deleteClosure_of_fix nodes _ ds hfix]
        exact hfix
      · have hlt := grow_strict nodes ds hfix
        have hpos : 0 < remCount nodes ds := by
          rcases Nat.eq_zero_or_pos (remCount nodes ds) with h0 | hp
          · exact absurd (grow_fix_of_remCount_zero nodes ds h0) hfix
          · exact hp
        have hstep : deleteClosure nodes ds nodes.length =
            deleteClosure nodes (growDeleted nodes ds) nodes.length := by
          rw [show deleteClosure nodes ds nodes.length
              = deleteClosure nodes ds (remCount nodes ds) from
              deleteClosure_eq_remCount nodes _ ds (remCount_le_length nodes ds)]
          obtain ⟨j, hj⟩ : ∃ j, remCount nodes ds = j + 1 :=
            ⟨remCount nodes ds - 1, by omega⟩
          rw [hj]
          show deleteClosure nodes (growDeleted nodes ds) j = _
          exact deleteClosure_fuel_eq nodes j nodes.length (growDeleted nodes ds)
            (by omega) (remCount_le_length nodes _)
        rw [hstep]
        exact ih (k - 1) (by omega) (growDeleted nodes ds) (by omega)

lemma closure_sat (nodes : List SNode) (ds : List String) :
    growDeleted nodes (deleteClosure nodes ds nodes.length) =
      deleteClosure nodes ds nodes.length :=
  closure_saturated nodes (remCount nodes ds) ds (Nat.le_refl _)

lemma mem_of_link_mem (nodes : List SNode) (CL : List String)
    (hsat : growDeleted nodes CL = CL) (nd : SNode) (hnd : nd ∈ nodes)
    (p : String) (hlink : nd.parent = some p ∨ nd.deformed = some p)
    (hp : p ∈ CL) : nd.name ∈ CL := by
  by_cases hin : CL.contains nd.name = true
  · exact (contains_true_iff _ _).mp hin
  · have hfalse : CL.contains nd.name = false := by
      cases hcc : CL.contains nd.name
      · rfl
      · exact absurd hcc hin
    rw [← hsat]
    unfold growDeleted
    refine List.mem_append.mpr (Or.inr (List.mem_map.mpr ⟨nd, ?_, rfl⟩))
    refine List.mem_filter.mpr ⟨hnd, ?_⟩
    rw [Bool.and_eq_true]
    refine ⟨by rw [hfalse]; rfl, ?_⟩
    rw [Bool.or_eq_true]
    rcases hlink with hP | hD
    · refine Or.inl ?_
      simp only [hP]
      exact (contains_true_iff _ _).mpr hp
    · refine Or.inr ?_
      simp only [hD]
      exact (contains_true_iff _ _).mpr hp

lemma mem_directMatches (qs : List (String × Option String)) (l : List SNode)
    (nd : SNode) (hnd : nd ∈ l) (q : String × Option String) (hq : q ∈ qs)
    (hm : matchQuery q nd = true) : nd.name ∈ directMatches qs l := by
  unfold directMatches
  refine List.mem_map.mpr ⟨nd, List.mem_filter.mpr ⟨hnd, ?_⟩, rfl⟩
  exact List.any_eq_true.mpr ⟨q, hq, hm⟩

lemma runNodes_cons (c : List SNode) (e : Ev) (tr : List Ev) :
    runNodes c (e :: tr) = runNodes (applyEv ⟨c, []⟩ e).nodes tr := by
  unfold runNodes
  show (runEvents (applyEv ⟨c, []⟩ e) tr).nodes = _
  rw [show applyEv ⟨c, []⟩ e
      = ⟨(applyEv ⟨c, []⟩ e).nodes, (applyEv ⟨c, []⟩ e).sel⟩ from rfl]
  rw [runEvents_split tr]

lemma applyEv_nodes_group (c : List SNode) (sel : List String) (n : String) :
    (applyEv ⟨c, sel⟩ (Ev.group n)).nodes = c ++ [⟨n, "transform", none, none⟩] :=
  rfl

lemma applyEv_nodes_camera (c : List SNode) (sel : List String) (n : String) :
    (applyEv ⟨c, sel⟩ (Ev.camera n)).nodes = c ++ [⟨n, "transform", none, none⟩] :=
  rfl

lemma applyEv_nodes_circle (c : List SNode) (sel : List String) (n : String)
    (nx ny nz r : ℚ) :
    (applyEv ⟨c, sel⟩ (Ev.circle n nx ny nz r)).nodes =
      c ++ [⟨n, "transform", none, none⟩] := rfl

lemma applyEv_nodes_duplicate (c : List SNode) (sel : List String)
    (src res : String) :
    (applyEv ⟨c, sel⟩ (Ev.duplicate src res)).nodes =
      c ++ [⟨res, "transform", none, none⟩] := rfl

lemma applyEv_nodes_blendShape (c : List SNode) (sel : List String)
    (src tgt req res : String) :
    (applyEv ⟨c, sel⟩ (Ev.blendShape src tgt req res)).nodes =
      c ++ [⟨res, "blendShape", none, some tgt⟩] := rfl

lemma applyEv_nodes_rename (c : List SNode) (sel : List String)
    (old new : String) :
    (applyEv ⟨c, sel⟩ (Ev.rename old new)).nodes =
      c.map (renameNode old new) := rfl

lemma applyEv_nodes_parent (c : List SNode) (sel : List String)
    (child par : String) :
    (applyEv ⟨c, sel⟩ (Ev.parent child par)).nodes =
      c.map (updParent child par) := rfl

lemma applyEv_nodes_setAttr (c : List SNode) (sel : List String) (a : String)
    (v : ℚ) : (applyEv ⟨c, sel⟩ (Ev.setAttr a v)).nodes = c := rfl

lemma runNodes_mesh (h : Host) (i : ℕ) (g m : String) (cur : List SNode)
    (hclean : ∀ nd ∈ cur, linksClean [h.dupName m i, dupFinal m i] nd)
    (hbs : h.bsName m i ≠ dupFinal m i) :
    runNodes cur (meshEvents h i g m) =
      cur ++ [⟨dupFinal m i, "transform", some g, none⟩,
              ⟨h.bsName m i, "blendShape", none, some (dupFinal m i)⟩] := by
  have hdf : ("dup_" ++ shortName m ++ "_" ++ pad2 (i + 1)) = dupFinal m i := rfl
  have habs : ∀ nd ∈ cur, nd.name ≠ dupFinal m i := fun nd hnd =>
    linksClean_name (hclean nd hnd)
      (List.mem_cons_of_mem _ (List.mem_singleton_self _))
  have hcl1 : ∀ nd ∈ cur, linksClean [h.dupName m i] nd := fun nd hnd =>
    linksClean_mono (fun x hx => by
      rcases List.mem_singleton.mp hx with rfl
      exact List.mem_cons_self _ _) (hclean nd hnd)
  unfold meshEvents
  rw [hdf]
  rw [runNodes_cons, applyEv_nodes_duplicate]
  rw [runNodes_cons, applyEv_nodes_rename]
  rw [List.map_append, map_renameNode_clean cur _ _ hcl1,
    show [(⟨h.dupName m i, "transform", none, none⟩ : SNode)].map
        (renameNode (h.dupName m i) (dupFinal m i))
      = [⟨dupFinal m i, "transform", none, none⟩] from by simp [renameNode]]
  rw [runNodes_cons, applyEv_nodes_blendShape]
  rw [runNodes_cons, applyEv_nodes_setAttr]
  rw [runNodes_cons, applyEv_nodes_parent]
  rw [List.map_append, List.map_append, map_updParent_absent cur _ _ habs,
    show [(⟨dupFinal m i, "transform", none, none⟩ : SNode)].map
        (updParent (dupFinal m i) g)
      = [⟨dupFinal m i, "transform", some g, none⟩] from by simp [updParent],
    show [(⟨h.bsName m i, "blendShape", none, some (dupFinal m i)⟩ : SNode)].map
        (updParent (dupFinal m i) g)
      = [⟨h.bsName m i, "blendShape", none, some (dupFinal m i)⟩] from by
        simp [updParent, hbs]]
  show (cur ++ [⟨dupFinal m i, "transform", some g, none⟩])
      ++ [⟨h.bsName m i, "blendShape", none, some (dupFinal m i)⟩] = _
  rw [List.append_assoc]
  rfl

/-- The names the inner loop touches for one iteration's mesh list. -/
def meshNames (h : Host) (i : ℕ) (ms : List String) : List String :=
  (ms.map (fun m => [h.dupName m i, dupFinal m i, h.bsName m i])).flatten

lemma meshNames_cons (h : Host) (i : ℕ) (m : String) (ms : List String) :
    meshNames h i (m :: ms) =
      h.dupName m i :: dupFinal m i :: h.bsName m i :: meshNames h i ms := rfl

lemma runNodes_meshFold (h : Host) (i : ℕ) (g : String) :
    ∀ (ms : List String) (cur : List SNode),
      (∀ nd ∈ cur, linksClean (meshNames h i ms) nd) →
      (meshNames h i ms).Nodup →
      g ∉ meshNames h i ms →
      runNodes cur ((ms.map (meshEvents h i g)).flatten) =
        cur ++ (ms.map (fun m =>
          [(⟨dupFinal m i, "transform", some g, none⟩ : SNode),
           ⟨h.bsName m i, "blendShape", none, some (dupFinal m i)⟩])).flatten := by
  intro ms
  induction ms with
  | nil =>
      intro cur _ _ _
      show runNodes cur [] = cur ++ []
      rw [List.append_nil]
      rfl
  | cons m rest ih =>
      intro cur hclean hnodup hg
      rw [meshNames_cons] at hclean hnodup hg
      have hnd1 := List.nodup_cons.mp hnodup
      have hnd2 := List.nodup_cons.mp hnd1.2
      have hnd3 := List.nodup_cons.mp hnd2.2
      have hdf_rest : dupFinal m i ∉ meshNames h i rest := fun hmem =>
        hnd2.1 (List.mem_cons_of_mem _ hmem)
      have hbs_rest : h.bsName m i ∉ meshNames h i rest := hnd3.1
      have hg_rest : g ∉ meshNames h i rest := fun hmem =>
        hg (List.mem_cons_of_mem _ (List.mem_cons_of_mem _
          (List.mem_cons_of_mem _ hmem)))
      have hbs : h.bsName m i ≠ dupFinal m i := by
        intro hEq
        exact hnd2.1 (by rw [← hEq]; exact List.mem_cons_self _ _)
      have hgdf : g ≠ dupFinal m i := by
        intro hEq
        exact hg (by rw [hEq]; exact List.mem_cons_of_mem _ (List.mem_cons_self _ _))
      simp only [List.map_cons, List.flatten_cons]
      rw [runNodes_append]
      rw [runNodes_mesh h i g m cur
        (fun nd hnd => linksClean_mono (fun x hx => by
          rcases List.mem_cons.mp hx with rfl | hx1
          · exact List.mem_cons_self _ _
          · rcases List.mem_singleton.mp hx1 with rfl
            exact List.mem_cons_of_mem _ (List.mem_cons_self _ _))
          (hclean nd hnd))
        hbs]
      have hclean' : ∀ nd ∈ cur ++
          [(⟨dupFinal m i, "transform", some g, none⟩ : SNode),
           ⟨h.bsName m i, "blendShape", none, some (dupFinal m i)⟩],
          linksClean (meshNames h i rest) nd := by
        intro nd hnd
        rcases List.mem_append.mp hnd with hc | hb
        · exact linksClean_mono (fun x hx => List.mem_cons_of_mem _
            (List.mem_cons_of_mem _ (List.mem_cons_of_mem _ hx)))
            (hclean nd hc)
        · rcases List.mem_cons.mp hb with rfl | hb1
          · refine ⟨?_, ?_, ?_⟩
            · show (meshNames h i rest).contains (dupFinal m i) = false
              rw [contains_false_iff]
              exact hdf_rest
            · show (meshNames h i rest).contains g = false
              rw [contains_false_iff]
              exact hg_rest
            · show True
              trivial
          · rcases List.mem_singleton.mp hb1 with rfl
            refine ⟨?_, ?_, ?_⟩
            · show (meshNames h i rest).contains (h.bsName m i) = false
              rw [contains_false_iff]
              exact hbs_rest
            · show True
              trivial
            · show (meshNames h i rest).contains (dupFinal m i) = false
              rw [contains_false_iff]
              exact hdf_rest
      rw [ih (cur ++
          [(⟨dupFinal m i, "transform", some g, none⟩ : SNode),
           ⟨h.bsName m i, "blendShape", none, some (dupFinal m i)⟩])
        hclean' hnd3.2 hg_rest]
      rw [List.append_assoc]

lemma runNodes_nil (c : List SNode) : runNodes c [] = c := rfl

lemma runNodes_if_pure (c : List SNode) (P : Prop) [Decidable P]
    (l1 l2 : List Ev) (h1 : ∀ e ∈ l1, pureEv e = true)
    (h2 : ∀ e ∈ l2, pureEv e = true) :
    runNodes c (if P then l1 else l2) = c := by
  split
  · exact runNodes_pure c l1 h1
  · exact runNodes_pure c l2 h2

lemma applyEv_nodes_scaleEv (c : List SNode) (sel : List String)
    (x y z : ℚ) (t : String) :
    (applyEv ⟨c, sel⟩ (Ev.scaleEv x y z t)).nodes = c := rfl

lemma applyEv_nodes_setAttr3 (c : List SNode) (sel : List String) (a : String)
    (x y z : ℚ) : (applyEv ⟨c, sel⟩ (Ev.setAttr3 a x y z)).nodes = c := rfl

lemma applyEv_nodes_parentConstraint (c : List SNode) (sel : List String)
    (a b : String) :
    (applyEv ⟨c, sel⟩ (Ev.parentConstraint a b)).nodes = c := rfl

lemma applyEv_nodes_scaleConstraint (c : List SNode) (sel : List String)
    (a b : String) :
    (applyEv ⟨c, sel⟩ (Ev.scaleConstraint a b)).nodes = c := rfl

lemma mem_meshNames_of (h : Host) (i : ℕ) (ms : List String) (m : String)
    (hm : m ∈ ms) {x : String}
    (hx : x ∈ [h.dupName m i, dupFinal m i, h.bsName m i]) :
    x ∈ meshNames h i ms := by
  unfold meshNames
  exact List.mem_flatten.mpr ⟨_, List.mem_map.mpr ⟨m, hm, rfl⟩, hx⟩

lemma runNodes_circleChunk (X : List SNode) (nm s1 s2 s3 : String)
    (w sf : ℚ) :
    runNodes X [Ev.circle nm 0 1 0 w, Ev.scaleEv sf sf sf nm,
      Ev.setAttr s1 1, Ev.setAttr s2 1, Ev.setAttr3 s3 1 1 0] =
      X ++ [⟨nm, "transform", none, none⟩] := by
  rw [runNodes_cons, applyEv_nodes_circle]
  rw [runNodes_cons, applyEv_nodes_scaleEv]
  rw [runNodes_cons, applyEv_nodes_setAttr]
  rw [runNodes_cons, applyEv_nodes_setAttr]
  rw [runNodes_cons, applyEv_nodes_setAttr3]
  rfl

lemma runNodes_tailChunk (cur b : List SNode) (gn cn gp : String)
    (hcur_cn : ∀ nd ∈ cur, nd.name ≠ cn)
    (hcur_gn : ∀ nd ∈ cur, nd.name ≠ gn)
    (hb_cn : ∀ nd ∈ b, nd.name ≠ cn)
    (hb_gn : ∀ nd ∈ b, nd.name ≠ gn)
    (hgc : gn ≠ cn) :
    runNodes (((cur ++ [(⟨gn, "transform", none, none⟩ : SNode)]) ++ b)
        ++ [(⟨cn, "transform", none, none⟩ : SNode)])
      [Ev.parentConstraint cn gn, Ev.scaleConstraint cn gn,
       Ev.parent cn gp, Ev.parent gn gp] =
      ((cur ++ [(⟨gn, "transform", some gp, none⟩ : SNode)]) ++ b)
        ++ [(⟨cn, "transform", some gp, none⟩ : SNode)] := by
  rw [runNodes_cons, applyEv_nodes_parentConstraint]
  rw [runNodes_cons, applyEv_nodes_scaleConstraint]
  rw [runNodes_cons, applyEv_nodes_parent]
  rw [List.map_append, List.map_append, List.map_append]
  rw [map_updParent_absent cur _ _ hcur_cn]
  rw [map_updParent_absent _ _ _
    (show ∀ nd ∈ [(⟨gn, "transform", none, none⟩ : SNode)], nd.name ≠ cn from by
      intro nd hnd
      rcases List.mem_singleton.mp hnd with rfl
      exact hgc)]
  rw [map_updParent_absent b _ _ hb_cn]
  rw [show [(⟨cn, "transform", none, none⟩ : SNode)].map (updParent cn gp)
      = [⟨cn, "transform", some gp, none⟩] from by simp [updParent]]
  rw [runNodes_cons, applyEv_nodes_parent]
  rw [List.map_append, List.map_append, List.map_append]
  rw [map_updParent_absent cur _ _ hcur_gn]
  rw [show [(⟨gn, "transform", none, none⟩ : SNode)].map (updParent gn gp)
      = [⟨gn, "transform", some gp, none⟩] from by simp [updParent]]
  rw [map_updParent_absent b _ _ hb_gn]
  rw [map_updParent_absent _ _ _
    (show ∀ nd ∈ [(⟨cn, "transform", some gp, none⟩ : SNode)],
        nd.name ≠ gn from by
      intro nd hnd
      rcases List.mem_singleton.mp hnd with rfl
      exact Ne.symm hgc)]
  rfl

lemma runNodes_iter (h : Host) (n : ℤ) (sf : ℚ) (sc : Bool) (w hh dd : ℚ)
    (ms : List String) (i : ℕ) (cur : List SNode)
    (hclean : ∀ nd ∈ cur,
      linksClean ([gname i] ++ meshNames h i ms ++ [cname i]) nd)
    (hnodup : ([gname i] ++ meshNames h i ms ++ [cname i]).Nodup) :
    runNodes cur (iterEvents h n sf sc w hh dd ms i) =
      cur ++ iterBlock h ms i := by
  have hsplit := List.nodup_append.mp hnodup
  have hsplit2 := List.nodup_append.mp hsplit.1
  have f1 : gname i ∉ meshNames h i ms := fun hm =>
    hsplit2.2.2 (List.mem_singleton_self _) hm
  have hnodupB : (meshNames h i ms).Nodup := hsplit2.2.1
  have fC : ∀ x ∈ [gname i] ++ meshNames h i ms, x ≠ cname i := fun x hx hEq =>
    hsplit.2.2 hx (by rw [hEq]; exact List.mem_singleton_self _)
  have f2 : gname i ≠ cname i :=
    fC _ (List.mem_append.mpr (Or.inl (List.mem_singleton_self _)))
  have f3 : ∀ x ∈ meshNames h i ms, x ≠ cname i := fun x hx =>
    fC x (List.mem_append.mpr (Or.inr hx))
  have hcur_cn : ∀ nd ∈ cur, nd.name ≠ cname i := fun nd hnd =>
    linksClean_name (hclean nd hnd)
      (List.mem_append.mpr (Or.inr (List.mem_singleton_self _)))
  have hcur_gn : ∀ nd ∈ cur, nd.name ≠ gname i := fun nd hnd =>
    linksClean_name (hclean nd hnd)
      (List.mem_append.mpr (Or.inl (List.mem_append.mpr
        (Or.inl (List.mem_singleton_self _)))))
  have hblock : ∀ nd ∈ (ms.map (fun m =>
      [(⟨dupFinal m i, "transform", some (gname i), none⟩ : SNode),
       ⟨h.bsName m i, "blendShape", none, some (dupFinal m i)⟩])).flatten,
      nd.name ∈ meshNames h i ms := by
    intro nd hnd
    rcases List.mem_flatten.mp hnd with ⟨l, hl, hnl⟩
    rcases List.mem_map.mp hl with ⟨m, hm, rfl⟩
    rcases List.mem_cons.mp hnl with rfl | h1
    · exact mem_meshNames_of h i ms m hm
        (List.mem_cons_of_mem _ (List.mem_cons_self _ _))
    · rcases List.mem_singleton.mp h1 with rfl
      exact mem_meshNames_of h i ms m hm
        (List.mem_cons_of_mem _ (List.mem_cons_of_mem _ (List.mem_cons_self _ _)))
  have hcl2 : ∀ nd ∈ cur ++ [(⟨gname i, "transform", none, none⟩ : SNode)],
      linksClean (meshNames h i ms) nd := by
    intro nd hnd
    rcases List.mem_append.mp hnd with hc | hG
    · refine linksClean_mono (fun x hx => ?_) (hclean nd hc)
      exact List.mem_append.mpr (Or.inl (List.mem_append.mpr (Or.inr hx)))
    · rcases List.mem_singleton.mp hG with rfl
      refine ⟨?_, ?_, ?_⟩
      · show (meshNames h i ms).contains (gname i) = false
        rw [contains_false_iff]
        exact f1
      · show True
        trivial
      · show True
        trivial
  unfold iterEvents
  rw [runNodes_append, runNodes_append, runNodes_append, runNodes_append]
  rw [show runNodes cur [Ev.group (gname i)]
      = cur ++ [(⟨gname i, "transform", none, none⟩ : SNode)] from by
    rw [runNodes_cons, applyEv_nodes_group]
    rfl]
  rw [runNodes_meshFold h i (gname i) ms
    (cur ++ [(⟨gname i, "transform", none, none⟩ : SNode)]) hcl2 hnodupB f1]
  rw [runNodes_circleChunk]
  rw [runNodes_if_pure _ _ _ _
    (by
      intro e he
      rcases List.mem_cons.mp he with rfl | he1
      · rfl
      · rcases List.mem_singleton.mp he1 with rfl
        rfl)
    (by
      intro e he
      rcases List.mem_singleton.mp he with rfl
      rfl)]
  rw [runNodes_tailChunk cur _ (gname i) (cname i) "BB_Duplicates_Grp"
    hcur_cn hcur_gn
    (fun nd hnd => f3 nd.name (hblock nd hnd))
    (fun nd hnd hEq => f1 (by rw [← hEq]; exact hblock nd hnd))
    f2]
  simp only [iterBlock, List.append_assoc]
  rfl

lemma applyEv_nodes_select (c : List SNode) (sel ts : List String) :
    (applyEv ⟨c, sel⟩ (Ev.select ts)).nodes = c := rfl

lemma iterNames_eq (h : Host) (i : ℕ) :
    iterNames h i =
      [gname i] ++ meshNames h i (selectedMeshesOf h) ++ [cname i] := rfl

lemma iterBlock_links (h : Host) (ms : List String) (i : ℕ) :
    ∀ nd ∈ iterBlock h ms i,
      nd.name ∈ [gname i] ++ meshNames h i ms ++ [cname i]
      ∧ (nd.parent = none ∨ nd.parent = some "BB_Duplicates_Grp"
          ∨ nd.parent = some (gname i))
      ∧ (nd.deformed = none
          ∨ ∃ m ∈ ms, nd.deformed = some (dupFinal m i)) := by
  intro nd hnd
  unfold iterBlock at hnd
  rcases List.mem_append.mp hnd with h12 | hC
  · rcases List.mem_append.mp h12 with hG | hB
    · rcases List.mem_singleton.mp hG with rfl
      exact ⟨List.mem_append.mpr (Or.inl (List.mem_append.mpr
          (Or.inl (List.mem_singleton_self _)))),
        Or.inr (Or.inl rfl), Or.inl rfl⟩
    · rcases List.mem_flatten.mp hB with ⟨l, hl, hnl⟩
      rcases List.mem_map.mp hl with ⟨m, hm, rfl⟩
      rcases List.mem_cons.mp hnl with rfl | h1
      · refine ⟨List.mem_append.mpr (Or.inl (List.mem_append.mpr (Or.inr
          (mem_meshNames_of h i ms m hm (List.mem_cons_of_mem _
            (List.mem_cons_self _ _)))))), Or.inr (Or.inr rfl), Or.inl rfl⟩
      · rcases List.mem_singleton.mp h1 with rfl
        refine ⟨List.mem_append.mpr (Or.inl (List.mem_append.mpr (Or.inr
          (mem_meshNames_of h i ms m hm (List.mem_cons_of_mem _
            (List.mem_cons_of_mem _ (List.mem_cons_self _ _))))))),
          Or.inl rfl, Or.inr ⟨m, hm, rfl⟩⟩
  · rcases List.mem_singleton.mp hC with rfl
    exact ⟨List.mem_append.mpr (Or.inr (List.mem_singleton_self _)),
      Or.inr (Or.inl rfl), Or.inl rfl⟩

lemma runNodes_loop (h : Host) (n : ℤ) (sf : ℚ) (sc : Bool) (w hh dd : ℚ) :
    ∀ (is : List ℕ) (cur : List SNode),
      (∀ nd ∈ cur, linksClean ((is.map (iterNames h)).flatten) nd) →
      ((is.map (iterNames h)).flatten).Nodup →
      "BB_Duplicates_Grp" ∉ (is.map (iterNames h)).flatten →
      runNodes cur ((is.map (iterEvents h n sf sc w hh dd
          (selectedMeshesOf h))).flatten) =
        cur ++ (is.map (iterBlock h (selectedMeshesOf h))).flatten := by
  intro is
  induction is with
  | nil =>
      intro cur _ _ _
      show runNodes cur [] = cur ++ []
      rw [List.append_nil]
      rfl
  | cons i rest ih =>
      intro cur hclean hnodup hgrp
      simp only [List.map_cons, List.flatten_cons] at hclean hnodup hgrp ⊢
      have hsp := List.nodup_append.mp hnodup
      have hgrpI : "BB_Duplicates_Grp" ∉ iterNames h i := fun hm =>
        hgrp (List.mem_append.mpr (Or.inl hm))
      have hgrpR : "BB_Duplicates_Grp" ∉ (rest.map (iterNames h)).flatten :=
        fun hm => hgrp (List.mem_append.mpr (Or.inr hm))
      rw [runNodes_append]
      have hcl1 : ∀ nd ∈ cur,
          linksClean ([gname i] ++ meshNames h i (selectedMeshesOf h)
            ++ [cname i]) nd := by
        intro nd hnd
        refine linksClean_mono (fun x hx => ?_) (hclean nd hnd)
        exact List.mem_append.mpr (Or.inl hx)
      rw [runNodes_iter h n sf sc w hh dd (selectedMeshesOf h) i cur hcl1 hsp.1]
      have hcl2 : ∀ nd ∈ cur ++ iterBlock h (selectedMeshesOf h) i,
          linksClean ((rest.map (iterNames h)).flatten) nd := by
        intro nd hnd
        rcases List.mem_append.mp hnd with hc | hb
        · refine linksClean_mono (fun x hx => ?_) (hclean nd hc)
          exact List.mem_append.mpr (Or.inr hx)
        · obtain ⟨hname, hpar, hdef⟩ :=
            iterBlock_links h (selectedMeshesOf h) i nd hb
          have hnameI : nd.name ∈ iterNames h i := hname
          refine ⟨?_, ?_, ?_⟩
          · rw [contains_false_iff]
            intro hm
            exact hsp.2.2 hnameI hm
          · rcases hpar with hp0 | hp1 | hp2
            · simp only [hp0]
            · simp only [hp1]
              rw [contains_false_iff]
              exact hgrpR
            · simp only [hp2]
              rw [contains_false_iff]
              intro hm
              exact hsp.2.2 (List.mem_append.mpr (Or.inl (List.mem_append.mpr
                (Or.inl (List.mem_singleton_self _))))) hm
          · rcases hdef with hd0 | ⟨m, hm, hd1⟩
            · simp only [hd0]
            · simp only [hd1]
              rw [contains_false_iff]
              intro hmem
              exact hsp.2.2 (List.mem_append.mpr (Or.inl (List.mem_append.mpr
                (Or.inr (mem_meshNames_of h i (selectedMeshesOf h) m hm
                  (List.mem_cons_of_mem _ (List.mem_cons_self _ _))))))) hmem
      rw [ih (cur ++ iterBlock h (selectedMeshesOf h) i) hcl2 hsp.2.1 hgrpR]
      rw [List.append_assoc]

lemma runNodes_showcase (initSel : List String) (hh dd : ℚ) (nw : Bool) :
    runNodes [(⟨"BB_Duplicates_Grp", "transform", none, none⟩ : SNode)]
      (showcaseEvents initSel hh dd nw) =
      [⟨"BB_Duplicates_Grp", "transform", some "renderCam", none⟩,
       ⟨"renderCam", "transform", some "BB_Duplicate_Showcase_Grp", none⟩,
       ⟨"BB_Duplicate_Showcase_Grp", "transform", none, none⟩] := by
  cases nw <;> rfl

lemma runNodes_build (h : Host) (n : ℤ) (sf : ℚ) (sc : Bool) (w hh dd : ℚ)
    (hnd : (runNames h n).Nodup) :
    runNodes [] ([Ev.group "BB_Duplicates_Grp"]
        ++ (if sc then showcaseEvents h.initialSelection hh dd h.newWindowExists
            else [])
        ++ ((List.range n.toNat).map (iterEvents h n sf sc w hh dd
            (selectedMeshesOf h))).flatten
        ++ [Ev.select h.initialSelection]) = created h n sc := by
  have hnd3 := List.nodup_append.mp hnd
  have hgrpL : "BB_Duplicates_Grp" ∉
      ((List.range n.toNat).map (iterNames h)).flatten := fun hm =>
    hnd3.2.2 (List.mem_cons_self _ _) hm
  have hcamL : "renderCam" ∉
      ((List.range n.toNat).map (iterNames h)).flatten := fun hm =>
    hnd3.2.2 (List.mem_cons_of_mem _ (List.mem_cons_self _ _)) hm
  have hscgL : "BB_Duplicate_Showcase_Grp" ∉
      ((List.range n.toNat).map (iterNames h)).flatten := fun hm =>
    hnd3.2.2 (List.mem_cons_of_mem _ (List.mem_cons_of_mem _
      (List.mem_cons_self _ _))) hm
  rw [runNodes_append, runNodes_append, runNodes_append]
  rw [show runNodes [] [Ev.group "BB_Duplicates_Grp"]
      = [(⟨"BB_Duplicates_Grp", "transform", none, none⟩ : SNode)] from by
    rw [runNodes_cons, applyEv_nodes_group]
    rfl]
  cases sc with
  | true =>
      rw [if_pos rfl]
      rw [runNodes_showcase]
      rw [runNodes_loop h n sf true w hh dd (List.range n.toNat)
        [⟨"BB_Duplicates_Grp", "transform", some "renderCam", none⟩,
         ⟨"renderCam", "transform", some "BB_Duplicate_Showcase_Grp", none⟩,
         ⟨"BB_Duplicate_Showcase_Grp", "transform", none, none⟩]
        (by
          intro nd hnd'
          rcases List.mem_cons.mp hnd' with rfl | h1
          · exact ⟨by rw [contains_false_iff]; exact hgrpL,
              by simp only; rw [contains_false_iff]; exact hcamL,
              by simp only⟩
          rcases List.mem_cons.mp h1 with rfl | h2
          · exact ⟨by rw [contains_false_iff]; exact hcamL,
              by simp only; rw [contains_false_iff]; exact hscgL,
              by simp only⟩
          rcases List.mem_singleton.mp h2 with rfl
          exact ⟨by rw [contains_false_iff]; exact hscgL,
            by simp only, by simp only⟩)
        hnd3.2.1 hgrpL]
      rw [show ∀ X : List SNode, runNodes X [Ev.select h.initialSelection] = X
          from fun X => by rw [runNodes_cons, applyEv_nodes_select]; rfl]
      rfl
  | false =>
      rw [if_neg Bool.false_ne_true]
      rw [runNodes_nil]
      rw [runNodes_loop h n sf false w hh dd (List.range n.toNat)
        [⟨"BB_Duplicates_Grp", "transform", none, none⟩]
        (by
          intro nd hnd'
          rcases List.mem_singleton.mp hnd' with rfl
          exact ⟨by rw [contains_false_iff]; exact hgrpL,
            by simp only, by simp only⟩)
        hnd3.2.1 hgrpL]
      rw [show ∀ X : List SNode, runNodes X [Ev.select h.initialSelection] = X
          from fun X => by rw [runNodes_cons, applyEv_nodes_select]; rfl]
      rfl

lemma applyEv_nodes_deleteLs (c : List SNode) (sel : List String)
    (qs : List (String × Option String)) :
    (applyEv ⟨c, sel⟩ (Ev.deleteLs qs)).nodes =
      c.filter (fun nd => !(deleteClosure c (directMatches qs c)
        c.length).contains nd.name) := rfl

lemma runNodes_remove (h : Host) (n : ℤ) (sc : Bool) :
    runNodes (created h n sc) removeDuplicatesEvents = [] := by
  rw [show removeDuplicatesEvents =
      [Ev.deleteLs [("*BB_Duplicate_Mesh*dup*", some "transform"),
                    ("*BB_Duplicate_Mesh*ctrl*", some "transform"),
                    ("*BB_Duplicate_Mesh*bs*", some "blendShape")],
       Ev.deleteLs [("BB_Duplicates_Grp", none),
                    ("BB_Duplicate_Showcase_Grp", none)]] from rfl]
  rw [runNodes_cons, applyEv_nodes_deleteLs]
  rw [runNodes_cons, applyEv_nodes_deleteLs]
  rw [runNodes_nil]
  set nodes1 := created h n sc with hN1
  set D1 := deleteClosure nodes1 (directMatches
    [("*BB_Duplicate_Mesh*dup*", some "transform"),
     ("*BB_Duplicate_Mesh*ctrl*", some "transform"),
     ("*BB_Duplicate_Mesh*bs*", some "blendShape")] nodes1) nodes1.length
    with hD1
  set rem1 := nodes1.filter (fun nd => !D1.contains nd.name) with hrem1
  set D2 := deleteClosure rem1 (directMatches
    [("BB_Duplicates_Grp", none), ("BB_Duplicate_Showcase_Grp", none)] rem1)
    rem1.length with hD2
  have satD1 : growDeleted nodes1 D1 = D1 := by
    rw [hD1]
    exact closure_sat nodes1 _
  have satD2 : growDeleted rem1 D2 = D2 := by
    rw [hD2]
    exact closure_sat rem1 _
  have hmemRem : ∀ nd ∈ nodes1, nd.name ∉ D1 → nd ∈ rem1 := by
    intro nd hnd hn
    rw [hrem1]
    refine List.mem_filter.mpr ⟨hnd, ?_⟩
    have hc : D1.contains nd.name = false := by
      rw [contains_false_iff]
      exact hn
    rw [hc]
    rfl
  have chain : ∀ nd ∈ nodes1, ∀ p : String,
      (nd.parent = some p ∨ nd.deformed = some p) →
      p ∈ D1 ∨ p ∈ D2 → nd.name ∈ D1 ∨ nd.name ∈ D2 := by
    intro nd hnd p hlink hp
    rcases hp with hp1 | hp2
    · exact Or.inl (mem_of_link_mem nodes1 D1 satD1 nd hnd p hlink hp1)
    · by_cases hD : nd.name ∈ D1
      · exact Or.inl hD
      · exact Or.inr (mem_of_link_mem rem1 D2 satD2 nd
          (hmemRem nd hnd hD) p hlink hp2)
  have hrootD2 : ∀ nd ∈ rem1,
      (matchQuery ("BB_Duplicates_Grp", (none : Option String)) nd = true
       ∨ matchQuery ("BB_Duplicate_Showcase_Grp", (none : Option String)) nd
          = true) → nd.name ∈ D2 := by
    intro nd hnd hm
    rw [hD2]
    apply mem_deleteClosure_of_mem
    rcases hm with h1 | h2
    · exact mem_directMatches _ rem1 nd hnd _ (List.mem_cons_self _ _) h1
    · exact mem_directMatches _ rem1 nd hnd _
        (List.mem_cons_of_mem _ (List.mem_cons_self _ _)) h2
  have hGrp : "BB_Duplicates_Grp" ∈ D1 ∨ "BB_Duplicates_Grp" ∈ D2 := by
    by_cases hD : "BB_Duplicates_Grp" ∈ D1
    · exact Or.inl hD
    · refine Or.inr ?_
      have hmem : (⟨"BB_Duplicates_Grp", "transform",
          if sc = true then some "renderCam" else none, none⟩ : SNode)
          ∈ nodes1 := by
        rw [hN1]
        unfold created
        exact List.mem_append.mpr (Or.inl (List.mem_append.mpr
          (Or.inl (List.mem_singleton_self _))))
      exact hrootD2 _ (hmemRem _ hmem hD) (Or.inl rfl)
  have hScg : sc = true →
      ("BB_Duplicate_Showcase_Grp" ∈ D1 ∨ "BB_Duplicate_Showcase_Grp" ∈ D2) := by
    intro hsc
    by_cases hD : "BB_Duplicate_Showcase_Grp" ∈ D1
    · exact Or.inl hD
    · refine Or.inr ?_
      have hmem : (⟨"BB_Duplicate_Showcase_Grp", "transform", none, none⟩
          : SNode) ∈ nodes1 := by
        rw [hN1]
        unfold created
        refine List.mem_append.mpr (Or.inl (List.mem_append.mpr (Or.inr ?_)))
        rw [if_pos hsc]
        exact List.mem_cons_of_mem _ (List.mem_singleton_self _)
      exact hrootD2 _ (hmemRem _ hmem hD) (Or.inr rfl)
  have hCam : sc = true → ("renderCam" ∈ D1 ∨ "renderCam" ∈ D2) := by
    intro hsc
    have hmem : (⟨"renderCam", "transform",
        some "BB_Duplicate_Showcase_Grp", none⟩ : SNode) ∈ nodes1 := by
      rw [hN1]
      unfold created
      refine List.mem_append.mpr (Or.inl (List.mem_append.mpr (Or.inr ?_)))
      rw [if_pos hsc]
      exact List.mem_cons_self _ _
    exact chain _ hmem "BB_Duplicate_Showcase_Grp" (Or.inl rfl) (hScg hsc)
  have hIterMem : ∀ i ∈ List.range n.toNat,
      ∀ nd ∈ iterBlock h (selectedMeshesOf h) i, nd ∈ nodes1 := by
    intro i hi nd hnd
    rw [hN1]
    unfold created
    refine List.mem_append.mpr (Or.inr ?_)
    exact List.mem_flatten.mpr ⟨_, List.mem_map.mpr ⟨i, hi, rfl⟩, hnd⟩
  have hKey : ∀ nd ∈ nodes1, nd.name ∈ D1 ∨ nd.name ∈ D2 := by
    intro nd hnd
    have hnd' := hnd
    rw [hN1] at hnd'
    unfold created at hnd'
    rcases List.mem_append.mp hnd' with h12 | h3
    · rcases List.mem_append.mp h12 with h1 | h2
      · rcases List.mem_singleton.mp h1 with rfl
        exact hGrp
      · split at h2
        · rcases List.mem_cons.mp h2 with rfl | h2'
          · exact hCam (by assumption)
          · rcases List.mem_singleton.mp h2' with rfl
            exact hScg (by assumption)
        · simp at h2
    · rcases List.mem_flatten.mp h3 with ⟨l, hl, hnl⟩
      rcases List.mem_map.mp hl with ⟨i, hi, rfl⟩
      have hGmem : (⟨gname i, "transform", some "BB_Duplicates_Grp", none⟩
          : SNode) ∈ nodes1 :=
        hIterMem i hi _ (List.mem_append.mpr (Or.inl (List.mem_append.mpr
          (Or.inl (List.mem_singleton_self _)))))
      have hGn : gname i ∈ D1 ∨ gname i ∈ D2 :=
        chain _ hGmem "BB_Duplicates_Grp" (Or.inl rfl) hGrp
      have hnl' := hnl
      unfold iterBlock at hnl'
      rcases List.mem_append.mp hnl' with h12' | hC
      · rcases List.mem_append.mp h12' with hG | hB
        · rcases List.mem_singleton.mp hG with rfl
          exact hGn
        · rcases List.mem_flatten.mp hB with ⟨l2, hl2, hnl2⟩
          rcases List.mem_map.mp hl2 with ⟨m, hm, rfl⟩
          have hDinblock :
              (⟨dupFinal m i, "transform", some (gname i), none⟩ : SNode)
                ∈ meshBlock h i m := by
            rw [show meshBlock h i m =
              [(⟨dupFinal m i, "transform", some (gname i), none⟩ : SNode),
               ⟨h.bsName m i, "blendShape", none, some (dupFinal m i)⟩]
              from rfl]
            exact List.mem_cons_self _ _
          have hDmem : (⟨dupFinal m i, "transform", some (gname i), none⟩
              : SNode) ∈ nodes1 :=
            hIterMem i hi _ (List.mem_append.mpr (Or.inl (List.mem_append.mpr
              (Or.inr (List.mem_flatten.mpr
                ⟨_, List.mem_map.mpr ⟨m, hm, rfl⟩, hDinblock⟩)))))
          have hDn : dupFinal m i ∈ D1 ∨ dupFinal m i ∈ D2 :=
            chain _ hDmem (gname i) (Or.inl rfl) hGn
          have hnl2' := hnl2
          rw [show meshBlock h i m =
            [(⟨dupFinal m i, "transform", some (gname i), none⟩ : SNode),
             ⟨h.bsName m i, "blendShape", none, some (dupFinal m i)⟩]
            from rfl] at hnl2'
          rcases List.mem_cons.mp hnl2' with rfl | hB'
          · exact hDn
          · rcases List.mem_singleton.mp hB' with rfl
            have hBmem : (⟨h.bsName m i, "blendShape", none,
                some (dupFinal m i)⟩ : SNode) ∈ nodes1 :=
              hIterMem i hi _ (List.mem_append.mpr (Or.inl (List.mem_append.mpr
                (Or.inr (List.mem_flatten.mpr
                  ⟨_, List.mem_map.mpr ⟨m, hm, rfl⟩, hnl2⟩)))))
            exact chain _ hBmem (dupFinal m i) (Or.inr rfl) hDn
      · rcases List.mem_singleton.mp hC with rfl
        exact chain _ (hIterMem i hi _ hnl) "BB_Duplicates_Grp"
          (Or.inl rfl) hGrp
  rw [List.filter_eq_nil_iff]
  intro nd hnd
  have hnn : nd ∈ nodes1 := by
    rw [hrem1] at hnd
    exact List.mem_of_mem_filter hnd
  have hnotD1 : nd.name ∉ D1 := by
    rw [hrem1] at hnd
    have hf := List.of_mem_filter hnd
    rw [Bool.not_eq_true'] at hf
    rw [contains_false_iff] at hf
    exact hf
  rcases hKey nd hnn with hk | hk
  · exact absurd hk hnotD1
  · have hc : D2.contains nd.name = true := (contains_true_iff _ _).mpr hk
    rw [hc]
    simp

lemma mainEvents_group (h : Host) (n : ℤ) (sf : ℚ) (sc : Bool) (w hh dd : ℚ) :
    mainEvents h n sf sc w hh dd =
      ([Ev.objExistsQ "BB_Duplicates_Grp" h.grpExists]
        ++ (if h.grpExists then removeDuplicatesEvents else []))
      ++ ([Ev.group "BB_Duplicates_Grp"]
        ++ (if sc then showcaseEvents h.initialSelection hh dd h.newWindowExists
            else [])
        ++ ((List.range n.toNat).map (iterEvents h n sf sc w hh dd
            (selectedMeshesOf h))).flatten
        ++ [Ev.select h.initialSelection]) := by
  unfold mainEvents
  simp [List.append_assoc]

lemma runNodes_main1 (h : Host) (n : ℤ) (sf : ℚ) (sc : Bool) (w hh dd : ℚ)
    (hg : h.grpExists = false) (hnd : (runNames h n).Nodup) :
    runNodes [] (mainEvents h n sf sc w hh dd) = created h n sc := by
  rw [mainEvents_group, runNodes_append]
  rw [show runNodes [] ([Ev.objExistsQ "BB_Duplicates_Grp" h.grpExists]
      ++ (if h.grpExists then removeDuplicatesEvents else [])) = [] from by
    rw [hg]
    rfl]
  exact runNodes_build h n sf sc w hh dd hnd

lemma runNodes_main2 (h : Host) (n : ℤ) (sf : ℚ) (sc : Bool) (w hh dd : ℚ)
    (h1 : Host) (n1 : ℤ) (sc1 : Bool)
    (hg : h.grpExists = true) (hnd : (runNames h n).Nodup) :
    runNodes (created h1 n1 sc1) (mainEvents h n sf sc w hh dd)
      = created h n sc := by
  rw [mainEvents_group, runNodes_append]
  rw [show runNodes (created h1 n1 sc1)
      ([Ev.objExistsQ "BB_Duplicates_Grp" h.grpExists]
        ++ (if h.grpExists then removeDuplicatesEvents else []))
      = [] from by
    rw [hg, if_pos rfl, runNodes_append]
    rw [show runNodes (created h1 n1 sc1)
        [Ev.objExistsQ "BB_Duplicates_Grp" true] = created h1 n1 sc1 from rfl]
    exact runNodes_remove h1 n1 sc1]
  exact runNodes_build h n sf sc w hh dd hnd

/-- The final selection of any guard-passing run is the saved initial
selection (main.py line 153). -/
lemma dd_sel (h : Host) (n : ℤ) (sf : ℚ) (sc : Bool) (s : Scene)
    (hsel : selectedMeshesOf h ≠ [])
    (hok : n ≤ 10 ∨ h.confirmYes = true) :
    (runEvents s (duplicate_and_deform h n sf sc)).sel
      = h.initialSelection := by
  have hne : (selectedMeshesOf h).isEmpty = false := isEmpty_false_of_ne_nil hsel
  unfold duplicate_and_deform
  rw [hne]
  simp only [Bool.false_eq_true, if_false]
  by_cases h10 : n > 10
  · have hc : h.confirmYes = true := by
      rcases hok with hle | hc
      · omega
      · exact hc
    rw [if_pos h10, hc]
    simp only [if_true]
    rw [runEvents_append, runEvents_append, runEvents_append, runEvents_append]
    exact mainEvents_sel _ _ _ _ _ _ _ _
  · rw [if_neg h10]
    rw [runEvents_append, runEvents_append, runEvents_append]
    exact mainEvents_sel _ _ _ _ _ _ _ _

lemma dd_nodes (h : Host) (n : ℤ) (sf : ℚ) (sc : Bool) (c : List SNode)
    (hsel : selectedMeshesOf h ≠ [])
    (hok : n ≤ 10 ∨ h.confirmYes = true)
    (hmain : ∀ w hh dd : ℚ,
      runNodes c (mainEvents h n sf sc w hh dd) = created h n sc) :
    runNodes c (duplicate_and_deform h n sf sc) = created h n sc := by
  have hne : (selectedMeshesOf h).isEmpty = false := isEmpty_false_of_ne_nil hsel
  unfold duplicate_and_deform
  rw [hne]
  simp only [Bool.false_eq_true, if_false]
  have hpure2 : runNodes c ([Ev.lsSel h.initialSelection,
      Ev.lsShapes (h.shapes.map Prod.fst)]
      ++ (h.shapes.map fun p => Ev.nodeTypeQ p.1 p.2)) = c := by
    rw [runNodes_append]
    rw [runNodes_pure c _ (by
      intro e he
      rcases List.mem_cons.mp he with rfl | he1
      · rfl
      · rcases List.mem_singleton.mp he1 with rfl
        rfl)]
    exact runNodes_pure c _ (by
      intro e he
      rcases List.mem_map.mp he with ⟨p, _, rfl⟩
      rfl)
  have hbbox : runNodes c ((selectedMeshesOf h).map Ev.bboxQuery) = c :=
    runNodes_pure c _ (by
      intro e he
      rcases List.mem_map.mp he with ⟨m, _, rfl⟩
      rfl)
  by_cases h10 : n > 10
  · have hc : h.confirmYes = true := by
      rcases hok with hle | hc
      · omega
      · exact hc
    rw [if_pos h10, hc]
    simp only [if_true]
    rw [runNodes_append, runNodes_append, runNodes_append]
    rw [hpure2, hbbox]
    rw [show runNodes c [Ev.question true] = c from
      runNodes_pure c _ (by
        intro e he
        rcases List.mem_singleton.mp he with rfl
        rfl)]
    exact hmain _ _ _
  · rw [if_neg h10]
    rw [runNodes_append, runNodes_append]
    rw [hpure2, hbbox]
    exact hmain _ _ _

lemma mem_runNames_of_iter (h : Host) (n : ℤ) (i : ℕ)
    (hi : i ∈ List.range n.toNat) {x : String} (hx : x ∈ iterNames h i) :
    x ∈ runNames h n := by
  unfold runNames
  refine List.mem_append.mpr (Or.inr ?_)
  exact List.mem_flatten.mpr ⟨_, List.mem_map.mpr ⟨i, hi, rfl⟩, hx⟩

lemma gname_mem_iterNames (h : Host) (i : ℕ) : gname i ∈ iterNames h i :=
  List.mem_append.mpr (Or.inl (List.mem_append.mpr
    (Or.inl (List.mem_singleton_self _))))

lemma cname_mem_iterNames (h : Host) (i : ℕ) : cname i ∈ iterNames h i :=
  List.mem_append.mpr (Or.inr (List.mem_singleton_self _))

lemma meshname_mem_iterNames (h : Host) (i : ℕ) {m : String}
    (hm : m ∈ selectedMeshesOf h) {x : String}
    (hx : x ∈ [h.dupName m i, dupFinal m i, h.bsName m i]) :
    x ∈ iterNames h i :=
  List.mem_append.mpr (Or.inl (List.mem_append.mpr
    (Or.inr (mem_meshNames_of h i _ m hm hx))))

lemma good_main (h : Host) (n : ℤ) (sf : ℚ) (sc : Bool) (w hh dd : ℚ)
    (N : List String) (hsub : ∀ x ∈ runNames h n, x ∈ N) :
    ∀ e ∈ mainEvents h n sf sc w hh dd, goodEv N c9Queries e = true := by
  have hgrpN : "BB_Duplicates_Grp" ∈ N := hsub _ (List.mem_cons_self _ _)
  have hcamN : "renderCam" ∈ N :=
    hsub _ (List.mem_cons_of_mem _ (List.mem_cons_self _ _))
  have hscgN : "BB_Duplicate_Showcase_Grp" ∈ N :=
    hsub _ (List.mem_cons_of_mem _ (List.mem_cons_of_mem _
      (List.mem_cons_self _ _)))
  intro e he
  rcases mem_mainEvents he with rfl | hrem | rfl | hsc | ⟨i, hi, hit⟩ | rfl
  · rfl
  · simp only [removeDuplicatesEvents, List.mem_cons, List.not_mem_nil,
      or_false] at hrem
    rcases hrem with rfl | rfl
    · rfl
    · rfl
  · show N.contains "BB_Duplicates_Grp" = true
    rw [contains_true_iff]
    exact hgrpN
  · rcases mem_showcaseEvents hsc with rfl | rfl | rfl | rfl | rfl | rfl | rfl |
      rfl | rfl | rfl | rfl | rfl | ⟨fl, rfl⟩ | rfl | rfl | rfl | rfl
    · rfl
    · show N.contains "renderCam" = true
      rw [contains_true_iff]
      exact hcamN
    · rfl
    · show N.contains "BB_Duplicate_Showcase_Grp" = true
      rw [contains_true_iff]
      exact hscgN
    · show (N.contains "renderCam" && N.contains "BB_Duplicate_Showcase_Grp")
          = true
      rw [Bool.and_eq_true]
      exact ⟨(contains_true_iff _ _).mpr hcamN, (contains_true_iff _ _).mpr hscgN⟩
    · show (N.contains "BB_Duplicates_Grp" && N.contains "renderCam") = true
      rw [Bool.and_eq_true]
      exact ⟨(contains_true_iff _ _).mpr hgrpN, (contains_true_iff _ _).mpr hcamN⟩
    · rfl
    · rfl
    · rfl
    · rfl
    · rfl
    · rfl
    · rfl
    · rfl
    · rfl
    · rfl
    · rfl
  · have hgn : gname i ∈ N :=
      hsub _ (mem_runNames_of_iter h n i hi (gname_mem_iterNames h i))
    have hcn : cname i ∈ N :=
      hsub _ (mem_runNames_of_iter h n i hi (cname_mem_iterNames h i))
    rcases mem_iterEvents hit with rfl | ⟨m, hm, hme⟩ | rfl | rfl | rfl | rfl |
      rfl | ⟨x, y, z, rfl⟩ | ⟨x, y, z, ls, rfl⟩ | rfl | rfl | rfl | rfl
    · show N.contains (gname i) = true
      rw [contains_true_iff]
      exact hgn
    · have htmp : h.dupName m i ∈ N :=
        hsub _ (mem_runNames_of_iter h n i hi (meshname_mem_iterNames h i hm
          (List.mem_cons_self _ _)))
      have hdfN : dupFinal m i ∈ N :=
        hsub _ (mem_runNames_of_iter h n i hi (meshname_mem_iterNames h i hm
          (List.mem_cons_of_mem _ (List.mem_cons_self _ _))))
      have hbsN : h.bsName m i ∈ N :=
        hsub _ (mem_runNames_of_iter h n i hi (meshname_mem_iterNames h i hm
          (List.mem_cons_of_mem _ (List.mem_cons_of_mem _
            (List.mem_cons_self _ _)))))
      rcases mem_meshEvents hme with rfl | rfl | rfl | rfl | rfl
      · show N.contains (h.dupName m i) = true
        rw [contains_true_iff]
        exact htmp
      · show (N.contains (h.dupName m i) && N.contains (dupFinal m i)) = true
        rw [Bool.and_eq_true]
        exact ⟨(contains_true_iff _ _).mpr htmp, (contains_true_iff _ _).mpr hdfN⟩
      · show (N.contains (h.bsName m i) && N.contains (dupFinal m i)) = true
        rw [Bool.and_eq_true]
        exact ⟨(contains_true_iff _ _).mpr hbsN, (contains_true_iff _ _).mpr hdfN⟩
      · rfl
      · show (N.contains (dupFinal m i) && N.contains (gname i)) = true
        rw [Bool.and_eq_true]
        exact ⟨(contains_true_iff _ _).mpr hdfN, (contains_true_iff _ _).mpr hgn⟩
    · show N.contains (cname i) = true
      rw [contains_true_iff]
      exact hcn
    · rfl
    · rfl
    · rfl
    · rfl
    · rfl
    · rfl
    · rfl
    · rfl
    · show (N.contains (cname i) && N.contains "BB_Duplicates_Grp") = true
      rw [Bool.and_eq_true]
      exact ⟨(contains_true_iff _ _).mpr hcn, (contains_true_iff _ _).mpr hgrpN⟩
    · show (N.contains (gname i) && N.contains "BB_Duplicates_Grp") = true
      rw [Bool.and_eq_true]
      exact ⟨(contains_true_iff _ _).mpr hgn, (contains_true_iff _ _).mpr hgrpN⟩
  · rfl

lemma dd_good (h : Host) (n : ℤ) (sf : ℚ) (sc : Bool)
    (N : List String) (hsub : ∀ x ∈ runNames h n, x ∈ N) :
    ∀ e ∈ duplicate_and_deform h n sf sc, goodEv N c9Queries e = true := by
  intro e he
  unfold duplicate_and_deform at he
  rcases List.mem_append.mp he with h12 | h3
  · rcases List.mem_append.mp h12 with h1 | h2
    · rcases List.mem_cons.mp h1 with rfl | h1'
      · rfl
      · rcases List.mem_singleton.mp h1' with rfl
        rfl
    · rcases List.mem_map.mp h2 with ⟨p, _, rfl⟩
      rfl
  · split at h3
    · rcases List.mem_singleton.mp h3 with rfl
      rfl
    · rcases List.mem_append.mp h3 with hb | h4
      · rcases List.mem_map.mp hb with ⟨m, _, rfl⟩
        rfl
      · split at h4
        · rcases List.mem_append.mp h4 with hq | h5
          · rcases List.mem_singleton.mp hq with rfl
            rfl
          · split at h5
            · exact good_main h n sf sc _ _ _ N hsub e h5
            · simp at h5
        · exact good_main h n sf sc _ _ _ N hsub e h4

lemma checkRemove_false_post (h : Host) (n : ℤ) (sf : ℚ) (sc : Bool)
    (w hh dd : ℚ) :
    ∀ e ∈ ([Ev.group "BB_Duplicates_Grp"]
        ++ (if sc = true then
            showcaseEvents h.initialSelection hh dd h.newWindowExists else [])
        ++ ((List.range n.toNat).map
            (iterEvents h n sf sc w hh dd (selectedMeshesOf h))).flatten
        ++ [Ev.select h.initialSelection]),
      checkRemoveB e = false := by
  intro e he
  simp only [List.mem_append, List.mem_cons, List.not_mem_nil, or_false,
    List.mem_flatten, List.mem_map] at he
  rcases he with ((rfl | hsc') | ⟨l, ⟨i, _, rfl⟩, hel⟩) | rfl
  · rfl
  · split at hsc'
    · rcases mem_showcaseEvents hsc' with rfl | rfl | rfl | rfl | rfl | rfl |
        rfl | rfl | rfl | rfl | rfl | rfl | ⟨fl, rfl⟩ | rfl | rfl | rfl | rfl
      all_goals rfl
    · simp at hsc'
  · rcases mem_iterEvents hel with rfl | ⟨m, _, hme⟩ | rfl | rfl | rfl | rfl |
      rfl | ⟨x, y, z, rfl⟩ | ⟨x, y, z, ls, rfl⟩ | rfl | rfl | rfl | rfl
    · rfl
    · rcases mem_meshEvents hme with rfl | rfl | rfl | rfl | rfl <;> rfl
    all_goals rfl
  · rfl

lemma dd_order (h : Host) (n : ℤ) (sf : ℚ) (sc : Bool)
    (hsel : selectedMeshesOf h ≠ [])
    (hok : n ≤ 10 ∨ h.confirmYes = true) :
    beforeAllB checkRemoveB createNodeB (duplicate_and_deform h n sf sc)
      = true := by
  have hne : (selectedMeshesOf h).isEmpty = false := isEmpty_false_of_ne_nil hsel
  have hmain : ∀ w hh dd : ℚ,
      beforeAllB checkRemoveB createNodeB
        ([Ev.lsSel h.initialSelection, Ev.lsShapes (h.shapes.map Prod.fst)]
          ++ (h.shapes.map fun p => Ev.nodeTypeQ p.1 p.2)
          ++ ((selectedMeshesOf h).map Ev.bboxQuery
          ++ ((if n > 10 then [Ev.question h.confirmYes] else [])
          ++ mainEvents h n sf sc w hh dd))) = true := by
    intro w hh dd
    rw [show [Ev.lsSel h.initialSelection, Ev.lsShapes (h.shapes.map Prod.fst)]
          ++ (h.shapes.map fun p => Ev.nodeTypeQ p.1 p.2)
          ++ ((selectedMeshesOf h).map Ev.bboxQuery
          ++ ((if n > 10 then [Ev.question h.confirmYes] else [])
          ++ mainEvents h n sf sc w hh dd)) =
        ([Ev.lsSel h.initialSelection, Ev.lsShapes (h.shapes.map Prod.fst)]
          ++ (h.shapes.map fun p => Ev.nodeTypeQ p.1 p.2)
          ++ (selectedMeshesOf h).map Ev.bboxQuery
          ++ (if n > 10 then [Ev.question h.confirmYes] else [])
          ++ [Ev.objExistsQ "BB_Duplicates_Grp" h.grpExists]
          ++ (if h.grpExists = true then removeDuplicatesEvents else []))
        ++ ([Ev.group "BB_Duplicates_Grp"]
          ++ (if sc = true then
              showcaseEvents h.initialSelection hh dd h.newWindowExists else [])
          ++ ((List.range n.toNat).map
              (iterEvents h n sf sc w hh dd (selectedMeshesOf h))).flatten
          ++ [Ev.select h.initialSelection]) from by
      unfold mainEvents
      simp [List.append_assoc]]
    apply beforeAllB_append
    · intro e he
      simp only [List.mem_append, List.mem_cons, List.not_mem_nil, or_false,
        List.mem_map] at he
      rcases he with ((((((rfl | rfl) | ⟨p, _, rfl⟩) | ⟨m, _, rfl⟩) | hq) |
        rfl) | hrem)
      · rfl
      · rfl
      · rfl
      · rfl
      · split at hq
        · simp only [List.mem_cons, List.not_mem_nil, or_false] at hq
          subst hq
          rfl
        · simp at hq
      · rfl
      · split at hrem
        · simp only [removeDuplicatesEvents, List.mem_cons, List.not_mem_nil,
            or_false] at hrem
          rcases hrem with rfl | rfl <;> rfl
        · simp at hrem
    · exact checkRemove_false_post h n sf sc w hh dd
  unfold duplicate_and_deform
  rw [hne]
  simp only [Bool.false_eq_true, if_false]
  by_cases h10 : n > 10
  · have hc : h.confirmYes = true := by
      rcases hok with hle | hc
      · omega
      · exact hc
    rw [if_pos h10, hc]
    simp only [if_true]
    have hh2 := hmain (calculate_bounding_box h.bbox (selectedMeshesOf h)).1.toQ
      (calculate_bounding_box h.bbox (selectedMeshesOf h)).2.1.toQ
      (calculate_bounding_box h.bbox (selectedMeshesOf h)).2.2.toQ
    rw [if_pos h10, hc] at hh2
    exact hh2
  · rw [if_neg h10]
    have hh2 := hmain (calculate_bounding_box h.bbox (selectedMeshesOf h)).1.toQ
      (calculate_bounding_box h.bbox (selectedMeshesOf h)).2.1.toQ
      (calculate_bounding_box h.bbox (selectedMeshesOf h)).2.2.toQ
    rw [if_neg h10] at hh2
    simpa using hh2

lemma objE_main (h : Host) (n : ℤ) (sf : ℚ) (sc : Bool) (w hh dd : ℚ) :
    (mainEvents h n sf sc w hh dd).filterMap evObjE =
      [("BB_Duplicates_Grp", h.grpExists)] := by
  unfold mainEvents
  rw [List.filterMap_append, List.filterMap_append, List.filterMap_append,
    List.filterMap_append, List.filterMap_append]
  rw [show ([Ev.objExistsQ "BB_Duplicates_Grp" h.grpExists]).filterMap evObjE
      = [("BB_Duplicates_Grp", h.grpExists)] from rfl]
  rw [show ((if h.grpExists then removeDuplicatesEvents else [])).filterMap
      evObjE = [] from by
    split
    · rfl
    · rfl]
  rw [show ([Ev.group "BB_Duplicates_Grp"]).filterMap evObjE = [] from rfl]
  rw [show ((if sc then showcaseEvents h.initialSelection hh dd
      h.newWindowExists else [])).filterMap evObjE = [] from by
    split
    · rw [List.filterMap_eq_nil_iff.mpr ?_]
      intro e he
      rcases mem_showcaseEvents he with rfl | rfl | rfl | rfl | rfl | rfl |
        rfl | rfl | rfl | rfl | rfl | rfl | ⟨fl, rfl⟩ | rfl | rfl | rfl | rfl
      all_goals rfl
    · rfl]
  rw [show (((List.range n.toNat).map (iterEvents h n sf sc w hh dd
      (selectedMeshesOf h))).flatten).filterMap evObjE = [] from by
    rw [List.filterMap_eq_nil_iff.mpr ?_]
    intro e he
    rcases List.mem_flatten.mp he with ⟨l, hl, hel⟩
    rcases List.mem_map.mp hl with ⟨i, _, rfl⟩
    rcases mem_iterEvents hel with rfl | ⟨m, _, hme⟩ | rfl | rfl | rfl | rfl |
      rfl | ⟨x, y, z, rfl⟩ | ⟨x, y, z, ls, rfl⟩ | rfl | rfl | rfl | rfl
    · rfl
    · rcases mem_meshEvents hme with rfl | rfl | rfl | rfl | rfl <;> rfl
    all_goals rfl]
  rfl

lemma dd_objE (h : Host) (n : ℤ) (sf : ℚ) (sc : Bool)
    (hsel : selectedMeshesOf h ≠ [])
    (hok : n ≤ 10 ∨ h.confirmYes = true) :
    (duplicate_and_deform h n sf sc).filterMap evObjE =
      [("BB_Duplicates_Grp", h.grpExists)] := by
  have hne : (selectedMeshesOf h).isEmpty = false := isEmpty_false_of_ne_nil hsel
  unfold duplicate_and_deform
  rw [hne]
  simp only [Bool.false_eq_true, if_false]
  rw [List.filterMap_append, List.filterMap_append]
  rw [show ([Ev.lsSel h.initialSelection,
      Ev.lsShapes (h.shapes.map Prod.fst)]).filterMap evObjE = [] from rfl]
  rw [show ((h.shapes.map fun p => Ev.nodeTypeQ p.1 p.2)).filterMap evObjE
      = [] from by
    rw [List.filterMap_eq_nil_iff.mpr ?_]
    intro e he
    rcases List.mem_map.mp he with ⟨p, _, rfl⟩
    rfl]
  rw [List.filterMap_append]
  rw [show (((selectedMeshesOf h).map Ev.bboxQuery)).filterMap evObjE = []
      from by
    rw [List.filterMap_eq_nil_iff.mpr ?_]
    intro e he
    rcases List.mem_map.mp he with ⟨m, _, rfl⟩
    rfl]
  by_cases h10 : n > 10
  · have hc : h.confirmYes = true := by
      rcases hok with hle | hc
      · omega
      · exact hc
    rw [if_pos h10, hc]
    simp only [if_true]
    rw [List.filterMap_append]
    rw [show ([Ev.question true]).filterMap evObjE = [] from rfl]
    rw [objE_main]
    rfl
  · rw [if_neg h10]
    rw [objE_main]
    rfl

lemma created_names_sub (h : Host) (n : ℤ) (sc : Bool) :
    ∀ nd ∈ created h n sc, nd.name ∈ runNames h n := by
  intro nd hnd
  unfold created at hnd
  rcases List.mem_append.mp hnd with h12 | h3
  · rcases List.mem_append.mp h12 with h1 | h2
    · rcases List.mem_singleton.mp h1 with rfl
      exact List.mem_cons_self _ _
    · split at h2
      · rcases List.mem_cons.mp h2 with rfl | h2'
        · exact List.mem_cons_of_mem _ (List.mem_cons_self _ _)
        · rcases List.mem_singleton.mp h2' with rfl
          exact List.mem_cons_of_mem _ (List.mem_cons_of_mem _
            (List.mem_cons_self _ _))
      · simp at h2
  · rcases List.mem_flatten.mp h3 with ⟨l, hl, hnl⟩
    rcases List.mem_map.mp hl with ⟨i, hi, rfl⟩
    exact mem_runNames_of_iter h n i hi
      (iterBlock_links h (selectedMeshesOf h) i nd hnl).1

lemma created_count_grp (h : Host) (n : ℤ) (sc : Bool)
    (hnd : (runNames h n).Nodup) :
    ((created h n sc).map SNode.name).count "BB_Duplicates_Grp" = 1 := by
  have hnotflat : "BB_Duplicates_Grp" ∉
      (((List.range n.toNat).map (iterBlock h (selectedMeshesOf h))).flatten).map
        SNode.name := by
    intro hm
    rcases List.mem_map.mp hm with ⟨nd, hnd', hEq⟩
    rcases List.mem_flatten.mp hnd' with ⟨l, hl, hnl⟩
    rcases List.mem_map.mp hl with ⟨i, hi, rfl⟩
    have hnames := (iterBlock_links h (selectedMeshesOf h) i nd hnl).1
    have hmem : "BB_Duplicates_Grp" ∈ iterNames h i := by
      rw [← hEq]
      exact hnames
    have hflat : "BB_Duplicates_Grp" ∈
        ((List.range n.toNat).map (iterNames h)).flatten :=
      List.mem_flatten.mpr ⟨_, List.mem_map.mpr ⟨i, hi, rfl⟩, hmem⟩
    exact (List.nodup_cons.mp hnd).1 (List.mem_cons_of_mem _
      (List.mem_cons_of_mem _ hflat))
  unfold created
  rw [List.map_append, List.map_append, List.count_append, List.count_append]
  rw [show ([(⟨"BB_Duplicates_Grp", "transform",
      if sc = true then some "renderCam" else none, none⟩ : SNode)]).map
      SNode.name = ["BB_Duplicates_Grp"] from rfl]
  rw [show (["BB_Duplicates_Grp"] : List String).count "BB_Duplicates_Grp"
      = 1 from by decide]
  rw [show (((if sc = true then
      [(⟨"renderCam", "transform", some "BB_Duplicate_Showcase_Grp", none⟩
        : SNode), ⟨"BB_Duplicate_Showcase_Grp", "transform", none, none⟩]
      else []) : List SNode).map SNode.name).count "BB_Duplicates_Grp" = 0
      from by
    split
    · decide
    · decide]
  rw [List.count_eq_zero.mpr hnotflat]

lemma strStarts_dupF (m : String) (i : ℕ) :
    strStarts "BB_Duplicate_Mesh_" (dupFinal m i) = false := rfl

lemma str_append_assoc (a b c : String) :
    (a ++ b) ++ c = a ++ (b ++ c) := by
  obtain ⟨x⟩ := a
  obtain ⟨y⟩ := b
  obtain ⟨z⟩ := c
  show String.mk ((x ++ y) ++ z) = String.mk (x ++ (y ++ z))
  exact congrArg String.mk (List.append_assoc x y z)

lemma strStarts_cname (i : ℕ) :
    strStarts "BB_Duplicate_Mesh_" (cname i) = true := by
  have hc : cname i = "BB_Duplicate_Mesh_" ++ (pad2 (i + 1) ++ "_ctrl") := by
    show gname i ++ "_ctrl" = _
    unfold gname
    exact str_append_assoc _ _ _
  rw [hc]
  exact strStarts_append _ _

lemma strStarts_gname (i : ℕ) :
    strStarts "BB_Duplicate_Mesh_" (gname i) = true := by
  show strStarts "BB_Duplicate_Mesh_" ("BB_Duplicate_Mesh_" ++ pad2 (i + 1))
      = true
  exact strStarts_append _ _

lemma iter_filter_piece (h : Host) (i : ℕ)
    (hbs : ∀ m ∈ selectedMeshesOf h,
      strStarts "BB_Duplicate_Mesh_" (h.bsName m i) = false) :
    ((iterBlock h (selectedMeshesOf h) i).map SNode.name).filter
      (strStarts "BB_Duplicate_Mesh_") = [gname i, cname i] := by
  unfold iterBlock
  rw [List.map_append, List.map_append, List.filter_append, List.filter_append]
  rw [show ([(⟨gname i, "transform", some "BB_Duplicates_Grp", none⟩
      : SNode)]).map SNode.name = [gname i] from rfl]
  rw [List.filter_cons_of_pos (strStarts_gname i)]
  rw [show (((selectedMeshesOf h).map (meshBlock h i)).flatten.map
      SNode.name).filter (strStarts "BB_Duplicate_Mesh_") = [] from
    List.filter_eq_nil_iff.mpr ?_]
  rw [show ([(⟨cname i, "transform", some "BB_Duplicates_Grp", none⟩
      : SNode)]).map SNode.name = [cname i] from rfl]
  rw [List.filter_cons_of_pos (strStarts_cname i)]
  · rfl
  · intro x hx
    rcases List.mem_map.mp hx with ⟨nd, hnd, rfl⟩
    rcases List.mem_flatten.mp hnd with ⟨l, hl, hnl⟩
    rcases List.mem_map.mp hl with ⟨m, hm, rfl⟩
    have hnl' := hnl
    rw [show meshBlock h i m =
      [(⟨dupFinal m i, "transform", some (gname i), none⟩ : SNode),
       ⟨h.bsName m i, "blendShape", none, some (dupFinal m i)⟩] from rfl]
      at hnl'
    rcases List.mem_cons.mp hnl' with rfl | hB
    · rw [strStarts_dupF]
      simp
    · rcases List.mem_singleton.mp hB with rfl
      rw [hbs m hm]
      simp

lemma created_filter_aux (h : Host) :
    ∀ is : List ℕ,
      (∀ i ∈ is, ∀ m ∈ selectedMeshesOf h,
        strStarts "BB_Duplicate_Mesh_" (h.bsName m i) = false) →
      (((is.map (iterBlock h (selectedMeshesOf h))).flatten).map
        SNode.name).filter (strStarts "BB_Duplicate_Mesh_")
        = (is.map (fun i => [gname i, cname i])).flatten := by
  intro is
  induction is with
  | nil => intro _; rfl
  | cons i rest ih =>
      intro hbs
      simp only [List.map_cons, List.flatten_cons, List.map_append,
        List.filter_append]
      rw [ih (fun j hj => hbs j (List.mem_cons_of_mem _ hj))]
      rw [iter_filter_piece h i (hbs i (List.mem_cons_self _ _))]

lemma created_filter_prefix (h : Host) (n : ℤ) (sc : Bool)
    (hbs : ∀ i ∈ List.range n.toNat, ∀ m ∈ selectedMeshesOf h,
      strStarts "BB_Duplicate_Mesh_" (h.bsName m i) = false) :
    ((created h n sc).map SNode.name).filter (strStarts "BB_Duplicate_Mesh_")
      = ((List.range n.toNat).map (fun i => [gname i, cname i])).flatten := by
  unfold created
  rw [List.map_append, List.map_append, List.filter_append, List.filter_append]
  rw [show ([(⟨"BB_Duplicates_Grp", "transform",
      if sc = true then some "renderCam" else none, none⟩ : SNode)]).map
      SNode.name = ["BB_Duplicates_Grp"] from rfl]
  rw [show (["BB_Duplicates_Grp"] : List String).filter
      (strStarts "BB_Duplicate_Mesh_") = [] from by decide]
  rw [show (((if sc = true then
      [(⟨"renderCam", "transform", some "BB_Duplicate_Showcase_Grp", none⟩
        : SNode), ⟨"BB_Duplicate_Showcase_Grp", "transform", none, none⟩]
      else []) : List SNode).map SNode.name).filter
      (strStarts "BB_Duplicate_Mesh_") = [] from by
    split
    · decide
    · rfl]
  rw [created_filter_aux h (List.range n.toNat) hbs]
  rfl

lemma run1_scene (h1 : Host) (n1 : ℤ) (sf1 : ℚ) (sc1 : Bool) (s : Scene)
    (N : List String)
    (hsub : ∀ x ∈ runNames h1 n1, x ∈ N)
    (hclean : ∀ nd ∈ s.nodes, sceneNodeClean N c9Queries nd)
    (hg : h1.grpExists = false)
    (hsel : selectedMeshesOf h1 ≠ [])
    (hok : n1 ≤ 10 ∨ h1.confirmYes = true)
    (hnd : (runNames h1 n1).Nodup) :
    runEvents s (duplicate_and_deform h1 n1 sf1 sc1) =
      ⟨s.nodes ++ created h1 n1 sc1, h1.initialSelection⟩ := by
  have hfr := runEvents_frame N c9Queries s.nodes hclean
    (duplicate_and_deform h1 n1 sf1 sc1) [] s.sel
    (dd_good h1 n1 sf1 sc1 N hsub)
    (fun nd hmem => absurd hmem (List.not_mem_nil nd))
  rw [List.append_nil] at hfr
  have hnodes : (runEvents ⟨([] : List SNode), s.sel⟩
      (duplicate_and_deform h1 n1 sf1 sc1)).nodes = created h1 n1 sc1 := by
    rw [runEvents_split]
    exact dd_nodes h1 n1 sf1 sc1 [] hsel hok
      (fun w hh dd => runNodes_main1 h1 n1 sf1 sc1 w hh dd hg hnd)
  have hsel1 : (runEvents ⟨([] : List SNode), s.sel⟩
      (duplicate_and_deform h1 n1 sf1 sc1)).sel = h1.initialSelection :=
    dd_sel h1 n1 sf1 sc1 _ hsel hok
  rw [hnodes, hsel1] at hfr
  exact hfr

lemma run2_scene (h2 : Host) (n2 : ℤ) (sf2 : ℚ) (sc2 : Bool)
    (h1 : Host) (n1 : ℤ) (sc1 : Bool) (s : Scene) (N : List String)
    (sel1 : List String)
    (hsub : ∀ x ∈ runNames h2 n2, x ∈ N)
    (hclean : ∀ nd ∈ s.nodes, sceneNodeClean N c9Queries nd)
    (hc1 : ∀ nd ∈ created h1 n1 sc1, nd.name ∈ N)
    (hg : h2.grpExists = true)
    (hsel : selectedMeshesOf h2 ≠ [])
    (hok : n2 ≤ 10 ∨ h2.confirmYes = true)
    (hnd : (runNames h2 n2).Nodup) :
    runEvents ⟨s.nodes ++ created h1 n1 sc1, sel1⟩
      (duplicate_and_deform h2 n2 sf2 sc2) =
      ⟨s.nodes ++ created h2 n2 sc2, h2.initialSelection⟩ := by
  have hfr := runEvents_frame N c9Queries s.nodes hclean
    (duplicate_and_deform h2 n2 sf2 sc2) (created h1 n1 sc1) sel1
    (dd_good h2 n2 sf2 sc2 N hsub) hc1
  have hnodes : (runEvents ⟨created h1 n1 sc1, sel1⟩
      (duplicate_and_deform h2 n2 sf2 sc2)).nodes = created h2 n2 sc2 := by
    rw [runEvents_split]
    exact dd_nodes h2 n2 sf2 sc2 (created h1 n1 sc1) hsel hok
      (fun w hh dd => runNodes_main2 h2 n2 sf2 sc2 w hh dd h1 n1 sc1 hg hnd)
  have hsel2 : (runEvents ⟨created h1 n1 sc1, sel1⟩
      (duplicate_and_deform h2 n2 sf2 sc2)).sel = h2.initialSelection :=
    dd_sel h2 n2 sf2 sc2 _ hsel hok
  rw [hnodes, hsel2] at hfr
  exact hfr

/-- Claim C9: in every guard-passing run, the `BB_Duplicates_Grp` existence
check and the `remove_duplicates` deletions precede every node creation, and
the only existence check is for `BB_Duplicates_Grp`.  Running the tool from
any tool-clean scene (host names fresh and free of the tool's group-name
prefix) leaves the untouched user nodes plus exactly that run's nodes: one
`BB_Duplicates_Grp` and exactly that run's duplicate groups and control
circles.  Running it again deletes everything the first run created before
rebuilding, so the second run's scene again holds the user nodes plus exactly
the second run's nodes - repeated invocations do not accumulate duplicates. -/
theorem claim_C9 (h1 h2 : Host) (n1 n2 : ℤ) (sf1 sf2 : ℚ) (sc1 sc2 : Bool)
    (s : Scene)
    (hg1 : h1.grpExists = false) (hg2 : h2.grpExists = true)
    (hsel1 : selectedMeshesOf h1 ≠ []) (hsel2 : selectedMeshesOf h2 ≠ [])
    (hok1 : n1 ≤ 10 ∨ h1.confirmYes = true)
    (hok2 : n2 ≤ 10 ∨ h2.confirmYes = true)
    (hnd1 : (runNames h1 n1).Nodup) (hnd2 : (runNames h2 n2).Nodup)
    (hclean : ∀ nd ∈ s.nodes,
      sceneNodeClean (runNames h1 n1 ++ runNames h2 n2) c9Queries nd)
    (hpref : ∀ nd ∈ s.nodes, strStarts "BB_Duplicate_Mesh_" nd.name = false)
    (hbs1 : ∀ i ∈ List.range n1.toNat, ∀ m ∈ selectedMeshesOf h1,
      strStarts "BB_Duplicate_Mesh_" (h1.bsName m i) = false)
    (hbs2 : ∀ i ∈ List.range n2.toNat, ∀ m ∈ selectedMeshesOf h2,
      strStarts "BB_Duplicate_Mesh_" (h2.bsName m i) = false) :
    beforeAllB checkRemoveB createNodeB
        (duplicate_and_deform h1 n1 sf1 sc1) = true
    ∧ beforeAllB checkRemoveB createNodeB
        (duplicate_and_deform h2 n2 sf2 sc2) = true
    ∧ (duplicate_and_deform h1 n1 sf1 sc1).filterMap evObjE =
        [("BB_Duplicates_Grp", false)]
    ∧ (duplicate_and_deform h2 n2 sf2 sc2).filterMap evObjE =
        [("BB_Duplicates_Grp", true)]
    ∧ runEvents s (duplicate_and_deform h1 n1 sf1 sc1) =
        ⟨s.nodes ++ created h1 n1 sc1, h1.initialSelection⟩
    ∧ ((s.nodes ++ created h1 n1 sc1).map SNode.name).count
        "BB_Duplicates_Grp" = 1
    ∧ ((s.nodes ++ created h1 n1 sc1).map SNode.name).filter
          (strStarts "BB_Duplicate_Mesh_")
        = ((List.range n1.toNat).map (fun i => [gname i, cname i])).flatten
    ∧ runEvents (runEvents s (duplicate_and_deform h1 n1 sf1 sc1))
          (duplicate_and_deform h2 n2 sf2 sc2) =
        ⟨s.nodes ++ created h2 n2 sc2, h2.initialSelection⟩
    ∧ ((s.nodes ++ created h2 n2 sc2).map SNode.name).count
        "BB_Duplicates_Grp" = 1
    ∧ ((s.nodes ++ created h2 n2 sc2).map SNode.name).filter
          (strStarts "BB_Duplicate_Mesh_")
        = ((List.range n2.toNat).map (fun i => [gname i, cname i])).flatten := by
  have hsub1 : ∀ x ∈ runNames h1 n1, x ∈ runNames h1 n1 ++ runNames h2 n2 :=
    fun x hx => List.mem_append.mpr (Or.inl hx)
  have hsub2 : ∀ x ∈ runNames h2 n2, x ∈ runNames h1 n1 ++ runNames h2 n2 :=
    fun x hx => List.mem_append.mpr (Or.inr hx)
  have hsnodes : ∀ nd ∈ s.nodes, nd.name ∉ runNames h1 n1 ++ runNames h2 n2 :=
    fun nd hnd => by
      have hcl := (hclean nd hnd).1.1
      rw [contains_false_iff] at hcl
      exact hcl
  have hgrpN : "BB_Duplicates_Grp" ∈ runNames h1 n1 ++ runNames h2 n2 :=
    List.mem_append.mpr (Or.inl (List.mem_cons_self _ _))
  have hcount0 : ("BB_Duplicates_Grp" : String) ∉ s.nodes.map SNode.name := by
    intro hm
    rcases List.mem_map.mp hm with ⟨nd, hnd', hEq⟩
    apply hsnodes nd hnd'
    rw [hEq]
    exact hgrpN
  have hfilter0 : (s.nodes.map SNode.name).filter
      (strStarts "BB_Duplicate_Mesh_") = [] := by
    rw [List.filter_eq_nil_iff]
    intro x hx
    rcases List.mem_map.mp hx with ⟨nd, hnd', rfl⟩
    simp [hpref nd hnd']
  have h5 : runEvents s (duplicate_and_deform h1 n1 sf1 sc1) =
      ⟨s.nodes ++ created h1 n1 sc1, h1.initialSelection⟩ :=
    run1_scene h1 n1 sf1 sc1 s _ hsub1 hclean hg1 hsel1 hok1 hnd1
  have h8 : runEvents (runEvents s (duplicate_and_deform h1 n1 sf1 sc1))
      (duplicate_and_deform h2 n2 sf2 sc2) =
      ⟨s.nodes ++ created h2 n2 sc2, h2.initialSelection⟩ := by
    rw [h5]
    exact run2_scene h2 n2 sf2 sc2 h1 n1 sc1 s _ h1.initialSelection
      hsub2 hclean
      (fun nd hnd => hsub1 _ (created_names_sub h1 n1 sc1 nd hnd))
      hg2 hsel2 hok2 hnd2
  have hobj1 : (duplicate_and_deform h1 n1 sf1 sc1).filterMap evObjE =
      [("BB_Duplicates_Grp", false)] := by
    have hd := dd_objE h1 n1 sf1 sc1 hsel1 hok1
    rw [hg1] at hd
    exact hd
  have hobj2 : (duplicate_and_deform h2 n2 sf2 sc2).filterMap evObjE =
      [("BB_Duplicates_Grp", true)] := by
    have hd := dd_objE h2 n2 sf2 sc2 hsel2 hok2
    rw [hg2] at hd
    exact hd
  refine ⟨dd_order h1 n1 sf1 sc1 hsel1 hok1, dd_order h2 n2 sf2 sc2 hsel2 hok2,
    hobj1, hobj2, h5, ?_, ?_, h8, ?_, ?_⟩
  · rw [List.map_append, List.count_append, List.count_eq_zero.mpr hcount0,
      created_count_grp h1 n1 sc1 hnd1]
  · rw [List.map_append, List.filter_append, hfilter0,
      created_filter_prefix h1 n1 sc1 hbs1, List.nil_append]
  · rw [List.map_append, List.count_append, List.count_eq_zero.mpr hcount0,
      created_count_grp h2 n2 sc2 hnd2]
  · rw [List.map_append, List.filter_append, hfilter0,
      created_filter_prefix h2 n2 sc2 hbs2, List.nil_append]

theorem claim_C9_witness :
    hW.grpExists = false
    ∧ hC9b.grpExists = true
    ∧ selectedMeshesOf hW ≠ []
    ∧ (runNames hW 2).Nodup
    ∧ (runNames hC9b 3).Nodup
    ∧ (∀ nd ∈ sW.nodes,
        sceneNodeClean (runNames hW 2 ++ runNames hC9b 3) c9Queries nd)
    ∧ (∀ nd ∈ sW.nodes, strStarts "BB_Duplicate_Mesh_" nd.name = false)
    ∧ (beforeAllB checkRemoveB createNodeB
          (duplicate_and_deform hW 2 1 true) = true
      ∧ beforeAllB checkRemoveB createNodeB
          (duplicate_and_deform hC9b 3 1 true) = true
      ∧ (duplicate_and_deform hW 2 1 true).filterMap evObjE =
          [("BB_Duplicates_Grp", false)]
      ∧ (duplicate_and_deform hC9b 3 1 true).filterMap evObjE =
          [("BB_Duplicates_Grp", true)]
      ∧ runEvents sW (duplicate_and_deform hW 2 1 true) =
          ⟨sW.nodes ++ created hW 2 true, hW.initialSelection⟩
      ∧ ((sW.nodes ++ created hW 2 true).map SNode.name).count
          "BB_Duplicates_Grp" = 1
      ∧ ((sW.nodes ++ created hW 2 true).map SNode.name).filter
            (strStarts "BB_Duplicate_Mesh_")
          = ((List.range (2 : ℤ).toNat).map
              (fun i => [gname i, cname i])).flatten
      ∧ runEvents (runEvents sW (duplicate_and_deform hW 2 1 true))
            (duplicate_and_deform hC9b 3 1 true) =
          ⟨sW.nodes ++ created hC9b 3 true, hC9b.initialSelection⟩
      ∧ ((sW.nodes ++ created hC9b 3 true).map SNode.name).count
          "BB_Duplicates_Grp" = 1
      ∧ ((sW.nodes ++ created hC9b 3 true).map SNode.name).filter
            (strStarts "BB_Duplicate_Mesh_")
          = ((List.range (3 : ℤ).toNat).map
              (fun i => [gname i, cname i])).flatten) :=
  ⟨rfl, rfl, by decide, by decide, by decide,
   by
    intro nd hnd
    have hnd' : nd = ⟨"userNode", "transform", none, none⟩ := by
      simpa [sW] using hnd
    subst hnd'
    exact ⟨⟨by decide, trivial, trivial⟩, by decide⟩,
   by decide,
   claim_C9 hW hC9b 2 3 1 1 true true sW rfl rfl (by decide) (by decide)
     (Or.inl (by decide)) (Or.inl (by decide)) (by decide) (by decide)
     (by
      intro nd hnd
      have hnd' : nd = ⟨"userNode", "transform", none, none⟩ := by
        simpa [sW] using hnd
      subst hnd'
      exact ⟨⟨by decide, trivial, trivial⟩, by decide⟩)
     (by decide) (by decide) (by decide)⟩
